import Mathlib

/-!
# OGR SDE data source: the versioned edit session

A shallow embedding of `gdal/ogr/ogrsf_frmts/sde/ogrsdedatasource.cpp`.

The ArcSDE client library is external to the repository.  Every call the
data source makes to it is recorded, in order, in a trace carried by the
model of the object, and the value it returns is read from an environment
`Env` that is universally quantified in the theorems: the data source is
verified against every behaviour of the backend.  Reports made through
`CPLError` are recorded in a second list.
-/

namespace OGRSDE

/-! ## Calls to the ArcSDE client library -/

/-- The ArcSDE calls made by the session code, with the arguments that the
properties talk about.  The accessors `CreateLayerFromRegInfo` applies to a
registration record (`SE_reginfo_has_layer`, `SE_reginfo_is_hidden`,
`SE_reginfo_get_table_name`, `SE_reginfo_get_rowid_column`) and
`SE_error_get_string` are read from the environment directly and are not
traced; the `SE_reginfo_get_table_name` call of `CreateLayer`, whose return
code decides a failure path, is traced. -/
inductive Call where
  | SE_connection_create (server inst database username password : String)
  | SE_connection_set_concurrency
  | SE_connection_start_transaction
  | SE_connection_commit_transaction
  | SE_connection_rollback_transaction
  | SE_connection_free
  | SE_versioninfo_create
  | SE_versioninfo_free
  | SE_version_get_info (pszVersionName : String)
  | SE_versioninfo_get_state_id
  | SE_stateinfo_create
  | SE_stateinfo_free
  | SE_state_get_info (nState : Int)
  | SE_stateinfo_is_open
  | SE_state_create (nParent : Int)
  | SE_stateinfo_get_id
  | SE_state_open (nState : Int)
  | SE_state_close (nState : Int)
  | SE_state_delete (nState : Int)
  | SE_version_change_state (nState : Int)
  | SE_state_trim_tree (nFrom nTo : Int)
  | SE_registration_get_info_list
  | SE_registration_free_info_list
  | SE_reginfo_create
  | SE_registration_get_info (pszTableName : String)
  | SE_reginfo_free
  | SE_layer_delete (pszTableName pszColumn : String)
  | SE_registration_get_dependent_tables (pszTableName : String)
  | SE_registration_free_dependent_tables
  | SE_versioninfo_get_name
  | SE_registration_make_single_version (pszVersionName pszTableName : String)
  | SE_registration_delete (pszTableName : String)
  | SE_table_delete (pszTableName : String)
  | SE_table_create (pszLayerName : String)
  | SE_coordref_create
  | SE_coordref_set_xy_by_envelope
  | SE_coordref_set_by_description (pszWkt : String)
  | SE_coordref_get_xy_envelope
  | SE_coordref_free
  | SE_layerinfo_create
  | SE_layerinfo_free
  | SE_layerinfo_set_shape_types (nLayerShapeTypes : Nat)
  | SE_layerinfo_set_spatial_column (pszLayerName pszGeometryName : String)
  | SE_layerinfo_set_creation_keyword (pszDbtuneKeyword : String)
  | SE_layerinfo_set_envelope
  | SE_layerinfo_set_description (pszLayerDescription : String)
  | SE_layerinfo_set_grid_sizes
  | SE_layerinfo_set_coordref
  | SE_layer_create
  | SE_reginfo_set_creation_keyword (pszDbtuneKeyword : String)
  | SE_reginfo_set_rowid_column (pszExpectedFIDName : String)
  | SE_reginfo_set_multiversion
  | SE_registration_alter
  | SE_reginfo_get_table_name
  deriving Repr

/-- The position of a call in the declaration of `Call`, with its arguments: an
encoding of calls used to decide their equality. -/
def Call.code : Call → Nat × List String × List Int
  | .SE_connection_create server inst database username password =>
    (0, [server, inst, database, username, password], [])
  | .SE_connection_set_concurrency => (1, [], [])
  | .SE_connection_start_transaction => (2, [], [])
  | .SE_connection_commit_transaction => (3, [], [])
  | .SE_connection_rollback_transaction => (4, [], [])
  | .SE_connection_free => (5, [], [])
  | .SE_versioninfo_create => (6, [], [])
  | .SE_versioninfo_free => (7, [], [])
  | .SE_version_get_info pszVersionName => (8, [pszVersionName], [])
  | .SE_versioninfo_get_state_id => (9, [], [])
  | .SE_stateinfo_create => (10, [], [])
  | .SE_stateinfo_free => (11, [], [])
  | .SE_state_get_info nState => (12, [], [nState])
  | .SE_stateinfo_is_open => (13, [], [])
  | .SE_state_create nParent => (14, [], [nParent])
  | .SE_stateinfo_get_id => (15, [], [])
  | .SE_state_open nState => (16, [], [nState])
  | .SE_state_close nState => (17, [], [nState])
  | .SE_state_delete nState => (18, [], [nState])
  | .SE_version_change_state nState => (19, [], [nState])
  | .SE_state_trim_tree nFrom nTo => (20, [], [nFrom, nTo])
  | .SE_registration_get_info_list => (21, [], [])
  | .SE_registration_free_info_list => (22, [], [])
  | .SE_reginfo_create => (23, [], [])
  | .SE_registration_get_info pszTableName => (24, [pszTableName], [])
  | .SE_reginfo_free => (25, [], [])
  | .SE_layer_delete pszTableName pszColumn => (26, [pszTableName, pszColumn], [])
  | .SE_registration_get_dependent_tables pszTableName => (27, [pszTableName], [])
  | .SE_registration_free_dependent_tables => (28, [], [])
  | .SE_versioninfo_get_name => (29, [], [])
  | .SE_registration_make_single_version pszVersionName pszTableName =>
    (30, [pszVersionName, pszTableName], [])
  | .SE_registration_delete pszTableName => (31, [pszTableName], [])
  | .SE_table_delete pszTableName => (32, [pszTableName], [])
  | .SE_table_create pszLayerName => (33, [pszLayerName], [])
  | .SE_coordref_create => (34, [], [])
  | .SE_coordref_set_xy_by_envelope => (35, [], [])
  | .SE_coordref_set_by_description pszWkt => (36, [pszWkt], [])
  | .SE_coordref_get_xy_envelope => (37, [], [])
  | .SE_coordref_free => (38, [], [])
  | .SE_layerinfo_create => (39, [], [])
  | .SE_layerinfo_free => (40, [], [])
  | .SE_layerinfo_set_shape_types nLayerShapeTypes => (41, [], [(nLayerShapeTypes : Int)])
  | .SE_layerinfo_set_spatial_column pszLayerName pszGeometryName =>
    (42, [pszLayerName, pszGeometryName], [])
  | .SE_layerinfo_set_creation_keyword pszDbtuneKeyword => (43, [pszDbtuneKeyword], [])
  | .SE_layerinfo_set_envelope => (44, [], [])
  | .SE_layerinfo_set_description pszLayerDescription => (45, [pszLayerDescription], [])
  | .SE_layerinfo_set_grid_sizes => (46, [], [])
  | .SE_layerinfo_set_coordref => (47, [], [])
  | .SE_layer_create => (48, [], [])
  | .SE_reginfo_set_creation_keyword pszDbtuneKeyword => (49, [pszDbtuneKeyword], [])
  | .SE_reginfo_set_rowid_column pszExpectedFIDName => (50, [pszExpectedFIDName], [])
  | .SE_reginfo_set_multiversion => (51, [], [])
  | .SE_registration_alter => (52, [], [])
  | .SE_reginfo_get_table_name => (53, [], [])

/-- The call with a given code. -/
def Call.ofCode (x : Nat × List String × List Int) : Option Call :=
  let s := fun i => x.2.1.getD i ""
  let n := fun i => x.2.2.getD i 0
  match x.1 with
  | 0 => some (.SE_connection_create (s 0) (s 1) (s 2) (s 3) (s 4))
  | 1 => some (.SE_connection_set_concurrency)
  | 2 => some (.SE_connection_start_transaction)
  | 3 => some (.SE_connection_commit_transaction)
  | 4 => some (.SE_connection_rollback_transaction)
  | 5 => some (.SE_connection_free)
  | 6 => some (.SE_versioninfo_create)
  | 7 => some (.SE_versioninfo_free)
  | 8 => some (.SE_version_get_info (s 0))
  | 9 => some (.SE_versioninfo_get_state_id)
  | 10 => some (.SE_stateinfo_create)
  | 11 => some (.SE_stateinfo_free)
  | 12 => some (.SE_state_get_info (n 0))
  | 13 => some (.SE_stateinfo_is_open)
  | 14 => some (.SE_state_create (n 0))
  | 15 => some (.SE_stateinfo_get_id)
  | 16 => some (.SE_state_open (n 0))
  | 17 => some (.SE_state_close (n 0))
  | 18 => some (.SE_state_delete (n 0))
  | 19 => some (.SE_version_change_state (n 0))
  | 20 => some (.SE_state_trim_tree (n 0) (n 1))
  | 21 => some (.SE_registration_get_info_list)
  | 22 => some (.SE_registration_free_info_list)
  | 23 => some (.SE_reginfo_create)
  | 24 => some (.SE_registration_get_info (s 0))
  | 25 => some (.SE_reginfo_free)
  | 26 => some (.SE_layer_delete (s 0) (s 1))
  | 27 => some (.SE_registration_get_dependent_tables (s 0))
  | 28 => some (.SE_registration_free_dependent_tables)
  | 29 => some (.SE_versioninfo_get_name)
  | 30 => some (.SE_registration_make_single_version (s 0) (s 1))
  | 31 => some (.SE_registration_delete (s 0))
  | 32 => some (.SE_table_delete (s 0))
  | 33 => some (.SE_table_create (s 0))
  | 34 => some (.SE_coordref_create)
  | 35 => some (.SE_coordref_set_xy_by_envelope)
  | 36 => some (.SE_coordref_set_by_description (s 0))
  | 37 => some (.SE_coordref_get_xy_envelope)
  | 38 => some (.SE_coordref_free)
  | 39 => some (.SE_layerinfo_create)
  | 40 => some (.SE_layerinfo_free)
  | 41 => some (.SE_layerinfo_set_shape_types (n 0).toNat)
  | 42 => some (.SE_layerinfo_set_spatial_column (s 0) (s 1))
  | 43 => some (.SE_layerinfo_set_creation_keyword (s 0))
  | 44 => some (.SE_layerinfo_set_envelope)
  | 45 => some (.SE_layerinfo_set_description (s 0))
  | 46 => some (.SE_layerinfo_set_grid_sizes)
  | 47 => some (.SE_layerinfo_set_coordref)
  | 48 => some (.SE_layer_create)
  | 49 => some (.SE_reginfo_set_creation_keyword (s 0))
  | 50 => some (.SE_reginfo_set_rowid_column (s 0))
  | 51 => some (.SE_reginfo_set_multiversion)
  | 52 => some (.SE_registration_alter)
  | 53 => some (.SE_reginfo_get_table_name)
  | _ => none

/-- Equality of calls is decided on their codes. -/
instance : DecidableEq Call := fun a b =>
  have key : ∀ c : Call, Call.ofCode c.code = some c := fun c => by cases c <;> rfl
  decidable_of_iff (a.code = b.code)
    ⟨fun h => Option.some.inj ((key a).symm.trans ((congrArg Call.ofCode h).trans (key b))),
      fun h => congrArg Call.code h⟩

/-- One traced call: what was called, the value it returned and the value it
left in its output parameter (meaningful for `SE_version_get_info`, whose
version record holds the state the version is bound to, for `SE_state_create`,
whose state record holds the id of the new state, and for a getter that
failed). -/
structure Event where
  call : Call
  rc : Int
  out : Int
  deriving DecidableEq, Repr

/-- Error classes of `CPLError`. -/
inductive CPLErr where
  | CE_None
  | CE_Debug
  | CE_Warning
  | CE_Failure
  | CE_Fatal
  deriving DecidableEq, Repr

/-- Error numbers of `CPLError` used by this file. -/
inductive CPLErrorNum where
  | CPLE_AppDefined
  | CPLE_OpenFailed
  deriving DecidableEq, Repr

/-- One `CPLError` report. -/
structure Report where
  eErrClass : CPLErr
  err_no : CPLErrorNum
  msg : String
  deriving DecidableEq, Repr

/-- What the accessors of a registration record (`SE_REGINFO`) answer. -/
structure SE_REGINFO where
  has_layer : Bool
  is_hidden : Bool
  get_table_name_rc : Int
  szTableName : String
  szIDColName : String
  nFIDColType : Int
  deriving DecidableEq, Repr

/-- The part of an `OGRSDELayer` the data source reads. -/
structure OGRSDELayer where
  bUpdate : Bool
  name : String
  osShapeColumnName : String
  nFIDColumnType : Int
  deriving DecidableEq, Repr, Inhabited

/-- What the methods of an `OGRSpatialReference` that `CreateLayer` and
`ConvertOSRtoSDESpatRef` call answer: `IsGeographic()`, the `OGRErr` of
`morphToESRI()` and of `exportToWkt()` on the clone, and the text exported. -/
structure OGRSpatialReference where
  IsGeographic : Bool
  morphToESRI : Int
  exportToWkt : Int
  pszWkt : String
  deriving DecidableEq, Repr

/-- Everything outside `ogrsdedatasource.cpp`: constants of the ArcSDE headers
and of `ogr_core.h`, the replies of the backend, the CPL helpers and the layer
class.

* `reply n c` is the value returned by call `c` when it is the `n`-th call
  of the session (counting from 0), `out n c` the value it leaves in its
  output parameter;
* `CSLTokenizeStringComplex` is applied to the connection string after its
  `SDE:` prefix;
* `SDE_VERSIONEDITS` is the configuration option of that name, if set;
* `pszVersionName` is the name `SE_versioninfo_get_name` reads from the
  version record;
* `Initialize` is `OGRSDELayer::Initialize` (in `ogrsdelayer.cpp`): `none`
  when it fails, otherwise the name of the layer definition and of the shape
  column.  Backend calls made inside it are outside this model;
* `SE_NIL_TYPE_MASK` ... `SE_AREA_TYPE_MASK` are the shape type bit masks of
  the ArcSDE headers, `wkbUnknown` ... `wkbMultiPolygon` the geometry type
  codes of `ogr_core.h` and `wkbFlatten` its macro of that name;
* `CSLFetchNameValue` and `CSLFetchBoolean` are the CPL functions of those
  names, `SDE_FID` is the configuration option of that name, if set, and
  `RELEASE_NAME` is `GDALVersionInfo( "RELEASE_NAME" )`;
* `szQualifiedTable` is the name `SE_reginfo_get_table_name` reads from the
  registration record of a table. -/
structure Env where
  SE_DEFAULT_STATE_ID : Int
  SE_STATE_INUSE : Int
  SE_INVALID_RELEASE : Int
  SE_REGISTRATION_ROW_ID_COLUMN_TYPE_NONE : Int
  SE_REGISTRATION_ROW_ID_COLUMN_TYPE_SDE : Int
  SE_NIL_TYPE_MASK : Nat
  SE_POINT_TYPE_MASK : Nat
  SE_LINE_TYPE_MASK : Nat
  SE_SIMPLE_LINE_TYPE_MASK : Nat
  SE_AREA_TYPE_MASK : Nat
  wkbUnknown : Int
  wkbPoint : Int
  wkbLineString : Int
  wkbPolygon : Int
  wkbMultiPoint : Int
  wkbMultiLineString : Int
  wkbMultiPolygon : Int
  wkbFlatten : Int → Int
  CSLFetchNameValue : List String → String → Option String
  CSLFetchBoolean : List String → String → Bool → Bool
  SDE_FID : Option String
  RELEASE_NAME : String
  szQualifiedTable : String → String
  reply : Nat → Call → Int
  out : Nat → Call → Int
  SE_error_get_string : Int → String
  ahTableList : List SE_REGINFO
  tableinfo : String → SE_REGINFO
  CSLTokenizeStringComplex : String → List String
  SDE_VERSIONEDITS : Option String
  pszVersionName : String
  Initialize : String → Option String → Option String → Option (String × String)

/-- Constant `SE_SUCCESS`.  The source itself relies on its being zero: `IssueSDEError`
tests the return codes of its cleanup calls with `if (nSDEErr)`. -/
def SE_SUCCESS : Int := 0

/-- C `TRUE`. -/
def TRUE : Int := 1

/-- C `FALSE`. -/
def FALSE : Int := 0

/-- C `NULL`, as returned (converted to `int`) at line 352. -/
def NULL : Int := 0

/-- Constant `OGRERR_NONE` (`ogr_core.h`). -/
def OGRERR_NONE : Int := 0

/-- Constant `OGRERR_FAILURE` (`ogr_core.h`). -/
def OGRERR_FAILURE : Int := 6

/-! ## The data source object -/

/-- The fields of `OGRSDEDataSource`, and the two records of its effects:
`trace`, the backend calls made so far, and `errors`, the `CPLError` reports
made so far (oldest first).  `hConnection` and `hVersion` are `true` when the
handle is not `NULL`. -/
structure OGRSDEDataSource where
  pszName : Option String
  papoLayers : List OGRSDELayer
  nLayers : Int
  nState : Int
  nNextState : Int
  hConnection : Bool
  hVersion : Bool
  bDSUpdate : Bool
  bDSUseVersionEdits : Bool
  trace : List Event
  errors : List Report

/-- The result of one backend call. -/
structure Reply where
  rc : Int
  out : Int
  self : OGRSDEDataSource

/-- The record of call `c` made as the `n`-th call of the session. -/
def Env.event (env : Env) (n : Nat) (c : Call) : Event :=
  { call := c, rc := env.reply n c, out := env.out n c }

/-- Make backend call `c`: read its reply from the environment and record it. -/
def SE (env : Env) (self : OGRSDEDataSource) (c : Call) : Reply :=
  { rc := env.reply self.trace.length c
    out := env.out self.trace.length c
    self := { self with trace := self.trace ++ [env.event self.trace.length c] } }

/-- Function `CPLError( eErrClass, err_no, msg )`: record one report. -/
def CPLError (self : OGRSDEDataSource) (eErrClass : CPLErr) (err_no : CPLErrorNum)
    (msg : String) : OGRSDEDataSource :=
  { self with errors := self.errors ++ [{ eErrClass := eErrClass, err_no := err_no, msg := msg }] }

/-- Macro `EQUAL(a, b)`: case-insensitive equality. -/
def EQUAL (a b : String) : Bool :=
  a.data.map Char.toUpper == b.data.map Char.toUpper

/-- Macro `EQUALN(a, b, n)`: case-insensitive equality of the first `n` characters. -/
def EQUALN (a b : String) (n : Nat) : Bool :=
  (a.data.take n).map Char.toUpper == (b.data.take n).map Char.toUpper

/-- Constructor `OGRSDEDataSource::OGRSDEDataSource()` (lines 43-54).  The constructor does
not assign `bDSUpdate` and `bDSUseVersionEdits`: the values they happen to hold
are parameters. -/
def OGRSDEDataSource.new (env : Env) (bDSUpdate bDSUseVersionEdits : Bool) :
    OGRSDEDataSource :=
  { pszName := none
    papoLayers := []
    nLayers := 0
    nState := env.SE_DEFAULT_STATE_ID
    nNextState := -2
    hConnection := false
    hVersion := false
    bDSUpdate := bDSUpdate
    bDSUseVersionEdits := bDSUseVersionEdits
    trace := []
    errors := [] }

/-- Method `OGRSDEDataSource::IssueSDEError` (lines 118-151).  `pszFunction` is `none`
for a `NULL` argument. -/
def IssueSDEError (env : Env) (self : OGRSDEDataSource) (nErrorCode : Int)
    (pszFunction : Option String) : OGRSDEDataSource :=
  let pszFunction := pszFunction.getD "SDE"
  let self :=
    if self.bDSUpdate && self.bDSUseVersionEdits then
      -- try to clean up our state/transaction mess if we can
      let r := SE env self (.SE_state_delete self.nNextState)
      let self :=
        if r.rc ≠ 0 ∧ r.rc ≠ env.SE_STATE_INUSE then
          CPLError r.self .CE_Failure .CPLE_AppDefined
            ("SE_state_delete could not complete in IssueSDEError "
              ++ toString nErrorCode ++ "/" ++ env.SE_error_get_string r.rc)
        else r.self
      let r := SE env self .SE_connection_rollback_transaction
      if r.rc ≠ 0 then
        CPLError r.self .CE_Failure .CPLE_AppDefined
          ("SE_connection_rollback_transaction could not complete in IssueSDEError "
            ++ toString nErrorCode ++ "/" ++ env.SE_error_get_string r.rc)
      else r.self
    else self
  CPLError self .CE_Failure .CPLE_AppDefined
    (pszFunction ++ ": " ++ toString nErrorCode ++ "/" ++ env.SE_error_get_string nErrorCode)

/-- Lines 354-389 of `SetVersionState`: create the child state of the baseline
`nState`, read its id into `nNextState`, open it.  `hNextStateInfo` holds the
id left there by `SE_state_create`; `SE_stateinfo_get_id` copies that id when
it succeeds, and when it fails leaves in `nNextState` a value chosen by the
environment. -/
def createChildState (env : Env) (self : OGRSDEDataSource) : Int × OGRSDEDataSource :=
  let r := SE env self .SE_stateinfo_create
  let self := r.self
  if r.rc ≠ SE_SUCCESS then
    (FALSE, IssueSDEError env self r.rc (some "SE_stateinfo_create"))
  else
  let r := SE env self .SE_stateinfo_create
  let self := r.self
  if r.rc ≠ SE_SUCCESS then
    (FALSE, IssueSDEError env self r.rc (some "SE_stateinfo_create"))
  else
  let r := SE env self (.SE_state_create self.nState)
  let self := r.self
  let nextStateId := r.out
  if r.rc ≠ SE_SUCCESS then
    (FALSE, IssueSDEError env self r.rc (some "SE_state_create"))
  else
  let r := SE env self .SE_stateinfo_get_id
  let self := { r.self with nNextState := if r.rc = SE_SUCCESS then nextStateId else r.out }
  if r.rc ≠ SE_SUCCESS then
    (FALSE, IssueSDEError env self r.rc (some "SE_stateinfo_get_id"))
  else
  let r := SE env self (.SE_state_open self.nNextState)
  let self := r.self
  if r.rc ≠ SE_SUCCESS then
    (FALSE, IssueSDEError env self r.rc (some "SE_state_open"))
  else
  let self := (SE env self .SE_stateinfo_free).self
  let self := (SE env self .SE_stateinfo_free).self
  let self := (SE env self .SE_stateinfo_free).self
  (TRUE, self)

/-- Lines 325-389 of `SetVersionState`, the body of
`if (bDSUpdate && bDSUseVersionEdits)`: start the transaction, check that the
baseline state is not open, then go on to `createChildState`. -/
def openEditState (env : Env) (self : OGRSDEDataSource) : Int × OGRSDEDataSource :=
  -- So we're in update mode.  We need to get the state id
  -- of the active version, create a child state of it to
  -- push our edits onto, and close the state and move the
  -- version to it when we're done.
  let r := SE env self .SE_connection_start_transaction
  let self := r.self
  if r.rc ≠ SE_SUCCESS then
    (FALSE, IssueSDEError env self r.rc (some "SE_connection_start_transaction"))
  else
  let r := SE env self .SE_stateinfo_create
  let self := r.self
  if r.rc ≠ SE_SUCCESS then
    (FALSE, IssueSDEError env self r.rc (some "SE_stateinfo_create"))
  else
  let r := SE env self (.SE_state_get_info self.nState)
  let self := r.self
  if r.rc ≠ SE_SUCCESS then
    (FALSE, IssueSDEError env self r.rc (some "SE_state_get_info"))
  else
  let r := SE env self .SE_stateinfo_is_open
  let self := r.self
  if r.rc ≠ 0 then
    (NULL, CPLError self .CE_Failure .CPLE_AppDefined
      ("The editing state for this version is currently open.  "
        ++ "It must be closed for edits before it can be opened by OGR for update. "))
  else
    createChildState env self

/-- Method `OGRSDEDataSource::SetVersionState` (lines 281-394); its update branch is
`openEditState`.  The version record `hVersion` holds the state id left there
by `SE_version_get_info`; `SE_versioninfo_get_state_id` copies that id when it
succeeds, and when it fails leaves in `nState` a value chosen by the
environment. -/
def SetVersionState (env : Env) (self : OGRSDEDataSource) (pszVersionName : String) :
    Int × OGRSDEDataSource :=
  let r := SE env self .SE_versioninfo_create
  let self := { r.self with hVersion := if r.rc = SE_SUCCESS then true else r.self.hVersion }
  if r.rc ≠ SE_SUCCESS then
    (FALSE, IssueSDEError env self r.rc (some "SE_versioninfo_create"))
  else
  let r := SE env self (.SE_version_get_info pszVersionName)
  let self := r.self
  let versionStateId := r.out
  if r.rc ≠ SE_SUCCESS then
    -- this usually denotes incongruent versions of the client
    -- and server.  If this is the case, we're going to attempt to
    -- not do versioned queries at all.
    if r.rc = env.SE_INVALID_RELEASE then
      -- leave nState set to SE_DEFAULT_STATE_ID
      let self := (SE env self .SE_versioninfo_free).self
      let self := { self with hVersion := false }
      (FALSE, IssueSDEError env self r.rc
        (some ("SE_INVALID_RELEASE."
          ++ "  Your client/server versions must not match or "
          ++ "you have some other major configuration problem")))
    else
      (FALSE, IssueSDEError env self r.rc (some "SE_version_get_info"))
  else
  let r := SE env self .SE_versioninfo_get_state_id
  let self := { r.self with nState := if r.rc = SE_SUCCESS then versionStateId else r.out }
  if r.rc ≠ SE_SUCCESS then
    (FALSE, IssueSDEError env self r.rc (some "SE_versioninfo_get_state_id"))
  else
  if self.bDSUpdate && self.bDSUseVersionEdits then
    openEditState env self
  else
    (TRUE, self)

/-- Function `memmove( a + dst, a + src, sizeof(void *) * n )` on the array `a` of layer
pointers: the `n` slots from `dst` on receive what the `n` slots from `src` on
held, the other slots keep what they hold. -/
def memmove (a : List OGRSDELayer) (dst src n : Nat) : List OGRSDELayer :=
  (List.range a.length).map fun k =>
    if dst ≤ k ∧ k < dst + n then a.getD (src + (k - dst)) default else a.getD k default

/-- Method `OGRSDEDataSource::OpenTable` (lines 399-428).  `CPLRealloc` to `nLayers+1`
slots keeps the first `nLayers` slots of the array; the new layer is stored in
slot `nLayers`. -/
def OpenTable (env : Env) (self : OGRSDEDataSource) (pszTableName : String)
    (pszFIDColumn pszShapeColumn : Option String) (nFIDColType : Int) :
    Int × OGRSDEDataSource :=
  match env.Initialize pszTableName pszFIDColumn pszShapeColumn with
  | none => (FALSE, self)
  | some d =>
    let poLayer : OGRSDELayer :=
      { bUpdate := self.bDSUpdate, name := d.1, osShapeColumnName := d.2,
        nFIDColumnType := nFIDColType }
    (TRUE, { self with
      papoLayers := self.papoLayers.take self.nLayers.toNat ++ [poLayer],
      nLayers := self.nLayers + 1 })

/-- Lines 506-525 of `DeleteLayer`: delete the registration and the table. -/
def deleteRegistration (env : Env) (self : OGRSDEDataSource) (osLayerName : String) :
    Int × OGRSDEDataSource :=
  let self := (SE env self .SE_registration_free_dependent_tables).self
  let r := SE env self (.SE_registration_delete osLayerName)
  if r.rc ≠ SE_SUCCESS then
    (OGRERR_FAILURE, IssueSDEError env r.self r.rc (some "SE_registration_delete"))
  else
  let r := SE env r.self (.SE_table_delete osLayerName)
  if r.rc ≠ SE_SUCCESS then
    (OGRERR_FAILURE, IssueSDEError env r.self r.rc (some "SE_table_delete"))
  else
    (OGRERR_NONE, r.self)

/-- Method `OGRSDEDataSource::DeleteLayer` (lines 434-526); its last part is
`deleteRegistration`.  The count of dependent tables is the output value of
`SE_registration_get_dependent_tables`. -/
def DeleteLayer (env : Env) (self : OGRSDEDataSource) (iLayer : Int) :
    Int × OGRSDEDataSource :=
  if iLayer < 0 ∨ iLayer ≥ self.nLayers then (OGRERR_FAILURE, self)
  else
  -- Blow away our OGR structures related to the layer.
  let poLayer := self.papoLayers.getD iLayer.toNat default
  let osGeometryName := poLayer.osShapeColumnName
  let osLayerName := poLayer.name
  let self := { self with
    papoLayers := memmove self.papoLayers iLayer.toNat (iLayer.toNat + 1)
      (self.nLayers - iLayer - 1).toNat,
    nLayers := self.nLayers - 1 }
  -- Remove from the database.
  let r := SE env self (.SE_layer_delete osLayerName osGeometryName)
  if r.rc ≠ SE_SUCCESS then
    (OGRERR_FAILURE, IssueSDEError env r.self r.rc (some "SE_layer_delete"))
  else
  let r := SE env r.self (.SE_registration_get_dependent_tables osLayerName)
  let nCount := r.out
  if r.rc ≠ SE_SUCCESS then
    (OGRERR_FAILURE,
      IssueSDEError env r.self r.rc (some "SE_registration_get_dependent_tables"))
  else
  -- if we still have dependent tables after deleting the layer, it is because the
  -- table is multiversion.
  if nCount ≠ 0 then
    let r := SE env r.self .SE_versioninfo_get_name
    if r.rc ≠ SE_SUCCESS then
      (OGRERR_FAILURE,
        IssueSDEError env r.self r.rc (some "SE_registration_make_single_version"))
    else
    let r := SE env r.self (.SE_registration_make_single_version env.pszVersionName osLayerName)
    if r.rc ≠ SE_SUCCESS then
      (OGRERR_FAILURE,
        IssueSDEError env r.self r.rc (some "SE_registration_make_single_version"))
    else
      deleteRegistration env r.self osLayerName
  else
    deleteRegistration env r.self osLayerName

/-- Method `OGRSDEDataSource::ConvertOSRtoSDESpatRef` (lines 1047-1102); `poSRS` is
`none` for `NULL`. -/
def ConvertOSRtoSDESpatRef (env : Env) (self : OGRSDEDataSource)
    (poSRS : Option OGRSpatialReference) : Int × OGRSDEDataSource :=
  let r := SE env self .SE_coordref_create
  if r.rc ≠ SE_SUCCESS then (OGRERR_FAILURE, r.self)
  else
  match poSRS with
  | none =>
    -- Construct a generic SE_COORDREF if poSRS is NULL
    let r := SE env r.self .SE_coordref_set_xy_by_envelope
    if r.rc ≠ SE_SUCCESS then (OGRERR_FAILURE, (SE env r.self .SE_coordref_free).self)
    else (OGRERR_NONE, r.self)
  | some poESRISRS =>
    if poESRISRS.morphToESRI ≠ OGRERR_NONE then
      (OGRERR_FAILURE, (SE env r.self .SE_coordref_free).self)
    else if poESRISRS.exportToWkt ≠ OGRERR_NONE then
      (OGRERR_FAILURE, (SE env r.self .SE_coordref_free).self)
    else
      let r := SE env r.self (.SE_coordref_set_by_description poESRISRS.pszWkt)
      if r.rc ≠ SE_SUCCESS then (OGRERR_FAILURE, r.self) else (OGRERR_NONE, r.self)

/-- Lines 552-573 of `CreateLayer`, the loop over the layers from `iLayer` on:
a layer of the requested name is deleted when the option `OVERWRITE` asks for
it, otherwise the call fails (`false`).  The first argument bounds the number
of iterations; `CreateLayer` passes `nLayers`, which the loop never exceeds
since `iLayer` grows and `nLayers` does not. -/
def deleteExisting (env : Env) (pszLayerName : String) (papszOptions : List String) :
    Nat → Int → OGRSDEDataSource → Bool × OGRSDEDataSource
  | 0, _, self => (true, self)
  | n + 1, iLayer, self =>
    if iLayer < self.nLayers then
      if EQUAL pszLayerName (self.papoLayers.getD iLayer.toNat default).name then
        if (env.CSLFetchNameValue papszOptions "OVERWRITE").isSome
            ∧ ¬ EQUAL ((env.CSLFetchNameValue papszOptions "OVERWRITE").getD "") "NO" then
          deleteExisting env pszLayerName papszOptions n (iLayer + 1)
            (DeleteLayer env self iLayer).2
        else
          (false, CPLError self .CE_Failure .CPLE_AppDefined
            ("Layer " ++ pszLayerName ++ " already exists, CreateLayer failed.\n"
              ++ "Use the layer creation option OVERWRITE=YES to "
              ++ "replace it."))
      else deleteExisting env pszLayerName papszOptions n (iLayer + 1) self
    else (true, self)

/-- Lines 661-695 of `CreateLayer`: determine the type of geometries that the
layer will allow.  `none` stands for the `return NULL` of an unsupported
geometry type. -/
def shapeTypes (env : Env) (self : OGRSDEDataSource) (pszLayerName : String) (eType : Int) :
    Option Nat × OGRSDEDataSource :=
  let nLayerShapeTypes : Nat := 0
  let nLayerShapeTypes := nLayerShapeTypes ||| env.SE_NIL_TYPE_MASK
  if env.wkbFlatten eType = env.wkbPoint ∨ env.wkbFlatten eType = env.wkbMultiPoint then
    (some (nLayerShapeTypes ||| env.SE_POINT_TYPE_MASK), self)
  else if env.wkbFlatten eType = env.wkbLineString
      ∨ env.wkbFlatten eType = env.wkbMultiLineString then
    (some (nLayerShapeTypes ||| (env.SE_LINE_TYPE_MASK ||| env.SE_SIMPLE_LINE_TYPE_MASK)), self)
  else if env.wkbFlatten eType = env.wkbPolygon
      ∨ env.wkbFlatten eType = env.wkbMultiPolygon then
    (some (nLayerShapeTypes ||| env.SE_AREA_TYPE_MASK), self)
  else if eType = env.wkbUnknown then
    (some (nLayerShapeTypes ||| (env.SE_POINT_TYPE_MASK ||| env.SE_LINE_TYPE_MASK
        ||| env.SE_SIMPLE_LINE_TYPE_MASK ||| env.SE_AREA_TYPE_MASK)),
      CPLError self .CE_Warning .CPLE_AppDefined
        ("Warning: Creation of a wkbUnknown layer in ArcSDE will "
          ++ "result in layers which are not displayable in Arc* "
          ++ "software"))
  else
    let self := CPLError self .CE_Failure .CPLE_AppDefined
      ("Cannot create SDE layer " ++ pszLayerName ++ " with geometry type "
        ++ toString eType ++ ".")
    (none, (SE env self .SE_layerinfo_free).self)

/-- Lines 697-723 of `CreateLayer`: store the shape types, the geometry column
name and the creation keyword in the layer info.  `false` stands for the
`return NULL` of a failed step. -/
def setLayerInfo (env : Env) (self : OGRSDEDataSource) (pszLayerName pszGeometryName
    pszDbtuneKeyword : String) (nLayerShapeTypes : Nat) : Bool × OGRSDEDataSource :=
  let r := SE env self (.SE_layerinfo_set_shape_types nLayerShapeTypes)
  if r.rc ≠ SE_SUCCESS then
    let self := (SE env r.self .SE_layerinfo_free).self
    (false, IssueSDEError env self r.rc (some "SE_layerinfo_set_shape_types"))
  else
  -- Set geometry column name
  let r := SE env r.self (.SE_layerinfo_set_spatial_column pszLayerName pszGeometryName)
  if r.rc ≠ SE_SUCCESS then
    let self := (SE env r.self .SE_layerinfo_free).self
    (false, IssueSDEError env self r.rc (some "SE_layerinfo_set_spatial_column"))
  else
  -- Set creation keyword
  let r := SE env r.self (.SE_layerinfo_set_creation_keyword pszDbtuneKeyword)
  if r.rc ≠ SE_SUCCESS then
    let self := (SE env r.self .SE_layerinfo_free).self
    (false, IssueSDEError env self r.rc (some "SE_layerinfo_set_creation_keyword"))
  else
    (true, r.self)

/-- Lines 725-742 of `CreateLayer`: the layer extent is read from the
coordinate reference unless the spatial reference is geographic. -/
def getEnvelope (env : Env) (self : OGRSDEDataSource) (poSRS : Option OGRSpatialReference) :
    Bool × OGRSDEDataSource :=
  -- Set layer extent based on coordinate system envelope
  if (poSRS.map fun o => o.IsGeographic) = some true then (true, self)
  else
    let r := SE env self .SE_coordref_get_xy_envelope
    if r.rc ≠ SE_SUCCESS then
      let self := (SE env r.self .SE_layerinfo_free).self
      (false, IssueSDEError env self r.rc (some "SE_coordref_get_xy_envelope"))
    else (true, r.self)

/-- Lines 744-782 of `CreateLayer`: store the envelope, the description, the
grid sizes and the coordinate reference in the layer info. -/
def setLayerExtent (env : Env) (self : OGRSDEDataSource) (pszLayerDescription : String) :
    Bool × OGRSDEDataSource :=
  let r := SE env self .SE_layerinfo_set_envelope
  if r.rc ≠ SE_SUCCESS then
    let self := (SE env r.self .SE_layerinfo_free).self
    (false, IssueSDEError env self r.rc (some "SE_layerinfo_set_envelope"))
  else
  let r := SE env r.self (.SE_layerinfo_set_description pszLayerDescription)
  if r.rc ≠ SE_SUCCESS then
    let self := (SE env r.self .SE_layerinfo_free).self
    (false, IssueSDEError env self r.rc (some "SE_layerinfo_set_description"))
  else
  -- Set grid size
  let r := SE env r.self .SE_layerinfo_set_grid_sizes
  if r.rc ≠ SE_SUCCESS then
    let self := (SE env r.self .SE_layerinfo_free).self
    (false, IssueSDEError env self r.rc (some "SE_layerinfo_set_grid_sizes"))
  else
  -- Set layer coordinate reference
  let r := SE env r.self .SE_layerinfo_set_coordref
  if r.rc ≠ SE_SUCCESS then
    let self := (SE env r.self .SE_layerinfo_free).self
    (false, IssueSDEError env self r.rc (some "SE_layerinfo_set_coordref"))
  else
    (true, r.self)

/-- Lines 803-837 of `CreateLayer`: read the registration of the newly created
table and set its creation keyword and row id column. -/
def getRegistration (env : Env) (self : OGRSDEDataSource) (pszLayerName pszExpectedFIDName
    pszDbtuneKeyword : String) : Bool × OGRSDEDataSource :=
  let r := SE env self .SE_reginfo_create
  if r.rc ≠ SE_SUCCESS then
    (false, IssueSDEError env r.self r.rc (some "SE_reginfo_create"))
  else
  let r := SE env r.self (.SE_registration_get_info pszLayerName)
  if r.rc ≠ SE_SUCCESS then
    let self := (SE env r.self .SE_reginfo_free).self
    (false, IssueSDEError env self r.rc (some "SE_registration_get_info"))
  else
  let r := SE env r.self (.SE_reginfo_set_creation_keyword pszDbtuneKeyword)
  if r.rc ≠ SE_SUCCESS then
    let self := (SE env r.self .SE_reginfo_free).self
    (false, IssueSDEError env self r.rc (some "SE_reginfo_set_creation_keyword"))
  else
  let r := SE env r.self (.SE_reginfo_set_rowid_column pszExpectedFIDName)
  if r.rc ≠ SE_SUCCESS then
    let self := (SE env r.self .SE_reginfo_free).self
    (false, IssueSDEError env self r.rc (some "SE_reginfo_set_rowid_column"))
  else
    (true, r.self)

/-- Lines 839-853 of `CreateLayer`: if the layer creation option `MULTIVERSION`
is set, enable multi-versioning for this layer. -/
def setMultiversion (env : Env) (self : OGRSDEDataSource) (papszOptions : List String) :
    Bool × OGRSDEDataSource :=
  if env.CSLFetchBoolean papszOptions "SDE_MULTIVERSION" true then
    let r := SE env self .SE_reginfo_set_multiversion
    if r.rc ≠ SE_SUCCESS then
      let self := (SE env r.self .SE_reginfo_free).self
      (false, IssueSDEError env self r.rc (some "SE_reginfo_set_multiversion"))
    else (true, r.self)
  else (true, self)

/-- Lines 855-872 of `CreateLayer`: alter the registration and read the
qualified name of the table. -/
def alterRegistration (env : Env) (self : OGRSDEDataSource) : Bool × OGRSDEDataSource :=
  let r := SE env self .SE_registration_alter
  if r.rc ≠ SE_SUCCESS then
    let self := (SE env r.self .SE_reginfo_free).self
    (false, IssueSDEError env self r.rc (some "SE_registration_alter"))
  else
  let r := SE env r.self .SE_reginfo_get_table_name
  if r.rc ≠ SE_SUCCESS then
    let self := (SE env r.self .SE_reginfo_free).self
    (false, IssueSDEError env self r.rc (some "SE_reginfo_get_table_name"))
  else
  let self := (SE env r.self .SE_reginfo_free).self
  (true, (SE env self .SE_coordref_free).self)

/-- Lines 803-872 of `CreateLayer`: register the newly created table. -/
def registerTable (env : Env) (self : OGRSDEDataSource) (pszLayerName pszExpectedFIDName
    pszDbtuneKeyword : String) (papszOptions : List String) : Bool × OGRSDEDataSource :=
  let r := getRegistration env self pszLayerName pszExpectedFIDName pszDbtuneKeyword
  if ¬ r.1 then (false, r.2)
  else
  let r := setMultiversion env r.2 papszOptions
  if ¬ r.1 then (false, r.2)
  else
    alterRegistration env r.2

/-- What a call of `CreateLayer` that has created its layer comes to.  Lines
905-908 apply `CPLFree` to `pszExpectedFIDName`, `pszGeometryName`,
`pszDbtuneKeyword` and `pszLayerDescription`.  None of the four was obtained
from `CPLMalloc`: the buffers allocated at lines 583-586 are dropped when the
pointers are assigned again at lines 588-603, from `CSLFetchNameValue` (a
pointer into the option list), from `CPLGetConfigOption`, from `CPLSPrintf` or
from a string literal.  Freeing them is undefined behaviour, so the function
has no defined return value from there on: `poLayer` is the layer that line
910 is written to return, and `freed` are the four strings passed to `CPLFree`,
in order. -/
structure Undefined where
  poLayer : OGRSDELayer
  freed : List String
  deriving DecidableEq, Repr

/-- Lines 875-910 of `CreateLayer`: create the layer object, add it to the
layer list and free the option strings.  `none` is `NULL`; the other outcome
is `Undefined`. -/
def addLayer (env : Env) (self : OGRSDEDataSource) (pszLayerName pszExpectedFIDName
    pszGeometryName pszDbtuneKeyword pszLayerDescription : String) :
    Option Undefined × OGRSDEDataSource :=
  match env.Initialize (env.szQualifiedTable pszLayerName) (some pszExpectedFIDName)
      (some pszGeometryName) with
  | none =>
    (none, CPLError self .CE_Failure .CPLE_AppDefined
      ("Cannot initialize newly created layer \"" ++ pszLayerName ++ "\""))
  | some d =>
    -- Set various options on the layer.
    let poLayer : OGRSDELayer :=
      { bUpdate := self.bDSUpdate, name := d.1, osShapeColumnName := d.2,
        nFIDColumnType := env.SE_REGISTRATION_ROW_ID_COLUMN_TYPE_SDE }
    -- Add layer to data source layer list.
    let self := { self with
      papoLayers := self.papoLayers.take self.nLayers.toNat ++ [poLayer],
      nLayers := self.nLayers + 1 }
    (some { poLayer := poLayer,
            freed := [pszExpectedFIDName, pszGeometryName, pszDbtuneKeyword,
              pszLayerDescription] },
      self)

/-- Lines 697-910 of `CreateLayer`, from the layer info on: fill it in,
spatially enable the table with `SE_layer_create`, register the table and
create the layer object. -/
def enableTable (env : Env) (self : OGRSDEDataSource) (pszLayerName : String)
    (poSRS : Option OGRSpatialReference) (papszOptions : List String)
    (pszExpectedFIDName pszGeometryName pszDbtuneKeyword pszLayerDescription : String)
    (nLayerShapeTypes : Nat) : Option Undefined × OGRSDEDataSource :=
  let r := setLayerInfo env self pszLayerName pszGeometryName pszDbtuneKeyword nLayerShapeTypes
  if ¬ r.1 then (none, r.2)
  else
  let r := getEnvelope env r.2 poSRS
  if ¬ r.1 then (none, r.2)
  else
  let r := setLayerExtent env r.2 pszLayerDescription
  if ¬ r.1 then (none, r.2)
  else
  -- Spatially enable the newly created table
  let c := SE env r.2 .SE_layer_create
  let self := (SE env c.self .SE_layerinfo_free).self
  if c.rc ≠ SE_SUCCESS then
    (none, IssueSDEError env self c.rc (some "SE_layer_create"))
  else
  -- Register the newly created table
  let r := registerTable env self pszLayerName pszExpectedFIDName pszDbtuneKeyword papszOptions
  if ¬ r.1 then (none, r.2)
  else
    addLayer env r.2 pszLayerName pszExpectedFIDName pszGeometryName pszDbtuneKeyword
      pszLayerDescription

/-- Method `OGRSDEDataSource::CreateLayer` (lines 532-911): its loop over the
existing layers is `deleteExisting`, the choice of the shape types is
`shapeTypes`, and from there on it is `enableTable`.  `none` is `NULL`; a call
that does not return `NULL` ends in the undefined behaviour of lines 905-908
(`Undefined`). -/
def CreateLayer (env : Env) (self : OGRSDEDataSource) (pszLayerName : String)
    (poSRS : Option OGRSpatialReference) (eType : Int) (papszOptions : List String) :
    Option Undefined × OGRSDEDataSource :=
  -- Do we already have this layer?  If so, should we blow it away?
  let r := deleteExisting env pszLayerName papszOptions self.nLayers.toNat 0 self
  if ¬ r.1 then (none, r.2)
  else
  -- Get various layer creation options.
  let pszGeometryName := (env.CSLFetchNameValue papszOptions "GEOMETRY_NAME").getD "SHAPE"
  let pszExpectedFIDName := env.SDE_FID.getD "OBJECTID"
  let pszDbtuneKeyword := (env.CSLFetchNameValue papszOptions "SDE_KEYWORD").getD "DEFAULTS"
  -- Set layer description
  let pszLayerDescription := (env.CSLFetchNameValue papszOptions "SDE_DESCRIPTION").getD
    ("Created by GDAL/OGR " ++ env.RELEASE_NAME)
  -- Create a basic table with the FID column
  let c := SE env r.2 (.SE_table_create pszLayerName)
  if c.rc ≠ SE_SUCCESS then
    (none, IssueSDEError env c.self c.rc (some "SE_table_create"))
  else
  -- Convert the OGRSpatialReference to a SDE coordref object
  let r := ConvertOSRtoSDESpatRef env c.self poSRS
  if r.1 ≠ OGRERR_NONE then
    (none, CPLError r.2 .CE_Failure .CPLE_AppDefined
      ("Cannot create layer " ++ pszLayerName ++ ": Unable to convert "
        ++ "OGRSpatialReference to SDE SE_COORDREF."))
  else
  -- Construct the layer info necessary to spatially enable the table.
  let c := SE env r.2 .SE_layerinfo_create
  if c.rc ≠ SE_SUCCESS then
    (none, IssueSDEError env c.self c.rc (some "SE_layerinfo_create"))
  else
  match shapeTypes env c.self pszLayerName eType with
  | (none, self) => (none, self)
  | (some nLayerShapeTypes, self) =>
    enableTable env self pszLayerName poSRS papszOptions pszExpectedFIDName pszGeometryName
      pszDbtuneKeyword pszLayerDescription nLayerShapeTypes

/-- Method `OGRSDEDataSource::GetLayer` (lines 932-939); `none` is `NULL`. -/
def GetLayer (self : OGRSDEDataSource) (iLayer : Int) : Option OGRSDELayer :=
  if iLayer < 0 ∨ iLayer ≥ self.nLayers then none
  else some (self.papoLayers.getD iLayer.toNat default)

/-- Method `OGRSDEDataSource::CreateLayerFromRegInfo` (lines 1010-1042). -/
def CreateLayerFromRegInfo (env : Env) (self : OGRSDEDataSource) (reginfo : SE_REGINFO) :
    OGRSDEDataSource :=
  -- Ignore non-spatial, or hidden tables.
  if !reginfo.has_layer || reginfo.is_hidden then self
  else if reginfo.get_table_name_rc ≠ SE_SUCCESS then self
  else if reginfo.nFIDColType = env.SE_REGISTRATION_ROW_ID_COLUMN_TYPE_NONE
      ∨ reginfo.szIDColName.length = 0 then
    (OpenTable env self reginfo.szTableName none none reginfo.nFIDColType).2
  else
    (OpenTable env self reginfo.szTableName (some reginfo.szIDColName) none
      reginfo.nFIDColType).2

/-- Method `OGRSDEDataSource::EnumerateSpatialTables` (lines 944-974). -/
def EnumerateSpatialTables (env : Env) (self : OGRSDEDataSource) : OGRSDEDataSource :=
  let r := SE env self .SE_registration_get_info_list
  if r.rc ≠ SE_SUCCESS then
    IssueSDEError env r.self r.rc (some "SE_registration_get_info_list")
  else
    let self := env.ahTableList.foldl (CreateLayerFromRegInfo env) r.self
    (SE env self .SE_registration_free_info_list).self

/-- Method `OGRSDEDataSource::OpenSpatialTable` (lines 980-1004). -/
def OpenSpatialTable (env : Env) (self : OGRSDEDataSource) (pszTableName : String) :
    OGRSDEDataSource :=
  let r := SE env self .SE_reginfo_create
  let self :=
    if r.rc ≠ SE_SUCCESS then IssueSDEError env r.self r.rc (some "SE_reginfo_create")
    else r.self
  let r := SE env self (.SE_registration_get_info pszTableName)
  let self :=
    if r.rc ≠ SE_SUCCESS then
      IssueSDEError env r.self r.rc (some "SE_registration_get_info_list")
    else
      CreateLayerFromRegInfo env r.self (env.tableinfo pszTableName)
  (SE env self .SE_reginfo_free).self

/-- Lines 234-275 of `Open`: open the selected table or all spatial tables,
then resolve the version named by the seventh token, or `SDE.DEFAULT`. -/
def openTablesAndVersion (env : Env) (self : OGRSDEDataSource) (papszTokens : List String) :
    Int × OGRSDEDataSource :=
  -- Open a selected layer only, or else treat all known spatial tables as layers.
  let self :=
    if papszTokens.length = 6 ∧ papszTokens.getD 5 "" ≠ "" then
      OpenSpatialTable env self (papszTokens.getD 5 "")
    else
      EnumerateSpatialTables env self
  -- Fetch the specified version or use SDE.DEFAULT if none is specified.
  if papszTokens.length = 7 ∧ papszTokens.getD 6 "" ≠ "" then
    let r := SetVersionState env self (papszTokens.getD 6 "")
    if r.1 = 0 then (FALSE, r.2) else (TRUE, r.2)
  else
    let r := SetVersionState env self "SDE.DEFAULT"
    if r.1 = 0 then (FALSE, r.2) else (TRUE, r.2)

/-- Lines 189-275 of `Open`: establish the connection, set `bDSUpdate` and
`bDSUseVersionEdits`, set the concurrency policy, then go on to
`openTablesAndVersion`. -/
def connect (env : Env) (self : OGRSDEDataSource) (pszNewName : String) (bUpdate : Bool)
    (papszTokens : List String) : Int × OGRSDEDataSource :=
  -- Try to establish connection.
  let r := SE env self (.SE_connection_create (papszTokens.getD 0 "") (papszTokens.getD 1 "")
    (papszTokens.getD 2 "") (papszTokens.getD 3 "") (papszTokens.getD 4 ""))
  let self := { r.self with hConnection := if r.rc = SE_SUCCESS then true else r.self.hConnection }
  if r.rc ≠ SE_SUCCESS then
    (FALSE, IssueSDEError env self r.rc (some "SE_connection_create"))
  else
  let self := { self with pszName := some pszNewName, bDSUpdate := bUpdate }
  -- Use SDE Versioned edits by default
  let pszVersionEdits := env.SDE_VERSIONEDITS.getD "TRUE"
  let self := { self with bDSUseVersionEdits := EQUAL pszVersionEdits "TRUE" }
  -- Set unprotected concurrency policy, suitable for single threaded access.
  let r := SE env self .SE_connection_set_concurrency
  let self := r.self
  if r.rc ≠ SE_SUCCESS then
    (FALSE, IssueSDEError env self r.rc none)
  else
    openTablesAndVersion env self papszTokens

/-- Method `OGRSDEDataSource::Open` (lines 157-276); from the connection on it is
`connect`. -/
def Open (env : Env) (self : OGRSDEDataSource) (pszNewName : String) (bUpdate : Bool) :
    Int × OGRSDEDataSource :=
  -- If we aren't prefixed with SDE: then ignore this datasource.
  if !EQUALN pszNewName "SDE:" 4 then (FALSE, self)
  else
  -- Parse arguments on comma.
  let papszTokens := env.CSLTokenizeStringComplex (String.mk (pszNewName.data.drop 4))
  if papszTokens.length < 5 ∨ papszTokens.length > 7 then
    (FALSE, CPLError self .CE_Failure .CPLE_OpenFailed
      ("SDE connect string had wrong number of arguments.\n"
        ++ "Expected \x27SDE:server,instance,database,username,password,layer\x27\n"
        ++ "The layer name value is optional.\n"
        ++ "Got \x27" ++ pszNewName ++ "\x27"))
  else
    connect env self pszNewName bUpdate papszTokens

/-- Lines 69-81 of the destructor: commit the transaction, close the child
state, move the version to it. -/
def commitSteps (env : Env) (self : OGRSDEDataSource) : OGRSDEDataSource :=
  let self := (SE env self .SE_connection_commit_transaction).self
  let r := SE env self (.SE_state_close self.nNextState)
  let self :=
    if r.rc ≠ SE_SUCCESS then IssueSDEError env r.self r.rc (some "SE_state_close")
    else r.self
  let r := SE env self (.SE_version_change_state self.nNextState)
  if r.rc ≠ SE_SUCCESS then IssueSDEError env r.self r.rc (some "SE_version_change_state")
  else r.self

/-- Lines 82-88 of the destructor: trim the state tree. -/
def trimStep (env : Env) (self : OGRSDEDataSource) : OGRSDEDataSource :=
  let r := SE env self (.SE_state_trim_tree self.nState self.nNextState)
  if r.rc ≠ SE_SUCCESS ∧ r.rc ≠ env.SE_STATE_INUSE then
    if r.rc ≠ env.SE_STATE_INUSE then
      IssueSDEError env r.self r.rc (some "SE_state_trim_tree")
    else r.self
  else r.self

/-- Lines 93-108 of the destructor: free the name and the layers, release the
version record and the connection. -/
def release (env : Env) (self : OGRSDEDataSource) : OGRSDEDataSource :=
  let self := { self with pszName := none, papoLayers := [] }
  let self := if self.hVersion then (SE env self .SE_versioninfo_free).self else self
  if self.hConnection then (SE env self .SE_connection_free).self else self

/-- Destructor `OGRSDEDataSource::~OGRSDEDataSource` (lines 60-112), in three
parts: `commitSteps`, `trimStep`, `release`. -/
def destructor (env : Env) (self : OGRSDEDataSource) : OGRSDEDataSource :=
  -- Commit our transactions if we were opened for update
  let self :=
    if self.bDSUpdate && self.bDSUseVersionEdits
        && (self.nNextState != -2 && self.nState != env.SE_DEFAULT_STATE_ID) then
      trimStep env (commitSteps env self)
    else self
  release env self

/-! ## The backend, as far as the properties need it -/

/-- Modelled from the spec: `SE_version_change_state` belongs to the ArcSDE
library, which is not in the repository.  A version is "a named, mutable
pointer into the state tree" with a "currently-bound state id" (spec, section
3), and the teardown "repoint[s] version to child state id" (section 4.4): a
successful `SE_version_change_state(hConnection, hVersion, s)` binds the
version to `s`, and no other call of the session moves it.  `v0` is the state
the version is bound to before the session. -/
def versionBinding (v0 : Int) (trace : List Event) : Int :=
  trace.foldl
    (fun v e =>
      match e.call with
      | .SE_version_change_state s => if e.rc = SE_SUCCESS then s else v
      | _ => v)
    v0

/-- The calls made after the object was in state `before`. -/
def eventsSince (before after : OGRSDEDataSource) : List Event :=
  after.trace.drop before.trace.length

/-- The reports made after the object was in state `before`. -/
def errorsSince (before after : OGRSDEDataSource) : List Report :=
  after.errors.drop before.errors.length

/-- The calls that take a session into `EDIT_OPEN`: starting the transaction,
creating a state, opening a state. -/
def isEditOpen : Call → Bool
  | .SE_connection_start_transaction => true
  | .SE_state_create _ => true
  | .SE_state_open _ => true
  | _ => false

/-- The four teardown calls of the commit path: commit, close, repoint, trim. -/
def isCommitStep : Call → Bool
  | .SE_connection_commit_transaction => true
  | .SE_state_close _ => true
  | .SE_version_change_state _ => true
  | .SE_state_trim_tree _ _ => true
  | _ => false

/-- The steps of the setup sequence of `openEditState`. -/
def isSetupStep : Call → Bool
  | .SE_connection_start_transaction => true
  | .SE_stateinfo_create => true
  | .SE_state_get_info _ => true
  | .SE_state_create _ => true
  | .SE_stateinfo_get_id => true
  | .SE_state_open _ => true
  | _ => false

/-- The name under which `SetVersionState` reports a failed setup step. -/
def stepName : Call → String
  | .SE_connection_start_transaction => "SE_connection_start_transaction"
  | .SE_stateinfo_create => "SE_stateinfo_create"
  | .SE_state_get_info _ => "SE_state_get_info"
  | .SE_state_create _ => "SE_state_create"
  | .SE_stateinfo_get_id => "SE_stateinfo_get_id"
  | .SE_state_open _ => "SE_state_open"
  | _ => "SDE"

/-- The report `IssueSDEError( nErrorCode, pszFunction )` ends with. -/
def issued (env : Env) (nErrorCode : Int) (pszFunction : String) : Report :=
  { eErrClass := .CE_Failure
    err_no := .CPLE_AppDefined
    msg := pszFunction ++ ": " ++ toString nErrorCode ++ "/" ++ env.SE_error_get_string nErrorCode }

/-! ## A sample environment

Used to run the code on concrete sessions.  The values of the constants are
samples; the theorems hold for every environment. -/

/-- Split a list of characters on commas. -/
def splitOnComma : List Char → List Char → List String
  | acc, [] => [String.mk acc.reverse]
  | acc, c :: cs =>
    if c = ',' then String.mk acc.reverse :: splitOnComma [] cs
    else splitOnComma (c :: acc) cs

/-- A backend with one spatial table, `PARCELS`, whose calls answer `reply` and
whose output parameters are filled by `out`. -/
def sampleEnv (reply : Nat → Call → Int) (out : Nat → Call → Int) : Env :=
  { SE_DEFAULT_STATE_ID := 0
    SE_STATE_INUSE := -176
    SE_INVALID_RELEASE := -27
    SE_REGISTRATION_ROW_ID_COLUMN_TYPE_NONE := 3
    SE_REGISTRATION_ROW_ID_COLUMN_TYPE_SDE := 1
    SE_NIL_TYPE_MASK := 1
    SE_POINT_TYPE_MASK := 2
    SE_LINE_TYPE_MASK := 4
    SE_SIMPLE_LINE_TYPE_MASK := 8
    SE_AREA_TYPE_MASK := 16
    wkbUnknown := 0
    wkbPoint := 1
    wkbLineString := 2
    wkbPolygon := 3
    wkbMultiPoint := 4
    wkbMultiLineString := 5
    wkbMultiPolygon := 6
    wkbFlatten := fun x => x % 2147483648
    CSLFetchNameValue := fun l k => (l.find? (fun o => (k ++ "=").isPrefixOf o)).map
      (fun o => String.mk (o.data.drop (k.length + 1)))
    CSLFetchBoolean := fun l k d =>
      match l.find? (fun o => (k ++ "=").isPrefixOf o) with
      | none => d
      | some o => String.mk (o.data.drop (k.length + 1)) != "NO"
    SDE_FID := none
    RELEASE_NAME := "1.6.0"
    szQualifiedTable := fun t => "SDE." ++ t
    reply := reply
    out := out
    SE_error_get_string := fun _ => "error"
    ahTableList :=
      [{ has_layer := true, is_hidden := false, get_table_name_rc := 0,
         szTableName := "PARCELS", szIDColName := "OBJECTID", nFIDColType := 1 }]
    tableinfo := fun t =>
      { has_layer := true, is_hidden := false, get_table_name_rc := 0, szTableName := t,
        szIDColName := "OBJECTID", nFIDColType := 1 }
    CSLTokenizeStringComplex := fun s => splitOnComma [] s.data
    SDE_VERSIONEDITS := none
    pszVersionName := "HEAD"
    Initialize := fun t _ _ => some (t, "SHAPE") }

/-- Output parameters of the sample backend: the version is bound to state 10
and the state created by the session gets id 11. -/
def sampleOut : Nat → Call → Int := fun _ c =>
  match c with
  | .SE_version_get_info _ => 10
  | .SE_state_create _ => 11
  | _ => 0

/-! ## Vocabulary of the proofs -/

/-- The cleanup calls `IssueSDEError` makes on an object in state `self`. -/
def cleanupEvents (env : Env) (self : OGRSDEDataSource) : List Event :=
  if self.bDSUpdate && self.bDSUseVersionEdits then
    [ env.event self.trace.length (.SE_state_delete self.nNextState),
      env.event (self.trace.length + 1) .SE_connection_rollback_transaction ]
  else []

/-- The report of `IssueSDEError( nErrorCode, ... )` about its `SE_state_delete`
call, which returned `nSDEErr`. -/
def deleteFailed (env : Env) (nErrorCode nSDEErr : Int) : Report :=
  { eErrClass := .CE_Failure
    err_no := .CPLE_AppDefined
    msg := "SE_state_delete could not complete in IssueSDEError "
      ++ toString nErrorCode ++ "/" ++ env.SE_error_get_string nSDEErr }

/-- The report of `IssueSDEError( nErrorCode, ... )` about its rollback call,
which returned `nSDEErr`. -/
def rollbackFailed (env : Env) (nErrorCode nSDEErr : Int) : Report :=
  { eErrClass := .CE_Failure
    err_no := .CPLE_AppDefined
    msg := "SE_connection_rollback_transaction could not complete in IssueSDEError "
      ++ toString nErrorCode ++ "/" ++ env.SE_error_get_string nSDEErr }

/-- The reports `IssueSDEError( nErrorCode, ... )` makes about a cleanup in which
`SE_state_delete` returned `rcDelete` and the rollback returned `rcRollback`. -/
def cleanupReportsOf (env : Env) (nErrorCode rcDelete rcRollback : Int) : List Report :=
  (if rcDelete ≠ 0 ∧ rcDelete ≠ env.SE_STATE_INUSE then
      [deleteFailed env nErrorCode rcDelete] else [])
  ++ (if rcRollback ≠ 0 then [rollbackFailed env nErrorCode rcRollback] else [])

/-- The reports `IssueSDEError( nErrorCode, ... )` makes about its own cleanup
on an object in state `self`. -/
def cleanupReports (env : Env) (self : OGRSDEDataSource) (nErrorCode : Int) : List Report :=
  if self.bDSUpdate && self.bDSUseVersionEdits then
    cleanupReportsOf env nErrorCode
      (env.reply self.trace.length (.SE_state_delete self.nNextState))
      (env.reply (self.trace.length + 1) .SE_connection_rollback_transaction)
  else []

/-- Since state `before`, the object has made only calls satisfying `p`. -/
def Adds (p : Call → Bool) (before after : OGRSDEDataSource) : Prop :=
  before.trace <+: after.trace ∧ ∀ e ∈ eventsSince before after, p e.call = true

/-- The session fields of `after` are those of `before`. -/
def SameSession (before after : OGRSDEDataSource) : Prop :=
  after.nState = before.nState ∧ after.nNextState = before.nNextState
    ∧ after.bDSUpdate = before.bDSUpdate
    ∧ after.bDSUseVersionEdits = before.bDSUseVersionEdits
    ∧ after.hVersion = before.hVersion ∧ after.hConnection = before.hConnection

/-- The cleanup calls of `IssueSDEError`. -/
def cleanupCall : Call → Bool
  | .SE_state_delete _ => true
  | .SE_connection_rollback_transaction => true
  | _ => false

/-- The calls of `OpenSpatialTable` and `EnumerateSpatialTables`. -/
def tableCall : Call → Bool
  | .SE_registration_get_info_list => true
  | .SE_registration_free_info_list => true
  | .SE_reginfo_create => true
  | .SE_registration_get_info _ => true
  | .SE_reginfo_free => true
  | c => cleanupCall c

/-- The calls of `createChildState` and `openEditState`. -/
def setupCall : Call → Bool
  | .SE_stateinfo_is_open => true
  | .SE_stateinfo_free => true
  | c => isSetupStep c || cleanupCall c

/-- The calls of `SetVersionState` outside its update branch. -/
def resolveCall : Call → Bool
  | .SE_versioninfo_create => true
  | .SE_version_get_info _ => true
  | .SE_versioninfo_get_state_id => true
  | .SE_versioninfo_free => true
  | c => cleanupCall c

/-- The calls that release the session. -/
def releaseCall : Call → Bool
  | .SE_versioninfo_free => true
  | .SE_connection_free => true
  | _ => false

/-- The calls `Open` makes on a session that is not opened for edits. -/
def readonlyCall : Call → Bool
  | .SE_connection_create _ _ _ _ _ => true
  | .SE_connection_set_concurrency => true
  | c => tableCall c || resolveCall c

/-- A backend on which every call succeeds. -/
def envOK : Env := sampleEnv (fun _ _ => 0) sampleOut

/-- A backend on which `SE_layer_delete` fails and `SE_state_delete` answers
`SE_STATE_INUSE`. -/
def envAbort : Env :=
  sampleEnv
    (fun _ c =>
      match c with
      | .SE_layer_delete _ _ => -51
      | .SE_state_delete _ => -176
      | _ => 0)
    sampleOut

/-- A backend on which `SE_state_close` fails and `SE_state_delete` answers
`SE_STATE_INUSE`. -/
def envCloseFails : Env :=
  sampleEnv
    (fun _ c =>
      match c with
      | .SE_state_close _ => -1
      | .SE_state_delete _ => -176
      | _ => 0)
    sampleOut

/-- A backend on which `SE_stateinfo_is_open` reports the baseline open. -/
def envBaselineOpen : Env :=
  sampleEnv
    (fun _ c =>
      match c with
      | .SE_stateinfo_is_open => 1
      | _ => 0)
    sampleOut

/-- A backend on which `SE_version_get_info` answers `SE_INVALID_RELEASE`. -/
def envInvalidRelease : Env :=
  sampleEnv
    (fun _ c =>
      match c with
      | .SE_version_get_info _ => -27
      | _ => 0)
    sampleOut

/-- A backend whose version is bound to state `SE_DEFAULT_STATE_ID`. -/
def envDefaultBaseline : Env :=
  sampleEnv (fun _ _ => 0)
    (fun _ c =>
      match c with
      | .SE_version_get_info _ => 0
      | .SE_state_create _ => 11
      | _ => 0)

/-- A backend on which `SE_stateinfo_get_id` fails and leaves -2 in its output
parameter. -/
def envGetIdFails : Env :=
  sampleEnv
    (fun _ c =>
      match c with
      | .SE_stateinfo_get_id => -1
      | _ => 0)
    (fun _ c =>
      match c with
      | .SE_version_get_info _ => 10
      | .SE_state_create _ => 11
      | .SE_stateinfo_get_id => -2
      | _ => 0)

/-- The calls of `SetVersionState`. -/
def sessionCall (c : Call) : Bool := resolveCall c || setupCall c

/-- The calls `Open` makes before it resolves the version. -/
def connectCall : Call → Bool
  | .SE_connection_create _ _ _ _ _ => true
  | .SE_connection_set_concurrency => true
  | c => tableCall c

/-- What `Open` comes to: it stopped before resolving the version, leaving the
state ids as they were, or it connected, opened its tables and ended with
`SetVersionState`, entered with `bDSUpdate` and `bDSUseVersionEdits` set from
its argument and from the configuration. -/
def OpenOutcome (env : Env) (self : OGRSDEDataSource) (bUpdate : Bool)
    (r : Int × OGRSDEDataSource) : Prop :=
  (r.1 = FALSE ∧ Adds connectCall self r.2
      ∧ r.2.nState = self.nState ∧ r.2.nNextState = self.nNextState)
    ∨ ∃ s v, Adds connectCall self s
      ∧ s.nState = self.nState ∧ s.nNextState = self.nNextState
      ∧ s.bDSUpdate = bUpdate
      ∧ s.bDSUseVersionEdits = EQUAL (env.SDE_VERSIONEDITS.getD "TRUE") "TRUE"
      ∧ r.1 = (if (SetVersionState env s v).1 = 0 then FALSE else TRUE)
      ∧ r.2 = (SetVersionState env s v).2

/-- What a successful `createChildState` has done: the backend created a child
of `nState`, whose id is now `nNextState`, and opened it. -/
def ChildOpened (before after : OGRSDEDataSource) : Prop :=
  (∃ e ∈ eventsSince before after,
      e.call = .SE_state_create after.nState ∧ e.rc = SE_SUCCESS ∧ e.out = after.nNextState)
  ∧ (∃ e ∈ eventsSince before after,
      e.call = .SE_state_open after.nNextState ∧ e.rc = SE_SUCCESS)

/-- The object as `Open` has left it when it calls `SetVersionState` on a
session opened for update with version edits enabled. -/
def editSession (env : Env) : OGRSDEDataSource :=
  { OGRSDEDataSource.new env false false with
    hConnection := true, bDSUpdate := true, bDSUseVersionEdits := true }

/-- A backend on which trimming and deleting a state answer `SE_STATE_INUSE`
and closing a state fails. -/
def envInUse : Env :=
  sampleEnv
    (fun _ c =>
      match c with
      | .SE_state_trim_tree _ _ => -176
      | .SE_state_delete _ => -176
      | .SE_state_close _ => -1
      | _ => 0)
    sampleOut

/-- A backend on which opening a state fails. -/
def envOpenFails : Env :=
  sampleEnv
    (fun _ c =>
      match c with
      | .SE_state_open _ => -1
      | _ => 0)
    sampleOut

/-- The session `Open( "SDE:srv,5151,db,user,pw,,HEAD", TRUE )` on backend `env`. -/
def openedForUpdate (env : Env) : Int × OGRSDEDataSource :=
  Open env (OGRSDEDataSource.new env false false) "SDE:srv,5151,db,user,pw,,HEAD" true

/-- A backend on which `SE_connection_commit_transaction` fails. -/
def envCommitFails : Env :=
  sampleEnv
    (fun _ c =>
      match c with
      | .SE_connection_commit_transaction => -1
      | _ => 0)
    sampleOut

/-- A backend on which `SE_connection_create` fails. -/
def envConnectFails : Env :=
  sampleEnv
    (fun _ c =>
      match c with
      | .SE_connection_create _ _ _ _ _ => -9
      | _ => 0)
    sampleOut

/-- A backend on which both cleanup calls of `IssueSDEError` fail. -/
def envCleanupFails : Env :=
  sampleEnv
    (fun _ c =>
      match c with
      | .SE_state_delete _ => -5
      | .SE_connection_rollback_transaction => -7
      | _ => 0)
    sampleOut

/-- The session `Open( "SDE:srv,5151,db,user,pw,ROADS,HEAD", TRUE )`, which names
both a table and a version, on backend `env`. -/
def openedWithTableAndVersion (env : Env) : Int × OGRSDEDataSource :=
  Open env (OGRSDEDataSource.new env false false) "SDE:srv,5151,db,user,pw,ROADS,HEAD" true

/-- The session `Open( "SDE:srv,5151,db,user,pw,ROADS", TRUE )`, which names a
table, on backend `env`. -/
def openedWithTable (env : Env) : Int × OGRSDEDataSource :=
  Open env (OGRSDEDataSource.new env false false) "SDE:srv,5151,db,user,pw,ROADS" true
/-- The calls with which `OpenSpatialTable` and `EnumerateSpatialTables` open
tables. -/
def isTableStep : Call → Bool
  | .SE_registration_get_info_list => true
  | .SE_registration_free_info_list => true
  | .SE_reginfo_create => true
  | .SE_registration_get_info _ => true
  | .SE_reginfo_free => true
  | _ => false

/-- The calls with which `SetVersionState` resolves the version and enters
`EDIT_OPEN`. -/
def isVersionStep : Call → Bool
  | .SE_versioninfo_create => true
  | .SE_version_get_info _ => true
  | .SE_versioninfo_get_state_id => true
  | .SE_versioninfo_free => true
  | .SE_stateinfo_is_open => true
  | .SE_stateinfo_free => true
  | c => isSetupStep c
/-- A data source with three layers, `A`, `B` and `C`, opened for update. -/
def threeLayers : OGRSDEDataSource :=
  { editSession envAbort with
    papoLayers :=
      [{ bUpdate := true, name := "A", osShapeColumnName := "SHAPE", nFIDColumnType := 1 },
       { bUpdate := true, name := "B", osShapeColumnName := "SHAPE", nFIDColumnType := 1 },
       { bUpdate := true, name := "C", osShapeColumnName := "SHAPE", nFIDColumnType := 1 }]
    nLayers := 3 }

/-- The calls of `CreateLayer`, when the shape types it has chosen are `n`
(`none` for an unsupported geometry type): `SE_layerinfo_set_shape_types` only
with these shape types, and `SE_layer_create` only when there are some. -/
def createCall (n : Option Nat) : Call → Bool
  | .SE_layerinfo_set_shape_types m => n == some m
  | .SE_layer_create => n.isSome
  | _ => true

/-- The call `CreateLayer( "ROADS", NULL, 7, NULL )`, whose geometry type 7 is
`wkbGeometryCollection`, on a session opened for update on a backend on which
every call succeeds. -/
def collectionLayer : Option Undefined × OGRSDEDataSource :=
  CreateLayer envOK (openedForUpdate envOK).2 "ROADS" none 7 []

/-- The call `CreateLayer( "ROADS", poSRS, wkbPoint, NULL )` with a spatial
reference whose `morphToESRI()` fails, on a session opened for update on a
backend on which every call succeeds. -/
def unconvertibleLayer : Option Undefined × OGRSDEDataSource :=
  CreateLayer envOK (openedForUpdate envOK).2 "ROADS"
    (some { IsGeographic := false, morphToESRI := OGRERR_FAILURE, exportToWkt := OGRERR_NONE,
            pszWkt := "" }) 1 []

/-- The setup steps of `openEditState` made before a child state exists on the
backend, up to and including `SE_state_create`. -/
def beforeChild : Call → Bool
  | .SE_connection_start_transaction => true
  | .SE_stateinfo_create => true
  | .SE_state_get_info _ => true
  | .SE_state_create _ => true
  | _ => false

/-- What `SetVersionState` does when the setup step recorded as `e` fails: it
returns `FALSE`; the two calls that follow the failed one are `SE_state_delete`
on `nNextState`, recorded as `d`, and the rollback, recorded as `b`; the
reports are those of the cleanup, none about a deletion that answered
`SE_STATE_INUSE`, followed by the error of the failed step; and when the
failed step is the opening of state `c`, `nNextState` is `c`, the id of the
child the backend created; when it is the reading of the child's id, a child
has been created and `nNextState` is the value the failed getter left there;
and when it is an earlier step (`beforeChild`), no child has been created and
`nNextState` is as it was.  Every `SE_state_delete` of the run is on
`nNextState`. -/
def SetupFailure (env : Env) (before : OGRSDEDataSource) (e : Event)
    (r : Int × OGRSDEDataSource) : Prop :=
  r.1 = FALSE
  ∧ (∃ d b : Event, [e, d, b] <:+ eventsSince before r.2
      ∧ d.call = .SE_state_delete r.2.nNextState
      ∧ b.call = .SE_connection_rollback_transaction
      ∧ errorsSince before r.2
          = cleanupReportsOf env e.rc d.rc b.rc ++ [issued env e.rc (stepName e.call)])
  ∧ (∀ c, e.call = .SE_state_open c →
      r.2.nNextState = c
      ∧ ∃ e' ∈ eventsSince before r.2,
          e'.call = .SE_state_create r.2.nState ∧ e'.rc = SE_SUCCESS ∧ e'.out = c)
  ∧ (e.call = .SE_stateinfo_get_id →
      r.2.nNextState = e.out
      ∧ ∃ e' ∈ eventsSince before r.2,
          e'.call = .SE_state_create r.2.nState ∧ e'.rc = SE_SUCCESS)
  ∧ (beforeChild e.call = true →
      r.2.nNextState = before.nNextState
      ∧ ∀ e' ∈ eventsSince before r.2, ∀ n,
          e'.call = .SE_state_create n → e'.rc ≠ SE_SUCCESS)
  ∧ (∀ x ∈ eventsSince before r.2, ∀ n,
      x.call = .SE_state_delete n → n = r.2.nNextState)

/-- The calls of an `Open` that stops before it opens tables: the two
connection calls and the cleanup calls of `IssueSDEError`. -/
def earlyCall : Call → Bool
  | .SE_connection_create _ _ _ _ _ => true
  | .SE_connection_set_concurrency => true
  | c => cleanupCall c

/-- The order of the calls of `r = Open( ... )`, entered in state `self`.  It
returned `FALSE` having made connection and cleanup calls only; or it made, in
this order: a successful `SE_connection_create` (`c1`), a successful
`SE_connection_set_concurrency` (`c2`), the calls that open or enumerate the
tables, which start with the table call `f` and go on with the calls `t1` of
`OpenSpatialTable` or `EnumerateSpatialTables`, and then, from the state `s`
reached so, the calls of `SetVersionState`, which start with
`SE_versioninfo_create` (`g`), include no call that opens or enumerates tables,
and are the last of `Open`. -/
def TablesThenVersion (env : Env) (self : OGRSDEDataSource) (r : Int × OGRSDEDataSource) :
    Prop :=
  (r.1 = FALSE ∧ Adds earlyCall self r.2)
  ∨ ∃ (c1 c2 f g : Event) (t1 t2 : List Event) (s : OGRSDEDataSource) (v : String),
      (∃ a b c d e, c1.call = .SE_connection_create a b c d e) ∧ c1.rc = SE_SUCCESS
      ∧ c2.call = .SE_connection_set_concurrency ∧ c2.rc = SE_SUCCESS
      ∧ isTableStep f.call = true
      ∧ (∀ e ∈ t1, tableCall e.call = true)
      ∧ s.trace = self.trace ++ c1 :: c2 :: f :: t1
      ∧ g.call = .SE_versioninfo_create
      ∧ (∀ e ∈ g :: t2, sessionCall e.call = true)
      ∧ (SetVersionState env s v).2.trace = s.trace ++ g :: t2
      ∧ r.1 = (if (SetVersionState env s v).1 = 0 then FALSE else TRUE)
      ∧ r.2 = (SetVersionState env s v).2
/-- The object after the backend calls `calls` have been made on it, in order. -/
def made (env : Env) (self : OGRSDEDataSource) (calls : List Call) : OGRSDEDataSource :=
  calls.foldl (fun s c => (SE env s c).self) self

/-- The calls of a `ConvertOSRtoSDESpatRef( poSRS )` that succeeds. -/
def spatRefCalls : Option OGRSpatialReference → List Call
  | none => [.SE_coordref_create, .SE_coordref_set_xy_by_envelope]
  | some poESRISRS =>
    [.SE_coordref_create, .SE_coordref_set_by_description poESRISRS.pszWkt]

/-- The calls of an `enableTable` in which every step succeeds: those of lines
697-872, in order. -/
def enableCalls (env : Env) (pszLayerName : String) (poSRS : Option OGRSpatialReference)
    (papszOptions : List String)
    (pszExpectedFIDName pszGeometryName pszDbtuneKeyword pszLayerDescription : String)
    (nLayerShapeTypes : Nat) : List Call :=
  [.SE_layerinfo_set_shape_types nLayerShapeTypes,
    .SE_layerinfo_set_spatial_column pszLayerName pszGeometryName,
    .SE_layerinfo_set_creation_keyword pszDbtuneKeyword]
  ++ (if (poSRS.map fun o => o.IsGeographic) = some true then []
      else [.SE_coordref_get_xy_envelope])
  ++ [.SE_layerinfo_set_envelope,
      .SE_layerinfo_set_description pszLayerDescription,
      .SE_layerinfo_set_grid_sizes,
      .SE_layerinfo_set_coordref,
      .SE_layer_create,
      .SE_layerinfo_free,
      .SE_reginfo_create,
      .SE_registration_get_info pszLayerName,
      .SE_reginfo_set_creation_keyword pszDbtuneKeyword,
      .SE_reginfo_set_rowid_column pszExpectedFIDName]
  ++ (if env.CSLFetchBoolean papszOptions "SDE_MULTIVERSION" true then
        [.SE_reginfo_set_multiversion]
      else [])
  ++ [.SE_registration_alter, .SE_reginfo_get_table_name, .SE_reginfo_free,
      .SE_coordref_free]

/-- The calls of a `CreateLayer( pszLayerName, poSRS, eType, papszOptions )` in
which every step succeeds, from `SE_table_create` on, when the shape types
chosen for `eType` are `nLayerShapeTypes`: those of lines 622-872, in order. -/
def createCalls (env : Env) (pszLayerName : String) (poSRS : Option OGRSpatialReference)
    (papszOptions : List String) (nLayerShapeTypes : Nat) : List Call :=
  [.SE_table_create pszLayerName]
  ++ spatRefCalls poSRS
  ++ [.SE_layerinfo_create]
  ++ enableCalls env pszLayerName poSRS papszOptions (env.SDE_FID.getD "OBJECTID")
      ((env.CSLFetchNameValue papszOptions "GEOMETRY_NAME").getD "SHAPE")
      ((env.CSLFetchNameValue papszOptions "SDE_KEYWORD").getD "DEFAULTS")
      ((env.CSLFetchNameValue papszOptions "SDE_DESCRIPTION").getD
        ("Created by GDAL/OGR " ++ env.RELEASE_NAME))
      nLayerShapeTypes

/-- The shape types the geometry type `eType` asks for, in the words of the
claim: `m` contains `SE_NIL_TYPE_MASK`; it is `NIL|POINT` for a flattened type
point or multipoint, `NIL|LINE|SIMPLE_LINE` for linestring or multilinestring,
`NIL|AREA` for polygon or multipolygon, and `NIL|POINT|LINE|SIMPLE_LINE|AREA`
for `eType` equal to `wkbUnknown`. -/
def ClaimedShapeTypes (env : Env) (eType : Int) (m : Nat) : Prop :=
  m &&& env.SE_NIL_TYPE_MASK = env.SE_NIL_TYPE_MASK
  ∧ (env.wkbFlatten eType = env.wkbPoint ∨ env.wkbFlatten eType = env.wkbMultiPoint →
      m = env.SE_NIL_TYPE_MASK ||| env.SE_POINT_TYPE_MASK)
  ∧ (env.wkbFlatten eType = env.wkbLineString
        ∨ env.wkbFlatten eType = env.wkbMultiLineString →
      m = env.SE_NIL_TYPE_MASK ||| env.SE_LINE_TYPE_MASK ||| env.SE_SIMPLE_LINE_TYPE_MASK)
  ∧ (env.wkbFlatten eType = env.wkbPolygon ∨ env.wkbFlatten eType = env.wkbMultiPolygon →
      m = env.SE_NIL_TYPE_MASK ||| env.SE_AREA_TYPE_MASK)
  ∧ (eType = env.wkbUnknown →
      m = env.SE_NIL_TYPE_MASK ||| env.SE_POINT_TYPE_MASK ||| env.SE_LINE_TYPE_MASK
        ||| env.SE_SIMPLE_LINE_TYPE_MASK ||| env.SE_AREA_TYPE_MASK)

/-- The geometry type `eType` is one `CreateLayer` supports. -/
def supported (env : Env) (eType : Int) : Prop :=
  env.wkbFlatten eType = env.wkbPoint ∨ env.wkbFlatten eType = env.wkbMultiPoint
  ∨ env.wkbFlatten eType = env.wkbLineString ∨ env.wkbFlatten eType = env.wkbMultiLineString
  ∨ env.wkbFlatten eType = env.wkbPolygon ∨ env.wkbFlatten eType = env.wkbMultiPolygon
  ∨ eType = env.wkbUnknown

/-! # Theorems -/

/-! ## Frame lemmas for the primitive steps -/

@[simp] theorem SE_rc (env : Env) (self : OGRSDEDataSource) (c : Call) :
    (SE env self c).rc = env.reply self.trace.length c := rfl

@[simp] theorem SE_out (env : Env) (self : OGRSDEDataSource) (c : Call) :
    (SE env self c).out = env.out self.trace.length c := rfl

@[simp] theorem event_call (env : Env) (n : Nat) (c : Call) : (env.event n c).call = c := rfl

@[simp] theorem event_rc (env : Env) (n : Nat) (c : Call) :
    (env.event n c).rc = env.reply n c := rfl

@[simp] theorem event_out (env : Env) (n : Nat) (c : Call) :
    (env.event n c).out = env.out n c := rfl

@[simp] theorem SE_trace (env : Env) (self : OGRSDEDataSource) (c : Call) :
    (SE env self c).self.trace = self.trace ++ [env.event self.trace.length c] := rfl

@[simp] theorem SE_errors (env : Env) (self : OGRSDEDataSource) (c : Call) :
    (SE env self c).self.errors = self.errors := rfl

@[simp] theorem SE_nState (env : Env) (self : OGRSDEDataSource) (c : Call) :
    (SE env self c).self.nState = self.nState := rfl

@[simp] theorem SE_nNextState (env : Env) (self : OGRSDEDataSource) (c : Call) :
    (SE env self c).self.nNextState = self.nNextState := rfl

@[simp] theorem SE_bDSUpdate (env : Env) (self : OGRSDEDataSource) (c : Call) :
    (SE env self c).self.bDSUpdate = self.bDSUpdate := rfl

@[simp] theorem SE_bDSUseVersionEdits (env : Env) (self : OGRSDEDataSource) (c : Call) :
    (SE env self c).self.bDSUseVersionEdits = self.bDSUseVersionEdits := rfl

@[simp] theorem SE_hVersion (env : Env) (self : OGRSDEDataSource) (c : Call) :
    (SE env self c).self.hVersion = self.hVersion := rfl

@[simp] theorem SE_hConnection (env : Env) (self : OGRSDEDataSource) (c : Call) :
    (SE env self c).self.hConnection = self.hConnection := rfl

@[simp] theorem SE_pszName (env : Env) (self : OGRSDEDataSource) (c : Call) :
    (SE env self c).self.pszName = self.pszName := rfl

@[simp] theorem SE_papoLayers (env : Env) (self : OGRSDEDataSource) (c : Call) :
    (SE env self c).self.papoLayers = self.papoLayers := rfl

@[simp] theorem SE_nLayers (env : Env) (self : OGRSDEDataSource) (c : Call) :
    (SE env self c).self.nLayers = self.nLayers := rfl

@[simp] theorem CPLError_trace (self : OGRSDEDataSource) (a : CPLErr) (b : CPLErrorNum)
    (m : String) : (CPLError self a b m).trace = self.trace := rfl

@[simp] theorem CPLError_errors (self : OGRSDEDataSource) (a : CPLErr) (b : CPLErrorNum)
    (m : String) : (CPLError self a b m).errors = self.errors ++ [⟨a, b, m⟩] := rfl

@[simp] theorem CPLError_nState (self : OGRSDEDataSource) (a : CPLErr) (b : CPLErrorNum)
    (m : String) : (CPLError self a b m).nState = self.nState := rfl

@[simp] theorem CPLError_nNextState (self : OGRSDEDataSource) (a : CPLErr) (b : CPLErrorNum)
    (m : String) : (CPLError self a b m).nNextState = self.nNextState := rfl

@[simp] theorem CPLError_bDSUpdate (self : OGRSDEDataSource) (a : CPLErr) (b : CPLErrorNum)
    (m : String) : (CPLError self a b m).bDSUpdate = self.bDSUpdate := rfl

@[simp] theorem CPLError_bDSUseVersionEdits (self : OGRSDEDataSource) (a : CPLErr)
    (b : CPLErrorNum) (m : String) :
    (CPLError self a b m).bDSUseVersionEdits = self.bDSUseVersionEdits := rfl

@[simp] theorem CPLError_hVersion (self : OGRSDEDataSource) (a : CPLErr) (b : CPLErrorNum)
    (m : String) : (CPLError self a b m).hVersion = self.hVersion := rfl

@[simp] theorem CPLError_hConnection (self : OGRSDEDataSource) (a : CPLErr) (b : CPLErrorNum)
    (m : String) : (CPLError self a b m).hConnection = self.hConnection := rfl

/-! ## `IssueSDEError` -/

theorem IssueSDEError_trace (env : Env) (self : OGRSDEDataSource) (n : Int)
    (f : Option String) :
    (IssueSDEError env self n f).trace = self.trace ++ cleanupEvents env self := by
  unfold IssueSDEError cleanupEvents
  by_cases h : (self.bDSUpdate && self.bDSUseVersionEdits) = true
  · simp only [h, if_true]
    split_ifs <;> simp
  · simp [h]

theorem IssueSDEError_errors (env : Env) (self : OGRSDEDataSource) (n : Int)
    (f : Option String) :
    (IssueSDEError env self n f).errors =
      self.errors ++ cleanupReports env self n ++ [issued env n (f.getD "SDE")] := by
  unfold IssueSDEError cleanupReports cleanupReportsOf deleteFailed rollbackFailed issued
  by_cases h : (self.bDSUpdate && self.bDSUseVersionEdits) = true
  · simp only [h, if_true]
    split_ifs <;> simp_all
  · simp [h]

@[simp] theorem IssueSDEError_nState (env : Env) (self : OGRSDEDataSource) (n : Int)
    (f : Option String) : (IssueSDEError env self n f).nState = self.nState := by
  unfold IssueSDEError
  simp only []
  split_ifs <;> rfl

@[simp] theorem IssueSDEError_nNextState (env : Env) (self : OGRSDEDataSource) (n : Int)
    (f : Option String) : (IssueSDEError env self n f).nNextState = self.nNextState := by
  unfold IssueSDEError
  simp only []
  split_ifs <;> rfl

@[simp] theorem IssueSDEError_bDSUpdate (env : Env) (self : OGRSDEDataSource) (n : Int)
    (f : Option String) : (IssueSDEError env self n f).bDSUpdate = self.bDSUpdate := by
  unfold IssueSDEError
  simp only []
  split_ifs <;> rfl

@[simp] theorem IssueSDEError_bDSUseVersionEdits (env : Env) (self : OGRSDEDataSource)
    (n : Int) (f : Option String) :
    (IssueSDEError env self n f).bDSUseVersionEdits = self.bDSUseVersionEdits := by
  unfold IssueSDEError
  simp only []
  split_ifs <;> rfl

@[simp] theorem IssueSDEError_hVersion (env : Env) (self : OGRSDEDataSource) (n : Int)
    (f : Option String) : (IssueSDEError env self n f).hVersion = self.hVersion := by
  unfold IssueSDEError
  simp only []
  split_ifs <;> rfl

@[simp] theorem IssueSDEError_hConnection (env : Env) (self : OGRSDEDataSource) (n : Int)
    (f : Option String) : (IssueSDEError env self n f).hConnection = self.hConnection := by
  unfold IssueSDEError
  simp only []
  split_ifs <;> rfl

theorem cleanupEvents_calls (env : Env) (self : OGRSDEDataSource) (p : Call → Bool)
    (h1 : ∀ n, p (.SE_state_delete n) = true)
    (h2 : p .SE_connection_rollback_transaction = true) :
    ∀ e ∈ cleanupEvents env self, p e.call = true := by
  intro e he
  unfold cleanupEvents at he
  split_ifs at he
  · simp at he
    rcases he with rfl | rfl
    · exact h1 _
    · exact h2
  · simp at he

/-! ## Traces -/

@[simp] theorem versionBinding_nil (v0 : Int) : versionBinding v0 [] = v0 := rfl

@[simp] theorem versionBinding_cons (v0 : Int) (e : Event) (t : List Event) :
    versionBinding v0 (e :: t) =
      versionBinding
        (match e.call with
          | .SE_version_change_state s => if e.rc = SE_SUCCESS then s else v0
          | _ => v0) t := rfl

@[simp] theorem versionBinding_append (v0 : Int) (t d : List Event) :
    versionBinding v0 (t ++ d) = versionBinding (versionBinding v0 t) d := by
  simp [versionBinding, List.foldl_append]

theorem eventsSince_of_append {a b : OGRSDEDataSource} {d : List Event}
    (h : b.trace = a.trace ++ d) : eventsSince a b = d := by
  simp [eventsSince, h]

theorem eventsSince_trans {a b c : OGRSDEDataSource} (hab : a.trace <+: b.trace)
    (hbc : b.trace <+: c.trace) : eventsSince a c = eventsSince a b ++ eventsSince b c := by
  obtain ⟨d1, h1⟩ := hab
  obtain ⟨d2, h2⟩ := hbc
  have h3 : c.trace = a.trace ++ (d1 ++ d2) := by rw [← h2, ← h1, List.append_assoc]
  rw [eventsSince_of_append h1.symm, eventsSince_of_append h2.symm, eventsSince_of_append h3]

theorem Adds.same (p : Call → Bool) (a : OGRSDEDataSource) : Adds p a a := by
  simp [Adds, eventsSince]

theorem Adds.followedBy {p : Call → Bool} {a b c : OGRSDEDataSource} (hab : Adds p a b)
    (hbc : Adds p b c) : Adds p a c := by
  refine ⟨hab.1.trans hbc.1, ?_⟩
  rw [eventsSince_trans hab.1 hbc.1]
  intro e he
  rcases List.mem_append.1 he with h | h
  · exact hab.2 e h
  · exact hbc.2 e h

theorem Adds.weaken {p q : Call → Bool} {a b : OGRSDEDataSource} (hab : Adds p a b)
    (hpq : ∀ c, p c = true → q c = true) : Adds q a b :=
  ⟨hab.1, fun e he => hpq _ (hab.2 e he)⟩

theorem Adds.of_append {p : Call → Bool} {a b : OGRSDEDataSource} (d : List Event)
    (h : b.trace = a.trace ++ d) (hd : ∀ e ∈ d, p e.call = true) : Adds p a b := by
  refine ⟨⟨d, h.symm⟩, ?_⟩
  rw [eventsSince_of_append h]
  exact hd

theorem Adds.mem_trace {p : Call → Bool} {a b : OGRSDEDataSource} (hab : Adds p a b) :
    ∀ e ∈ b.trace, e ∈ a.trace ∨ p e.call = true := by
  obtain ⟨⟨d, hd⟩, h⟩ := hab
  rw [eventsSince_of_append hd.symm] at h
  intro e he
  rw [← hd] at he
  rcases List.mem_append.1 he with h1 | h1
  · exact Or.inl h1
  · exact Or.inr (h e h1)

theorem Adds.call (env : Env) (p : Call → Bool) (self : OGRSDEDataSource) (c : Call)
    (h : p c = true) : Adds p self (SE env self c).self :=
  Adds.of_append _ (SE_trace env self c) (by simpa using h)

theorem Adds.cleanup (env : Env) (p : Call → Bool) (self : OGRSDEDataSource) (n : Int)
    (f : Option String) (h1 : ∀ n, p (.SE_state_delete n) = true)
    (h2 : p .SE_connection_rollback_transaction = true) :
    Adds p self (IssueSDEError env self n f) :=
  Adds.of_append _ (IssueSDEError_trace env self n f) (cleanupEvents_calls env self p h1 h2)

theorem SameSession.unchanged (a : OGRSDEDataSource) : SameSession a a := by
  simp [SameSession]

theorem SameSession.followedBySame {a b c : OGRSDEDataSource} (hab : SameSession a b)
    (hbc : SameSession b c) : SameSession a c := by
  obtain ⟨h1, h2, h3, h4, h5, h6⟩ := hab
  obtain ⟨g1, g2, g3, g4, g5, g6⟩ := hbc
  exact ⟨g1.trans h1, g2.trans h2, g3.trans h3, g4.trans h4, g5.trans h5, g6.trans h6⟩

/-! ## The calls each function makes -/

theorem createChildState_adds (env : Env) (self : OGRSDEDataSource) :
    Adds setupCall self (createChildState env self).2 := by
  unfold createChildState
  simp only []
  split_ifs <;>
    simp [Adds, eventsSince, IssueSDEError_trace, List.append_assoc] <;>
    (repeat' apply And.intro) <;>
    first
      | rfl
      | exact cleanupEvents_calls _ _ _ (fun _ => rfl) rfl

theorem openEditState_adds (env : Env) (self : OGRSDEDataSource) :
    Adds setupCall self (openEditState env self).2 := by
  unfold openEditState
  simp only []
  split_ifs
  case neg =>
    refine Adds.followedBy ?_ (createChildState_adds env _)
    simp [Adds, eventsSince, List.append_assoc]
    (repeat' apply And.intro) <;> rfl
  all_goals
    simp [Adds, eventsSince, IssueSDEError_trace, List.append_assoc] <;>
    (repeat' apply And.intro) <;>
    first
      | rfl
      | exact cleanupEvents_calls _ _ _ (fun _ => rfl) rfl

/-! ## Fields the session steps leave alone -/

theorem createChildState_frame (env : Env) (self : OGRSDEDataSource) :
    (createChildState env self).2.nState = self.nState
    ∧ (createChildState env self).2.bDSUpdate = self.bDSUpdate
    ∧ (createChildState env self).2.bDSUseVersionEdits = self.bDSUseVersionEdits
    ∧ (createChildState env self).2.hVersion = self.hVersion
    ∧ (createChildState env self).2.hConnection = self.hConnection := by
  unfold createChildState
  simp only []
  split_ifs <;> simp

@[simp] theorem createChildState_nState (env : Env) (self : OGRSDEDataSource) :
    (createChildState env self).2.nState = self.nState :=
  (createChildState_frame env self).1

@[simp] theorem createChildState_bDSUpdate (env : Env) (self : OGRSDEDataSource) :
    (createChildState env self).2.bDSUpdate = self.bDSUpdate :=
  (createChildState_frame env self).2.1

@[simp] theorem createChildState_bDSUseVersionEdits (env : Env) (self : OGRSDEDataSource) :
    (createChildState env self).2.bDSUseVersionEdits = self.bDSUseVersionEdits :=
  (createChildState_frame env self).2.2.1

@[simp] theorem createChildState_hVersion (env : Env) (self : OGRSDEDataSource) :
    (createChildState env self).2.hVersion = self.hVersion :=
  (createChildState_frame env self).2.2.2.1

@[simp] theorem createChildState_hConnection (env : Env) (self : OGRSDEDataSource) :
    (createChildState env self).2.hConnection = self.hConnection :=
  (createChildState_frame env self).2.2.2.2

theorem openEditState_frame (env : Env) (self : OGRSDEDataSource) :
    (openEditState env self).2.nState = self.nState
    ∧ (openEditState env self).2.bDSUpdate = self.bDSUpdate
    ∧ (openEditState env self).2.bDSUseVersionEdits = self.bDSUseVersionEdits
    ∧ (openEditState env self).2.hVersion = self.hVersion
    ∧ (openEditState env self).2.hConnection = self.hConnection := by
  unfold openEditState
  simp only []
  split_ifs <;> simp

@[simp] theorem openEditState_nState (env : Env) (self : OGRSDEDataSource) :
    (openEditState env self).2.nState = self.nState :=
  (openEditState_frame env self).1

@[simp] theorem openEditState_bDSUpdate (env : Env) (self : OGRSDEDataSource) :
    (openEditState env self).2.bDSUpdate = self.bDSUpdate :=
  (openEditState_frame env self).2.1

@[simp] theorem openEditState_bDSUseVersionEdits (env : Env) (self : OGRSDEDataSource) :
    (openEditState env self).2.bDSUseVersionEdits = self.bDSUseVersionEdits :=
  (openEditState_frame env self).2.2.1

@[simp] theorem openEditState_hVersion (env : Env) (self : OGRSDEDataSource) :
    (openEditState env self).2.hVersion = self.hVersion :=
  (openEditState_frame env self).2.2.2.1

@[simp] theorem openEditState_hConnection (env : Env) (self : OGRSDEDataSource) :
    (openEditState env self).2.hConnection = self.hConnection :=
  (openEditState_frame env self).2.2.2.2

theorem SetVersionState_frame (env : Env) (self : OGRSDEDataSource) (name : String) :
    (SetVersionState env self name).2.bDSUpdate = self.bDSUpdate
    ∧ (SetVersionState env self name).2.bDSUseVersionEdits = self.bDSUseVersionEdits
    ∧ (SetVersionState env self name).2.hConnection = self.hConnection := by
  unfold SetVersionState
  simp only []
  split_ifs <;> simp

@[simp] theorem SetVersionState_bDSUpdate (env : Env) (self : OGRSDEDataSource)
    (name : String) : (SetVersionState env self name).2.bDSUpdate = self.bDSUpdate :=
  (SetVersionState_frame env self name).1

@[simp] theorem SetVersionState_bDSUseVersionEdits (env : Env) (self : OGRSDEDataSource)
    (name : String) :
    (SetVersionState env self name).2.bDSUseVersionEdits = self.bDSUseVersionEdits :=
  (SetVersionState_frame env self name).2.1

@[simp] theorem SetVersionState_hConnection (env : Env) (self : OGRSDEDataSource)
    (name : String) : (SetVersionState env self name).2.hConnection = self.hConnection :=
  (SetVersionState_frame env self name).2.2

theorem SetVersionState_adds (env : Env) (self : OGRSDEDataSource) (name : String) :
    Adds sessionCall self (SetVersionState env self name).2 := by
  unfold SetVersionState
  simp only []
  split_ifs
  all_goals first
    | (refine Adds.followedBy ?_
        ((openEditState_adds env _).weaken (fun c h => by simp [sessionCall, h]))
       simp [Adds, eventsSince, List.append_assoc]
       (repeat' apply And.intro) <;> rfl)
    | (simp [Adds, eventsSince, IssueSDEError_trace, List.append_assoc] <;>
       (repeat' apply And.intro) <;>
       first
         | rfl
         | exact cleanupEvents_calls _ _ _ (fun _ => rfl) rfl)

/-- A session that is not opened for edits: `SetVersionState` only resolves the
version. -/
theorem SetVersionState_readonly (env : Env) (self : OGRSDEDataSource) (name : String)
    (h : (self.bDSUpdate && self.bDSUseVersionEdits) = false) :
    Adds resolveCall self (SetVersionState env self name).2
    ∧ (SetVersionState env self name).2.nNextState = self.nNextState := by
  unfold SetVersionState
  simp only []
  split_ifs
  all_goals first
    | (exfalso; simp_all; done)
    | (refine ⟨?_, by simp⟩
       simp [Adds, eventsSince, IssueSDEError_trace, List.append_assoc] <;>
       (repeat' apply And.intro) <;>
       first
         | rfl
         | exact cleanupEvents_calls _ _ _ (fun _ => rfl) rfl)

/-! ## Opening tables -/

theorem OpenTable_trace (env : Env) (self : OGRSDEDataSource) (t : String)
    (a b : Option String) (n : Int) : (OpenTable env self t a b n).2.trace = self.trace := by
  unfold OpenTable
  split <;> rfl

theorem OpenTable_sameSession (env : Env) (self : OGRSDEDataSource) (t : String)
    (a b : Option String) (n : Int) : SameSession self (OpenTable env self t a b n).2 := by
  unfold OpenTable
  split <;> simp [SameSession]

theorem CreateLayerFromRegInfo_trace (env : Env) (self : OGRSDEDataSource)
    (reginfo : SE_REGINFO) : (CreateLayerFromRegInfo env self reginfo).trace = self.trace := by
  unfold CreateLayerFromRegInfo
  split_ifs <;> simp [OpenTable_trace]

theorem CreateLayerFromRegInfo_sameSession (env : Env) (self : OGRSDEDataSource)
    (reginfo : SE_REGINFO) : SameSession self (CreateLayerFromRegInfo env self reginfo) := by
  unfold CreateLayerFromRegInfo
  split_ifs
  all_goals first
    | exact SameSession.unchanged _
    | exact OpenTable_sameSession _ _ _ _ _ _

theorem foldl_CreateLayerFromRegInfo (env : Env) (l : List SE_REGINFO)
    (self : OGRSDEDataSource) :
    (l.foldl (CreateLayerFromRegInfo env) self).trace = self.trace
    ∧ SameSession self (l.foldl (CreateLayerFromRegInfo env) self) := by
  induction l generalizing self with
  | nil => exact ⟨rfl, SameSession.unchanged _⟩
  | cons r l ih =>
    obtain ⟨h1, h2⟩ := ih (CreateLayerFromRegInfo env self r)
    refine ⟨?_, ?_⟩
    · rw [List.foldl_cons, h1, CreateLayerFromRegInfo_trace]
    · rw [List.foldl_cons]
      exact (CreateLayerFromRegInfo_sameSession env self r).followedBySame h2

theorem SameSession.afterCall (env : Env) (self : OGRSDEDataSource) (c : Call) :
    SameSession self (SE env self c).self := by
  simp [SameSession]

theorem SameSession.afterError (env : Env) (self : OGRSDEDataSource) (n : Int)
    (f : Option String) : SameSession self (IssueSDEError env self n f) := by
  simp [SameSession]

theorem EnumerateSpatialTables_sameSession (env : Env) (self : OGRSDEDataSource) :
    SameSession self (EnumerateSpatialTables env self) := by
  unfold EnumerateSpatialTables
  simp only []
  split_ifs
  · exact (SameSession.afterCall env self _).followedBySame (SameSession.afterError env _ _ _)
  · exact ((SameSession.afterCall env self _).followedBySame
      (foldl_CreateLayerFromRegInfo env env.ahTableList _).2).followedBySame
        (SameSession.afterCall env _ _)

theorem foldl_CreateLayerFromRegInfo_trace (env : Env) (l : List SE_REGINFO)
    (self : OGRSDEDataSource) :
    (l.foldl (CreateLayerFromRegInfo env) self).trace = self.trace :=
  (foldl_CreateLayerFromRegInfo env l self).1

theorem EnumerateSpatialTables_adds (env : Env) (self : OGRSDEDataSource) :
    Adds tableCall self (EnumerateSpatialTables env self) := by
  unfold EnumerateSpatialTables
  simp only []
  split_ifs <;>
    simp [Adds, eventsSince, IssueSDEError_trace, foldl_CreateLayerFromRegInfo_trace,
      List.append_assoc] <;>
    (repeat' apply And.intro) <;>
    first
      | rfl
      | exact cleanupEvents_calls _ _ _ (fun _ => rfl) rfl

theorem OpenSpatialTable_sameSession (env : Env) (self : OGRSDEDataSource) (t : String) :
    SameSession self (OpenSpatialTable env self t) := by
  unfold OpenSpatialTable
  simp only []
  refine SameSession.followedBySame (b := if (SE env self .SE_reginfo_create).rc ≠ SE_SUCCESS then
      IssueSDEError env (SE env self .SE_reginfo_create).self
        (SE env self .SE_reginfo_create).rc (some "SE_reginfo_create")
    else (SE env self .SE_reginfo_create).self) ?_ ?_
  · split_ifs
    · exact (SameSession.afterCall env self _).followedBySame (SameSession.afterError env _ _ _)
    · exact SameSession.afterCall env self _
  · refine SameSession.followedBySame ?_ (SameSession.afterCall env _ _)
    split_ifs
    all_goals first
      | exact (SameSession.afterCall env _ _).followedBySame (SameSession.afterError env _ _ _)
      | exact (SameSession.afterCall env _ _).followedBySame
          (CreateLayerFromRegInfo_sameSession env _ _)

theorem OpenSpatialTable_adds (env : Env) (self : OGRSDEDataSource) (t : String) :
    Adds tableCall self (OpenSpatialTable env self t) := by
  unfold OpenSpatialTable
  simp only []
  refine Adds.followedBy (b := if (SE env self .SE_reginfo_create).rc ≠ SE_SUCCESS then
      IssueSDEError env (SE env self .SE_reginfo_create).self
        (SE env self .SE_reginfo_create).rc (some "SE_reginfo_create")
    else (SE env self .SE_reginfo_create).self) ?_ ?_
  · split_ifs
    · exact (Adds.call env tableCall self _ (by rfl)).followedBy
        (Adds.cleanup env _ _ _ _ (fun _ => rfl) rfl)
    · exact Adds.call env tableCall self _ (by rfl)
  · refine Adds.followedBy ?_ (Adds.call env tableCall _ _ (by rfl))
    refine Adds.followedBy (Adds.call env tableCall _ (.SE_registration_get_info t) (by rfl)) ?_
    split_ifs
    all_goals first
      | exact Adds.cleanup env _ _ _ _ (fun _ => rfl) rfl
      | exact Adds.of_append [] (by simp [CreateLayerFromRegInfo_trace]) (by simp)

/-! ## `Open` -/

theorem tables_sameSession (env : Env) (self : OGRSDEDataSource) (c : Prop) [Decidable c]
    (t : String) :
    SameSession self
      (if c then OpenSpatialTable env self t else EnumerateSpatialTables env self) := by
  split_ifs
  · exact OpenSpatialTable_sameSession env self t
  · exact EnumerateSpatialTables_sameSession env self

theorem tables_adds (env : Env) (self : OGRSDEDataSource) (c : Prop) [Decidable c]
    (t : String) :
    Adds tableCall self
      (if c then OpenSpatialTable env self t else EnumerateSpatialTables env self) := by
  split_ifs
  · exact OpenSpatialTable_adds env self t
  · exact EnumerateSpatialTables_adds env self

theorem openTablesAndVersion_outcome (env : Env) (self : OGRSDEDataSource)
    (papszTokens : List String) :
    ∃ s v, Adds tableCall self s ∧ SameSession self s
      ∧ (openTablesAndVersion env self papszTokens).1
          = (if (SetVersionState env s v).1 = 0 then FALSE else TRUE)
      ∧ (openTablesAndVersion env self papszTokens).2 = (SetVersionState env s v).2 := by
  refine ⟨if papszTokens.length = 6 ∧ papszTokens.getD 5 "" ≠ "" then
      OpenSpatialTable env self (papszTokens.getD 5 "")
    else EnumerateSpatialTables env self,
    if papszTokens.length = 7 ∧ papszTokens.getD 6 "" ≠ "" then papszTokens.getD 6 ""
    else "SDE.DEFAULT", tables_adds env self _ _, tables_sameSession env self _ _, ?_, ?_⟩
  · unfold openTablesAndVersion
    simp only []
    by_cases h7 : papszTokens.length = 7 ∧ papszTokens.getD 6 "" ≠ ""
    · rw [if_pos h7, if_pos h7]; split_ifs <;> rfl
    · rw [if_neg h7, if_neg h7]; split_ifs <;> rfl
  · unfold openTablesAndVersion
    simp only []
    by_cases h7 : papszTokens.length = 7 ∧ papszTokens.getD 6 "" ≠ ""
    · rw [if_pos h7, if_pos h7]; split_ifs <;> rfl
    · rw [if_neg h7, if_neg h7]; split_ifs <;> rfl

theorem outcome_of_tables (env : Env) (self s : OGRSDEDataSource) (bUpdate : Bool)
    (papszTokens : List String) (hA : Adds connectCall self s)
    (h1 : s.nState = self.nState) (h2 : s.nNextState = self.nNextState)
    (h3 : s.bDSUpdate = bUpdate)
    (h4 : s.bDSUseVersionEdits = EQUAL (env.SDE_VERSIONEDITS.getD "TRUE") "TRUE") :
    OpenOutcome env self bUpdate (openTablesAndVersion env s papszTokens) := by
  obtain ⟨s', v, hadds, hsame, hr1, hr2⟩ := openTablesAndVersion_outcome env s papszTokens
  obtain ⟨g1, g2, g3, g4, -, -⟩ := hsame
  exact Or.inr ⟨s', v,
    hA.followedBy (hadds.weaken (fun c h => by cases c <;> simp_all [connectCall])),
    g1.trans h1, g2.trans h2, g3.trans h3, g4.trans h4, hr1, hr2⟩

theorem connect_outcome (env : Env) (self : OGRSDEDataSource) (pszNewName : String)
    (bUpdate : Bool) (papszTokens : List String) :
    OpenOutcome env self bUpdate (connect env self pszNewName bUpdate papszTokens) := by
  unfold connect
  simp only []
  split_ifs
  all_goals first
    | (refine Or.inl ⟨rfl, ?_, by simp, by simp⟩
       simp [Adds, eventsSince, IssueSDEError_trace, List.append_assoc] <;>
       (repeat' apply And.intro) <;>
       first
         | rfl
         | exact cleanupEvents_calls _ _ _ (fun _ => rfl) rfl)
    | (refine outcome_of_tables _ _ _ _ _ ?_ (by simp) (by simp) (by simp) (by simp)
       simp [Adds, eventsSince, List.append_assoc] <;>
       (repeat' apply And.intro) <;> rfl)

theorem Open_outcome (env : Env) (self : OGRSDEDataSource) (pszNewName : String)
    (bUpdate : Bool) : OpenOutcome env self bUpdate (Open env self pszNewName bUpdate) := by
  unfold Open
  simp only []
  split_ifs
  · exact Or.inl ⟨rfl, Adds.same _ _, rfl, rfl⟩
  · exact Or.inl ⟨rfl, Adds.of_append [] (by simp) (by simp), rfl, rfl⟩
  · exact connect_outcome env self pszNewName bUpdate _

/-! ## Entering `EDIT_OPEN` -/

theorem mem_eventsSince_of_extends {a b c : OGRSDEDataSource} (hab : a.trace <+: b.trace)
    (hbc : b.trace <+: c.trace) {e : Event} (he : e ∈ eventsSince b c) :
    e ∈ eventsSince a c := by
  rw [eventsSince_trans hab hbc]
  exact List.mem_append_right _ he

theorem ChildOpened.of_extends {a b c : OGRSDEDataSource} (hab : a.trace <+: b.trace)
    (hbc : b.trace <+: c.trace) (h : ChildOpened b c) : ChildOpened a c := by
  obtain ⟨⟨e1, h1, h1'⟩, ⟨e2, h2, h2'⟩⟩ := h
  exact ⟨⟨e1, mem_eventsSince_of_extends hab hbc h1, h1'⟩,
    ⟨e2, mem_eventsSince_of_extends hab hbc h2, h2'⟩⟩

theorem createChildState_ok (env : Env) (pre : OGRSDEDataSource)
    (hOK : (createChildState env pre).1 ≠ 0) :
    ChildOpened pre (createChildState env pre).2 := by
  unfold ChildOpened eventsSince
  unfold createChildState at hOK ⊢
  simp only [] at hOK ⊢
  split_ifs at hOK ⊢
  all_goals first
    | exact absurd rfl hOK
    | simp_all [List.append_assoc]

theorem openEditState_ok (env : Env) (pre : OGRSDEDataSource)
    (hOK : (openEditState env pre).1 ≠ 0) :
    ChildOpened pre (openEditState env pre).2 := by
  unfold openEditState at hOK ⊢
  simp only [] at hOK ⊢
  split_ifs at hOK ⊢
  all_goals first
    | exact absurd rfl hOK
    | (refine ChildOpened.of_extends ?_ (createChildState_adds env _).1
        (createChildState_ok env _ hOK)
       simp [List.append_assoc])

theorem SetVersionState_ok (env : Env) (pre : OGRSDEDataSource) (name : String)
    (hU : pre.bDSUpdate = true) (hV : pre.bDSUseVersionEdits = true)
    (hOK : (SetVersionState env pre name).1 ≠ 0) :
    ChildOpened pre (SetVersionState env pre name).2 := by
  unfold SetVersionState at hOK ⊢
  simp only [] at hOK ⊢
  split_ifs at hOK ⊢
  all_goals first
    | exact absurd rfl hOK
    | (refine ChildOpened.of_extends ?_ (openEditState_adds env _).1
        (openEditState_ok env _ hOK)
       simp [List.append_assoc])
    | (exfalso; simp_all)

/-! ## Teardown -/

theorem commitSteps_extends (env : Env) (self : OGRSDEDataSource) :
    self.trace <+: (commitSteps env self).trace := by
  unfold commitSteps
  simp only []
  split_ifs <;> simp [IssueSDEError_trace, List.append_assoc]

theorem trimStep_extends (env : Env) (self : OGRSDEDataSource) :
    self.trace <+: (trimStep env self).trace := by
  unfold trimStep
  simp only []
  split_ifs <;> simp [IssueSDEError_trace, List.append_assoc]

theorem release_adds (env : Env) (self : OGRSDEDataSource) :
    Adds releaseCall self (release env self) := by
  unfold release
  simp only []
  split_ifs <;> simp [Adds, eventsSince, List.append_assoc] <;>
    (repeat' apply And.intro) <;> rfl

theorem commitSteps_frame (env : Env) (self : OGRSDEDataSource) :
    (commitSteps env self).nState = self.nState
    ∧ (commitSteps env self).nNextState = self.nNextState
    ∧ (commitSteps env self).hVersion = self.hVersion
    ∧ (commitSteps env self).hConnection = self.hConnection := by
  unfold commitSteps
  simp only []
  split_ifs <;> simp

theorem trimStep_frame (env : Env) (self : OGRSDEDataSource) :
    (trimStep env self).hVersion = self.hVersion
    ∧ (trimStep env self).hConnection = self.hConnection := by
  unfold trimStep
  simp only []
  split_ifs <;> simp

theorem versionBinding_release (env : Env) (self : OGRSDEDataSource) (v0 : Int) :
    versionBinding v0 (release env self).trace = versionBinding v0 self.trace := by
  unfold release
  simp only []
  split_ifs <;> simp

theorem versionBinding_cleanup (env : Env) (self : OGRSDEDataSource) (v0 : Int) (n : Int)
    (f : Option String) :
    versionBinding v0 (IssueSDEError env self n f).trace = versionBinding v0 self.trace := by
  rw [IssueSDEError_trace]
  unfold cleanupEvents
  split_ifs <;> simp

theorem versionBinding_trimStep (env : Env) (self : OGRSDEDataSource) (v0 : Int) :
    versionBinding v0 (trimStep env self).trace = versionBinding v0 self.trace := by
  unfold trimStep
  simp only []
  split_ifs <;> simp [versionBinding_cleanup]

theorem commitSteps_ok (env : Env) (self : OGRSDEDataSource) (v0 : Int)
    (h : ∀ e ∈ eventsSince self (commitSteps env self), e.rc = SE_SUCCESS) :
    versionBinding v0 (commitSteps env self).trace = self.nNextState := by
  unfold eventsSince commitSteps at h
  unfold commitSteps
  simp only [] at h ⊢
  split_ifs at h ⊢ with h1 h2 h2
  · simp [IssueSDEError_trace, List.append_assoc] at h h1
    exact absurd h.2.1 h1
  · simp [IssueSDEError_trace, List.append_assoc] at h h1
    exact absurd h.2.1 h1
  · simp [IssueSDEError_trace, List.append_assoc] at h h2
    exact absurd h.2.2.1 h2
  · simp at h2
    simp [h2]

/-- In `EDIT_OPEN` the destructor runs the commit path. -/
theorem destructor_edit_open (env : Env) (self : OGRSDEDataSource)
    (hU : self.bDSUpdate = true) (hV : self.bDSUseVersionEdits = true)
    (hS : self.nState ≠ env.SE_DEFAULT_STATE_ID) (hN : self.nNextState ≠ -2) :
    destructor env self = release env (trimStep env (commitSteps env self)) := by
  simp [destructor, hU, hV, hS, hN]

/-- Without a child state the destructor only releases the session. -/
theorem destructor_no_child (env : Env) (self : OGRSDEDataSource)
    (hN : self.nNextState = -2) : destructor env self = release env self := by
  simp [destructor, hN]

theorem destructor_commits (env : Env) (self : OGRSDEDataSource) (v0 : Int)
    (hU : self.bDSUpdate = true) (hV : self.bDSUseVersionEdits = true)
    (hS : self.nState ≠ env.SE_DEFAULT_STATE_ID) (hN : self.nNextState ≠ -2)
    (hCalls : ∀ e ∈ eventsSince self (destructor env self), e.rc = SE_SUCCESS) :
    versionBinding v0 (destructor env self).trace = self.nNextState := by
  rw [destructor_edit_open env self hU hV hS hN] at hCalls ⊢
  rw [versionBinding_release, versionBinding_trimStep]
  apply commitSteps_ok
  intro e he
  apply hCalls
  rw [eventsSince_trans (commitSteps_extends env self)
    ((trimStep_extends env _).trans (release_adds env _).1)]
  exact List.mem_append_left _ he

theorem IssueSDEError_extends (env : Env) (self : OGRSDEDataSource) (n : Int)
    (f : Option String) : self.trace <+: (IssueSDEError env self n f).trace := by
  rw [IssueSDEError_trace]
  exact List.prefix_append _ _

theorem event_mem_eventsSince (env : Env) (s0 s x : OGRSDEDataSource) (c : Call)
    (h0 : s0.trace <+: s.trace) (h1 : (SE env s c).self.trace <+: x.trace) :
    env.event s.trace.length c ∈ eventsSince s0 x := by
  have h2 : s0.trace <+: (SE env s c).self.trace := h0.trans (List.prefix_append _ _)
  rw [eventsSince_trans h2 h1, eventsSince_of_append (d := (eventsSince s0 s) ++
    [env.event s.trace.length c])]
  · simp
  · obtain ⟨d, hd⟩ := h0
    rw [eventsSince_of_append hd.symm, SE_trace, ← hd, List.append_assoc]

theorem commitSteps_repoints (env : Env) (self : OGRSDEDataSource) :
    ∃ e ∈ eventsSince self (commitSteps env self),
      e.call = .SE_version_change_state self.nNextState := by
  unfold commitSteps
  simp only []
  split_ifs
  all_goals first
    | refine ⟨_, event_mem_eventsSince env self _ _ _ ?_ (List.prefix_refl _), ?_⟩
    | refine ⟨_, event_mem_eventsSince env self _ _ _ ?_ (IssueSDEError_extends _ _ _ _), ?_⟩
  all_goals simp [IssueSDEError_trace, List.append_assoc]

theorem destructor_repoints (env : Env) (self : OGRSDEDataSource)
    (hU : self.bDSUpdate = true) (hV : self.bDSUseVersionEdits = true)
    (hS : self.nState ≠ env.SE_DEFAULT_STATE_ID) (hN : self.nNextState ≠ -2) :
    ∃ e ∈ eventsSince self (destructor env self),
      e.call = .SE_version_change_state self.nNextState := by
  obtain ⟨e, he, hc⟩ := commitSteps_repoints env self
  refine ⟨e, ?_, hc⟩
  rw [destructor_edit_open env self hU hV hS hN,
    eventsSince_trans (commitSteps_extends env self)
      ((trimStep_extends env _).trans (release_adds env _).1)]
  exact List.mem_append_left _ he

/-- C1: in a session opened for update with version edits enabled in which
`SetVersionState` succeeded with a baseline other than `SE_DEFAULT_STATE_ID` and
a child state id other than -2 (the value of `nNextState` that stands for "no
child state"), and in which every backend call of the destructor succeeds, the
version is bound to `nNextState` after the destructor has run: the destructor
has called `SE_version_change_state` on `nNextState`, and `nNextState` is the
id of the state the backend created as a child of the baseline, and opened,
during that session.  `pre` is the object when `SetVersionState` is entered and
`self` the object when the destructor starts, with the session fields
`SetVersionState` left; `v0` is the state the version was bound to before. -/
theorem commit_binds_version_to_child (env : Env) (pre self : OGRSDEDataSource)
    (pszVersionName : String) (v0 : Int)
    (hU : pre.bDSUpdate = true) (hV : pre.bDSUseVersionEdits = true)
    (hOK : (SetVersionState env pre pszVersionName).1 ≠ 0)
    (hBase : (SetVersionState env pre pszVersionName).2.nState ≠ env.SE_DEFAULT_STATE_ID)
    (hChild : (SetVersionState env pre pszVersionName).2.nNextState ≠ -2)
    (hsU : self.bDSUpdate = true) (hsV : self.bDSUseVersionEdits = true)
    (hsS : self.nState = (SetVersionState env pre pszVersionName).2.nState)
    (hsN : self.nNextState = (SetVersionState env pre pszVersionName).2.nNextState)
    (hCalls : ∀ e ∈ eventsSince self (destructor env self), e.rc = SE_SUCCESS) :
    versionBinding v0 (destructor env self).trace
        = (SetVersionState env pre pszVersionName).2.nNextState
    ∧ (∃ e ∈ eventsSince self (destructor env self),
        e.call = .SE_version_change_state (SetVersionState env pre pszVersionName).2.nNextState
        ∧ e.rc = SE_SUCCESS)
    ∧ (∃ e ∈ eventsSince pre (SetVersionState env pre pszVersionName).2,
        e.call = .SE_state_create (SetVersionState env pre pszVersionName).2.nState
        ∧ e.rc = SE_SUCCESS
        ∧ e.out = (SetVersionState env pre pszVersionName).2.nNextState)
    ∧ (∃ e ∈ eventsSince pre (SetVersionState env pre pszVersionName).2,
        e.call = .SE_state_open (SetVersionState env pre pszVersionName).2.nNextState
        ∧ e.rc = SE_SUCCESS) := by
  obtain ⟨h1, h2⟩ := SetVersionState_ok env pre pszVersionName hU hV hOK
  have hS : self.nState ≠ env.SE_DEFAULT_STATE_ID := hsS ▸ hBase
  have hN : self.nNextState ≠ -2 := hsN ▸ hChild
  obtain ⟨e, he, hc⟩ := destructor_repoints env self hsU hsV hS hN
  refine ⟨?_, ⟨e, he, hsN ▸ hc, hCalls e he⟩, h1, h2⟩
  rw [← hsN]
  exact destructor_commits env self v0 hsU hsV hS hN hCalls

/-- Witness for C1: on a backend on which every call succeeds, with the version
bound to state 10 and child state 11 created by the session, the version is
bound to 11 after the destructor. -/
theorem commit_binds_version_to_child_witness :
    versionBinding 10
        (destructor envOK (SetVersionState envOK (editSession envOK) "SDE.DEFAULT").2).trace
      = 11
    ∧ (SetVersionState envOK (editSession envOK) "SDE.DEFAULT").2.nNextState = 11 :=
  ⟨(commit_binds_version_to_child envOK (editSession envOK)
      (SetVersionState envOK (editSession envOK) "SDE.DEFAULT").2 "SDE.DEFAULT" 10
      (by decide) (by decide) (by decide) (by decide) (by decide) (by decide) (by decide)
      rfl rfl (by decide)).1.trans (by decide), by decide⟩

theorem connectCall_readonly (c : Call) (h : connectCall c = true) :
    readonlyCall c = true := by
  cases c <;> simp_all [connectCall, readonlyCall, tableCall]

theorem resolveCall_readonly (c : Call) (h : resolveCall c = true) :
    readonlyCall c = true := by
  cases c <;> simp_all [readonlyCall, resolveCall]

theorem readonlyCall_not_editOpen (c : Call) (h : readonlyCall c = true) :
    isEditOpen c = false := by
  cases c <;> simp_all [readonlyCall, isEditOpen, tableCall, resolveCall, cleanupCall]

theorem releaseCall_not_commitStep (c : Call) (h : releaseCall c = true) :
    isCommitStep c = false := by
  cases c <;> simp_all [releaseCall, isCommitStep]

theorem Adds.from_new {p : Call → Bool} {env : Env} {g1 g2 : Bool} {b : OGRSDEDataSource}
    (h : Adds p (OGRSDEDataSource.new env g1 g2) b) : ∀ e ∈ b.trace, p e.call = true := by
  intro e he
  rcases h.mem_trace e he with h1 | h1
  · simp [OGRSDEDataSource.new] at h1
  · exact h1

/-- C5: in a session that is not opened for write, or whose version-edit
configuration is disabled, `Open` (and `SetVersionState`, which it calls) makes
no `SE_connection_start_transaction`, `SE_state_create` or `SE_state_open`
call, `nNextState` keeps its initial value -2, and the destructor, run on any
later state `self` of the object with that `nNextState`, makes none of the
commit, close, repoint and trim calls.  `g1` and `g2` are the values the
unassigned flags hold after construction. -/
theorem readonly_session_never_edits (env : Env) (g1 g2 : Bool) (pszNewName : String)
    (bUpdate : Bool)
    (h : bUpdate = false ∨ EQUAL (env.SDE_VERSIONEDITS.getD "TRUE") "TRUE" = false) :
    (∀ e ∈ (Open env (OGRSDEDataSource.new env g1 g2) pszNewName bUpdate).2.trace,
        isEditOpen e.call = false)
    ∧ (Open env (OGRSDEDataSource.new env g1 g2) pszNewName bUpdate).2.nNextState = -2
    ∧ (∀ self : OGRSDEDataSource,
        self.nNextState
            = (Open env (OGRSDEDataSource.new env g1 g2) pszNewName bUpdate).2.nNextState →
        ∀ e ∈ eventsSince self (destructor env self), isCommitStep e.call = false) := by
  have key : Adds readonlyCall (OGRSDEDataSource.new env g1 g2)
        (Open env (OGRSDEDataSource.new env g1 g2) pszNewName bUpdate).2
      ∧ (Open env (OGRSDEDataSource.new env g1 g2) pszNewName bUpdate).2.nNextState = -2 := by
    rcases Open_outcome env (OGRSDEDataSource.new env g1 g2) pszNewName bUpdate with
      ⟨-, hA, -, hN⟩ | ⟨s, v, hA, -, hN, hU, hV, -, h2⟩
    · exact ⟨hA.weaken connectCall_readonly, hN⟩
    · have hflags : (s.bDSUpdate && s.bDSUseVersionEdits) = false := by
        rw [hU, hV]
        rcases h with h | h <;> simp [h]
      obtain ⟨hR, hN'⟩ := SetVersionState_readonly env s v hflags
      rw [h2]
      exact ⟨(hA.weaken connectCall_readonly).followedBy (hR.weaken resolveCall_readonly),
        hN'.trans hN⟩
  refine ⟨fun e he => readonlyCall_not_editOpen _ (key.1.from_new e he), key.2, ?_⟩
  intro self hself e he
  rw [destructor_no_child env self (hself.trans key.2)] at he
  exact releaseCall_not_commitStep _ ((release_adds env self).2 e he)

/-- Witness for C5: a session opened with `bUpdate` false on a backend on which
every call succeeds, whatever the unassigned flags held. -/
theorem readonly_session_never_edits_witness :
    (∀ e ∈ (Open envOK (OGRSDEDataSource.new envOK true true)
        "SDE:srv,5151,db,user,pw,,HEAD" false).2.trace, isEditOpen e.call = false)
    ∧ (Open envOK (OGRSDEDataSource.new envOK true true)
        "SDE:srv,5151,db,user,pw,,HEAD" false).2.nNextState = -2 :=
  ⟨(readonly_session_never_edits envOK true true "SDE:srv,5151,db,user,pw,,HEAD" false
      (Or.inl rfl)).1,
   (readonly_session_never_edits envOK true true "SDE:srv,5151,db,user,pw,,HEAD" false
      (Or.inl rfl)).2.1⟩

theorem cleanupEvents_cleanupCall (env : Env) (self : OGRSDEDataSource) :
    ∀ e ∈ cleanupEvents env self, cleanupCall e.call = true :=
  cleanupEvents_calls env self _ (fun _ => rfl) rfl

theorem mem_openEditState_split (env : Env) (s S : OGRSDEDataSource) (e : Event)
    (he : e ∈ eventsSince s (openEditState env S).2) (hp : s.trace <+: S.trace) :
    e ∈ eventsSince s S ∨ setupCall e.call = true := by
  rw [eventsSince_trans hp (openEditState_adds env S).1] at he
  rcases List.mem_append.1 he with h | h
  · exact Or.inl h
  · exact Or.inr ((openEditState_adds env S).2 e h)

theorem SetVersionState_invalid_release (env : Env) (s : OGRSDEDataSource) (name : String)
    (e : Event) (v : String) (hne : env.SE_INVALID_RELEASE ≠ SE_SUCCESS)
    (he : e ∈ eventsSince s (SetVersionState env s name).2)
    (hcall : e.call = .SE_version_get_info v) (hrc : e.rc = env.SE_INVALID_RELEASE) :
    Adds resolveCall s (SetVersionState env s name).2
    ∧ (SetVersionState env s name).2.nNextState = s.nNextState
    ∧ (SetVersionState env s name).2.nState = s.nState := by
  have hc : ∀ x : OGRSDEDataSource, e ∉ cleanupEvents env x := by
    intro x hx
    have := cleanupEvents_cleanupCall env x e hx
    simp [hcall, cleanupCall] at this
  unfold SetVersionState at he ⊢
  simp only [] at he ⊢
  by_cases h1 : env.reply s.trace.length .SE_versioninfo_create = SE_SUCCESS
  swap
  · exfalso
    simp [h1, eventsSince, IssueSDEError_trace, hc] at he
    subst he
    simp at hcall
  by_cases h2 : env.reply (s.trace.length + 1) (.SE_version_get_info name) = SE_SUCCESS
  swap
  · by_cases h3 : env.reply (s.trace.length + 1) (.SE_version_get_info name)
        = env.SE_INVALID_RELEASE
    · clear he
      simp [h1, h2, h3, hne, Adds, eventsSince, IssueSDEError_trace]
      exact ⟨rfl, rfl, rfl, cleanupEvents_calls _ _ _ (fun _ => rfl) rfl⟩
    · exfalso
      simp [h1, h2, h3, eventsSince, IssueSDEError_trace, hc] at he
      rcases he with he | he <;> subst he
      · simp at hcall
      · exact h3 hrc
  have hne' : SE_SUCCESS ≠ env.SE_INVALID_RELEASE := fun h => hne h.symm
  by_cases h3 : env.reply (s.trace.length + 2) .SE_versioninfo_get_state_id = SE_SUCCESS
  swap
  · exfalso
    simp [h1, h2, h3, eventsSince, IssueSDEError_trace, hc] at he
    rcases he with he | he | he <;> subst he <;> simp_all
  exfalso
  by_cases hf : s.bDSUpdate = true ∧ s.bDSUseVersionEdits = true
  · simp [h1, h2, h3, hf] at he
    rcases mem_openEditState_split _ _ _ _ he (by simp) with he | he
    · simp [eventsSince] at he
      rcases he with he | he | he <;> subst he <;> simp_all
    · simp [hcall, setupCall, isSetupStep, cleanupCall] at he
  · simp [h1, h2, h3, hf, eventsSince] at he
    rcases he with he | he | he <;> subst he <;> simp_all

/-- C6: when `SE_version_get_info` reports `SE_INVALID_RELEASE`, whether or not
the session was opened for write with version edits enabled, the session never
enters `EDIT_OPEN`: `Open` makes no `SE_connection_start_transaction`,
`SE_state_create` or `SE_state_open` call, `nNextState` remains -2, `nState`
remains `SE_DEFAULT_STATE_ID`, and the destructor makes none of the commit,
close, repoint and trim calls.  `e` is the `SE_version_get_info` call in the
trace of `Open`; `g1` and `g2` are the values the unassigned flags hold after
construction. -/
theorem invalid_release_never_edit_open (env : Env) (g1 g2 : Bool) (pszNewName : String)
    (bUpdate : Bool) (e : Event) (v : String)
    (hne : env.SE_INVALID_RELEASE ≠ SE_SUCCESS)
    (he : e ∈ (Open env (OGRSDEDataSource.new env g1 g2) pszNewName bUpdate).2.trace)
    (hcall : e.call = .SE_version_get_info v) (hrc : e.rc = env.SE_INVALID_RELEASE) :
    (∀ e' ∈ (Open env (OGRSDEDataSource.new env g1 g2) pszNewName bUpdate).2.trace,
        isEditOpen e'.call = false)
    ∧ (Open env (OGRSDEDataSource.new env g1 g2) pszNewName bUpdate).2.nNextState = -2
    ∧ (Open env (OGRSDEDataSource.new env g1 g2) pszNewName bUpdate).2.nState
        = env.SE_DEFAULT_STATE_ID
    ∧ (∀ e' ∈ eventsSince (Open env (OGRSDEDataSource.new env g1 g2) pszNewName bUpdate).2
          (destructor env (Open env (OGRSDEDataSource.new env g1 g2) pszNewName bUpdate).2),
        isCommitStep e'.call = false) := by
  have key : Adds readonlyCall (OGRSDEDataSource.new env g1 g2)
        (Open env (OGRSDEDataSource.new env g1 g2) pszNewName bUpdate).2
      ∧ (Open env (OGRSDEDataSource.new env g1 g2) pszNewName bUpdate).2.nNextState = -2
      ∧ (Open env (OGRSDEDataSource.new env g1 g2) pszNewName bUpdate).2.nState
          = env.SE_DEFAULT_STATE_ID := by
    rcases Open_outcome env (OGRSDEDataSource.new env g1 g2) pszNewName bUpdate with
      ⟨-, hA, -, -⟩ | ⟨s, w, hA, hS, hN, -, -, -, h2⟩
    · have := hA.from_new e he
      simp [hcall, connectCall, tableCall, cleanupCall] at this
    · rw [h2] at he ⊢
      have hs : e ∈ eventsSince s (SetVersionState env s w).2 := by
        obtain ⟨d, hd⟩ := (SetVersionState_adds env s w).1
        rw [eventsSince_of_append hd.symm]
        rw [← hd] at he
        rcases List.mem_append.1 he with h | h
        · have := hA.from_new e h
          simp [hcall, connectCall, tableCall, cleanupCall] at this
        · exact h
      obtain ⟨hR, hN', hS'⟩ := SetVersionState_invalid_release env s w e v hne hs hcall hrc
      exact ⟨(hA.weaken connectCall_readonly).followedBy (hR.weaken resolveCall_readonly),
        hN'.trans hN, hS'.trans hS⟩
  refine ⟨fun e' he' => readonlyCall_not_editOpen _ (key.1.from_new e' he'), key.2.1,
    key.2.2, ?_⟩
  intro e' he'
  rw [destructor_no_child env _ key.2.1] at he'
  exact releaseCall_not_commitStep _ ((release_adds env _).2 e' he')

/-- Witness for C6: a session opened for update on a backend whose
`SE_version_get_info` answers `SE_INVALID_RELEASE`. -/
theorem invalid_release_never_edit_open_witness :
    (∀ e' ∈ (Open envInvalidRelease (OGRSDEDataSource.new envInvalidRelease false false)
          "SDE:srv,5151,db,user,pw,,HEAD" true).2.trace, isEditOpen e'.call = false)
    ∧ (Open envInvalidRelease (OGRSDEDataSource.new envInvalidRelease false false)
          "SDE:srv,5151,db,user,pw,,HEAD" true).2.nNextState = -2 :=
  ⟨(invalid_release_never_edit_open envInvalidRelease false false
      "SDE:srv,5151,db,user,pw,,HEAD" true ⟨.SE_version_get_info "HEAD", -27, 10⟩ "HEAD"
      (by decide) (by decide) rfl rfl).1,
   (invalid_release_never_edit_open envInvalidRelease false false
      "SDE:srv,5151,db,user,pw,,HEAD" true ⟨.SE_version_get_info "HEAD", -27, 10⟩ "HEAD"
      (by decide) (by decide) rfl rfl).2.1⟩

theorem errorsSince_of_append {a b : OGRSDEDataSource} {d : List Report}
    (h : b.errors = a.errors ++ d) : errorsSince a b = d := by
  simp [errorsSince, h]

theorem release_calls (env : Env) (self : OGRSDEDataSource) (hH : self.hVersion = true)
    (hC : self.hConnection = true) :
    (eventsSince self (release env self)).map Event.call
      = [.SE_versioninfo_free, .SE_connection_free] := by
  simp [release, hH, hC, eventsSince, List.append_assoc]

theorem destructor_releases (env : Env) (self : OGRSDEDataSource) (hH : self.hVersion = true)
    (hC : self.hConnection = true) :
    [.SE_versioninfo_free, .SE_connection_free]
      <:+ (eventsSince self (destructor env self)).map Event.call := by
  unfold destructor
  simp only []
  split_ifs
  · rw [eventsSince_trans ((commitSteps_extends env self).trans (trimStep_extends env _))
      (release_adds env _).1, List.map_append, release_calls]
    · exact List.suffix_append _ _
    · rw [(trimStep_frame env _).1, (commitSteps_frame env _).2.2.1, hH]
    · rw [(trimStep_frame env _).2, (commitSteps_frame env _).2.2.2, hC]
  · rw [release_calls env self hH hC]

/-- C9: `SE_STATE_INUSE` is never treated as a failure.  (a) In `EDIT_OPEN`,
when `SE_state_trim_tree` answers it, the destructor goes from the trim call
straight on to the release of the session: no report is made and no
`SE_state_delete` or rollback follows.  (b) When `SE_state_delete` answers it
inside `IssueSDEError`, the rollback is still the next call, and the only
reports are that of a failed rollback, if it fails, and the original error:
none about the deletion.  (c) Whatever the teardown calls answer, the destructor
of a session whose version record and connection exist ends with
`SE_versioninfo_free` and `SE_connection_free`. -/
theorem state_in_use_is_not_a_failure (env : Env) (self : OGRSDEDataSource)
    (hU : self.bDSUpdate = true) (hV : self.bDSUseVersionEdits = true)
    (hH : self.hVersion = true) (hC : self.hConnection = true) :
    (self.nNextState ≠ -2 → self.nState ≠ env.SE_DEFAULT_STATE_ID →
      env.reply (commitSteps env self).trace.length
          (.SE_state_trim_tree self.nState self.nNextState) = env.SE_STATE_INUSE →
      destructor env self
        = release env (SE env (commitSteps env self)
            (.SE_state_trim_tree self.nState self.nNextState)).self)
    ∧ (∀ (nErrorCode : Int) (pszFunction : Option String),
        env.reply self.trace.length (.SE_state_delete self.nNextState) = env.SE_STATE_INUSE →
        (eventsSince self (IssueSDEError env self nErrorCode pszFunction)).map Event.call
            = [.SE_state_delete self.nNextState, .SE_connection_rollback_transaction]
        ∧ errorsSince self (IssueSDEError env self nErrorCode pszFunction)
            = (if env.reply (self.trace.length + 1) .SE_connection_rollback_transaction ≠ 0
                then
                  [rollbackFailed env nErrorCode
                    (env.reply (self.trace.length + 1) .SE_connection_rollback_transaction)]
                else [])
              ++ [issued env nErrorCode (pszFunction.getD "SDE")])
    ∧ [.SE_versioninfo_free, .SE_connection_free]
        <:+ (eventsSince self (destructor env self)).map Event.call := by
  refine ⟨?_, ?_, destructor_releases env self hH hC⟩
  · intro hN hS hT
    rw [destructor_edit_open env self hU hV hS hN]
    congr 1
    unfold trimStep
    simp only [SE_rc, (commitSteps_frame env self).1, (commitSteps_frame env self).2.1, hT]
    simp
  · intro n f hD
    constructor
    · rw [eventsSince_of_append (IssueSDEError_trace env self n f)]
      simp [cleanupEvents, hU, hV]
    · rw [errorsSince_of_append (by
        rw [IssueSDEError_errors, List.append_assoc])]
      simp [cleanupReports, cleanupReportsOf, hU, hV, hD]

theorem mem_eventsSince_split {a b c : OGRSDEDataSource} (hab : a.trace <+: b.trace)
    (hbc : b.trace <+: c.trace) {e : Event} (he : e ∈ eventsSince a c) :
    e ∈ eventsSince a b ∨ e ∈ eventsSince b c := by
  rw [eventsSince_trans hab hbc] at he
  exact List.mem_append.1 he

/-- C2 (fails on the code): on a backend whose version `HEAD` is bound to state
10, a session opened for update creates and opens child state 11; deleting
layer 0 then fails at `SE_layer_delete`, and `IssueSDEError` runs its cleanup,
`SE_state_delete( 11 )`, answered `SE_STATE_INUSE`, then the rollback.  The
destructor still commits, closes state 11 and calls
`SE_version_change_state( 11 )`: the version ends bound to 11, not to 10. -/
theorem aborted_session_still_repoints :
    (openedForUpdate envAbort).1 = TRUE
    ∧ (DeleteLayer envAbort (openedForUpdate envAbort).2 0).1 = OGRERR_FAILURE
    ∧ (eventsSince (openedForUpdate envAbort).2
          (DeleteLayer envAbort (openedForUpdate envAbort).2 0).2).map
          (fun e => (e.call, e.rc))
        = [(.SE_layer_delete "PARCELS" "SHAPE", -51), (.SE_state_delete 11, -176),
            (.SE_connection_rollback_transaction, 0)]
    ∧ versionBinding 10 (DeleteLayer envAbort (openedForUpdate envAbort).2 0).2.trace = 10
    ∧ (eventsSince (DeleteLayer envAbort (openedForUpdate envAbort).2 0).2
          (destructor envAbort (DeleteLayer envAbort (openedForUpdate envAbort).2 0).2)).map
          (fun e => (e.call, e.rc))
        = [(.SE_connection_commit_transaction, 0), (.SE_state_close 11, 0),
            (.SE_version_change_state 11, 0), (.SE_state_trim_tree 10 11, 0),
            (.SE_versioninfo_free, 0), (.SE_connection_free, 0)]
    ∧ versionBinding 10
        (destructor envAbort (DeleteLayer envAbort (openedForUpdate envAbort).2 0).2).trace
        = 11 := by
  decide

/-- C3 (fails on the code): in `EDIT_OPEN` with baseline 10 and child 11, when
`SE_state_close( 11 )` fails the destructor reports the error and attempts the
deletion of state 11 and the rollback, but then goes on to
`SE_version_change_state( 11 )`; the backend accepts it and the version ends
bound to 11, not to 10. -/
theorem failed_close_still_repoints :
    (openedForUpdate envCloseFails).1 = TRUE
    ∧ (eventsSince (openedForUpdate envCloseFails).2
          (destructor envCloseFails (openedForUpdate envCloseFails).2)).map
          (fun e => (e.call, e.rc))
        = [(.SE_connection_commit_transaction, 0), (.SE_state_close 11, -1),
            (.SE_state_delete 11, -176), (.SE_connection_rollback_transaction, 0),
            (.SE_version_change_state 11, 0), (.SE_state_trim_tree 10 11, 0),
            (.SE_versioninfo_free, 0), (.SE_connection_free, 0)]
    ∧ errorsSince (openedForUpdate envCloseFails).2
          (destructor envCloseFails (openedForUpdate envCloseFails).2)
        = [issued envCloseFails (-1) "SE_state_close"]
    ∧ versionBinding 10 (openedForUpdate envCloseFails).2.trace = 10
    ∧ versionBinding 10
        (destructor envCloseFails (openedForUpdate envCloseFails).2).trace = 11 := by
  decide

/-- C4 (fails on the code): when `SE_stateinfo_is_open` reports the baseline
open, `SetVersionState` returns a false value, `Open` returns `FALSE` and no
state is created, but the transaction that `SE_connection_start_transaction`
started is left as it is: neither `SetVersionState` nor, later, the destructor
calls `SE_connection_rollback_transaction`. -/
theorem baseline_open_leaves_transaction :
    (openedForUpdate envBaselineOpen).1 = FALSE
    ∧ ((openedForUpdate envBaselineOpen).2.trace.map (fun e => (e.call, e.rc))).drop 7
        = [(.SE_connection_start_transaction, 0), (.SE_stateinfo_create, 0),
            (.SE_state_get_info 10, 0), (.SE_stateinfo_is_open, 1)]
    ∧ (∀ e ∈ (destructor envBaselineOpen (openedForUpdate envBaselineOpen).2).trace,
        e.call ≠ .SE_connection_rollback_transaction
        ∧ e.call ≠ .SE_connection_commit_transaction) := by
  decide

/-- C7 (fails on the code): when `SE_version_get_info` reports
`SE_INVALID_RELEASE`, `nState` stays `SE_DEFAULT_STATE_ID`, but the session is
aborted: `Open` returns `FALSE` and the condition is reported with class
`CE_Failure`, not as a warning. -/
theorem invalid_release_aborts_session :
    (openedForUpdate envInvalidRelease).1 = FALSE
    ∧ (openedForUpdate envInvalidRelease).2.nState = envInvalidRelease.SE_DEFAULT_STATE_ID
    ∧ (openedForUpdate envInvalidRelease).2.errors.map (fun r => r.eErrClass)
        = [.CE_Failure]
    ∧ (Open envInvalidRelease (OGRSDEDataSource.new envInvalidRelease false false)
        "SDE:srv,5151,db,user,pw,,HEAD" false).1 = FALSE := by
  decide

/-- C8 (fails on the code): when the version resolves to `SE_DEFAULT_STATE_ID`
(0 in the sample environment), a session opened for write with version edits
enabled still starts a transaction and creates and opens child state 11; `Open`
succeeds without any report, and the destructor then makes none of the commit
calls: it only releases the session. -/
theorem default_baseline_enters_edit_open :
    (openedForUpdate envDefaultBaseline).1 = TRUE
    ∧ (openedForUpdate envDefaultBaseline).2.nState
        = envDefaultBaseline.SE_DEFAULT_STATE_ID
    ∧ ((openedForUpdate envDefaultBaseline).2.trace.map (fun e => (e.call, e.rc))).filter
          (fun x => isEditOpen x.1)
        = [(.SE_connection_start_transaction, 0), (.SE_state_create 0, 0),
            (.SE_state_open 11, 0)]
    ∧ (openedForUpdate envDefaultBaseline).2.errors = []
    ∧ (eventsSince (openedForUpdate envDefaultBaseline).2
          (destructor envDefaultBaseline (openedForUpdate envDefaultBaseline).2)).map
          Event.call
        = [.SE_versioninfo_free, .SE_connection_free] := by
  decide

/-- Witness for C9: a session opened for update on a backend on which
`SE_state_close` fails and both `SE_state_delete` and `SE_state_trim_tree`
answer `SE_STATE_INUSE`. -/
theorem state_in_use_is_not_a_failure_witness :
    destructor envInUse (openedForUpdate envInUse).2
      = release envInUse (SE envInUse (commitSteps envInUse (openedForUpdate envInUse).2)
          (.SE_state_trim_tree 10 11)).self
    ∧ [Call.SE_versioninfo_free, Call.SE_connection_free]
        <:+ (eventsSince (openedForUpdate envInUse).2
              (destructor envInUse (openedForUpdate envInUse).2)).map Event.call :=
  ⟨(state_in_use_is_not_a_failure envInUse (openedForUpdate envInUse).2 (by decide)
      (by decide) (by decide) (by decide)).1 (by decide) (by decide) (by decide),
   (state_in_use_is_not_a_failure envInUse (openedForUpdate envInUse).2 (by decide)
      (by decide) (by decide) (by decide)).2.2⟩

/-- C11 (fails on the code): in `EDIT_OPEN` with baseline 10 and child 11, when
`SE_connection_commit_transaction` fails, the destructor makes no report and
attempts neither the deletion of the child state nor the rollback: its return
code is not read.  The destructor goes on to close state 11 and to move the
version to it. -/
theorem failed_commit_is_not_reported :
    (openedForUpdate envCommitFails).1 = TRUE
    ∧ (eventsSince (openedForUpdate envCommitFails).2
          (destructor envCommitFails (openedForUpdate envCommitFails).2)).map
          (fun e => (e.call, e.rc))
        = [(.SE_connection_commit_transaction, -1), (.SE_state_close 11, 0),
            (.SE_version_change_state 11, 0), (.SE_state_trim_tree 10 11, 0),
            (.SE_versioninfo_free, 0), (.SE_connection_free, 0)]
    ∧ errorsSince (openedForUpdate envCommitFails).2
          (destructor envCommitFails (openedForUpdate envCommitFails).2) = []
    ∧ versionBinding 10
        (destructor envCommitFails (openedForUpdate envCommitFails).2).trace = 11 := by
  decide

/-- C14 (fails on the code): `Open` calls `IssueSDEError` for a failed
`SE_connection_create` before it has assigned `bDSUpdate` and
`bDSUseVersionEdits`, which the constructor leaves unassigned.  When both
happen to hold a true value, `Open` returns `FALSE` and reports the connect
error, but first calls `SE_state_delete( -2 )` and
`SE_connection_rollback_transaction` on the connection that was not made; when
one of them is false the connect call is the only one. -/
theorem failed_connect_runs_cleanup :
    (Open envConnectFails (OGRSDEDataSource.new envConnectFails true true)
        "SDE:srv,5151,db,user,pw" false).1 = FALSE
    ∧ (Open envConnectFails (OGRSDEDataSource.new envConnectFails true true)
        "SDE:srv,5151,db,user,pw" false).2.trace.map (fun e => (e.call, e.rc))
        = [(.SE_connection_create "srv" "5151" "db" "user" "pw", -9),
            (.SE_state_delete (-2), 0), (.SE_connection_rollback_transaction, 0)]
    ∧ (Open envConnectFails (OGRSDEDataSource.new envConnectFails true true)
        "SDE:srv,5151,db,user,pw" false).2.errors
        = [issued envConnectFails (-9) "SE_connection_create"]
    ∧ (Open envConnectFails (OGRSDEDataSource.new envConnectFails true false)
        "SDE:srv,5151,db,user,pw" false).2.trace.map (fun e => (e.call, e.rc))
        = [(.SE_connection_create "srv" "5151" "db" "user" "pw", -9)] := by
  decide

/-- C15 (fails as stated): `Open` enumerates the spatial tables, and creates
their layers, before it calls `SetVersionState`, whose first call is
`SE_versioninfo_create`. -/
theorem tables_enumerated_before_version :
    ((openedForUpdate envOK).2.trace.map Event.call).take 6
        = [.SE_connection_create "srv" "5151" "db" "user" "pw", .SE_connection_set_concurrency,
            .SE_registration_get_info_list, .SE_registration_free_info_list,
            .SE_versioninfo_create, .SE_version_get_info "HEAD"]
    ∧ ((openedWithTable envOK).2.trace.map Event.call).take 7
        = [.SE_connection_create "srv" "5151" "db" "user" "pw", .SE_connection_set_concurrency,
            .SE_reginfo_create, .SE_registration_get_info "ROADS", .SE_reginfo_free,
            .SE_versioninfo_create, .SE_version_get_info "SDE.DEFAULT"] := by
  decide

/-- C16 (fails on the code): given the connection string
`SDE:srv,5151,db,user,pw,ROADS,HEAD`, which names table `ROADS` and version
`HEAD`, `Open` does not open `ROADS`: it enumerates the spatial tables of the
backend, whose only one is `PARCELS`.  Given `SDE:srv,5151,db,user,pw,ROADS` it
opens `ROADS` alone. -/
theorem table_name_ignored_with_version :
    (openedWithTableAndVersion envOK).1 = TRUE
    ∧ ((openedWithTableAndVersion envOK).2.trace.map Event.call).filter
          (fun c => tableCall c)
        = [.SE_registration_get_info_list, .SE_registration_free_info_list]
    ∧ (openedWithTableAndVersion envOK).2.papoLayers.map (fun l => l.name) = ["PARCELS"]
    ∧ ((openedWithTable envOK).2.trace.map Event.call).filter (fun c => tableCall c)
        = [.SE_reginfo_create, .SE_registration_get_info "ROADS", .SE_reginfo_free]
    ∧ (openedWithTable envOK).2.papoLayers.map (fun l => l.name) = ["ROADS"] := by
  decide

theorem filter_commit_cleanupEvents (env : Env) (s : OGRSDEDataSource) :
    List.filter isCommitStep (List.map Event.call (cleanupEvents env s)) = [] := by
  unfold cleanupEvents
  split_ifs <;> simp [isCommitStep]

theorem filter_commit_release (env : Env) (s : OGRSDEDataSource) :
    List.filter isCommitStep (List.map Event.call (eventsSince s (release env s))) = [] := by
  rw [List.filter_eq_nil_iff]
  intro c hc
  obtain ⟨e, he, rfl⟩ := List.mem_map.1 hc
  simp [releaseCall_not_commitStep _ ((release_adds env s).2 e he)]

theorem commitSteps_calls (env : Env) (self : OGRSDEDataSource) :
    List.filter isCommitStep (List.map Event.call (eventsSince self (commitSteps env self)))
      = [.SE_connection_commit_transaction, .SE_state_close self.nNextState,
          .SE_version_change_state self.nNextState] := by
  unfold commitSteps
  simp only []
  split_ifs <;>
    simp [eventsSince, IssueSDEError_trace, List.append_assoc, List.filter_append,
      filter_commit_cleanupEvents, isCommitStep, List.filter_cons]

theorem trimStep_calls (env : Env) (self : OGRSDEDataSource) :
    List.filter isCommitStep (List.map Event.call (eventsSince self (trimStep env self)))
      = [.SE_state_trim_tree self.nState self.nNextState] := by
  unfold trimStep
  simp only []
  split_ifs <;>
    simp [eventsSince, IssueSDEError_trace, List.append_assoc, List.filter_append,
      filter_commit_cleanupEvents, isCommitStep, List.filter_cons]

/-- C18: the commit, close, repoint and trim calls the destructor makes are, in
this order and each once, `SE_connection_commit_transaction`,
`SE_state_close( nNextState )`, `SE_version_change_state( nNextState )` and
`SE_state_trim_tree( nState, nNextState )`, when the session was opened for
update, version edits are enabled, `nNextState` is not -2 and `nState` is not
`SE_DEFAULT_STATE_ID`; otherwise the destructor makes none of them.  (Calls of
the cleanup of a failed step may come in between.) -/
theorem teardown_calls_in_order (env : Env) (self : OGRSDEDataSource) :
    ((eventsSince self (destructor env self)).map Event.call).filter isCommitStep
      = if self.bDSUpdate = true ∧ self.bDSUseVersionEdits = true ∧ self.nNextState ≠ -2
            ∧ self.nState ≠ env.SE_DEFAULT_STATE_ID then
          [.SE_connection_commit_transaction, .SE_state_close self.nNextState,
            .SE_version_change_state self.nNextState,
            .SE_state_trim_tree self.nState self.nNextState]
        else [] := by
  by_cases h : self.bDSUpdate = true ∧ self.bDSUseVersionEdits = true ∧ self.nNextState ≠ -2
      ∧ self.nState ≠ env.SE_DEFAULT_STATE_ID
  · rw [if_pos h, destructor_edit_open env self h.1 h.2.1 h.2.2.2 h.2.2.1,
      eventsSince_trans (commitSteps_extends env self)
        ((trimStep_extends env _).trans (release_adds env _).1),
      eventsSince_trans (trimStep_extends env _) (release_adds env _).1]
    simp only [List.map_append, List.filter_append, commitSteps_calls, trimStep_calls,
      filter_commit_release, (commitSteps_frame env self).1, (commitSteps_frame env self).2.1]
    simp
  · rw [if_neg h]
    have hd : destructor env self = release env self := by
      unfold destructor
      simp only []
      rw [if_neg]
      simpa [and_assoc] using h
    rw [hd, filter_commit_release]

/-- C12: in update mode with version edits enabled, whatever `SE_state_delete`
returns (recorded as `d`), `IssueSDEError` goes on to call
`SE_connection_rollback_transaction` (recorded as `b`), and whatever the two
return the last report is the original error, with the function name (`SDE`
when none is given), the code and its message.  A deletion that failed with
anything other than `SE_STATE_INUSE` and a rollback that failed are each
reported before it. -/
theorem cleanup_is_not_short_circuited (env : Env) (self : OGRSDEDataSource)
    (nErrorCode : Int) (pszFunction : Option String)
    (hU : self.bDSUpdate = true) (hV : self.bDSUseVersionEdits = true) :
    ∃ d b : Event,
      eventsSince self (IssueSDEError env self nErrorCode pszFunction) = [d, b]
      ∧ d.call = .SE_state_delete self.nNextState
      ∧ b.call = .SE_connection_rollback_transaction
      ∧ errorsSince self (IssueSDEError env self nErrorCode pszFunction)
          = cleanupReportsOf env nErrorCode d.rc b.rc
            ++ [issued env nErrorCode (pszFunction.getD "SDE")]
      ∧ (d.rc ≠ 0 → d.rc ≠ env.SE_STATE_INUSE →
          deleteFailed env nErrorCode d.rc
            ∈ errorsSince self (IssueSDEError env self nErrorCode pszFunction))
      ∧ (b.rc ≠ 0 →
          rollbackFailed env nErrorCode b.rc
            ∈ errorsSince self (IssueSDEError env self nErrorCode pszFunction)) := by
  have hE : errorsSince self (IssueSDEError env self nErrorCode pszFunction)
      = cleanupReportsOf env nErrorCode
          (env.reply self.trace.length (.SE_state_delete self.nNextState))
          (env.reply (self.trace.length + 1) .SE_connection_rollback_transaction)
        ++ [issued env nErrorCode (pszFunction.getD "SDE")] := by
    rw [errorsSince_of_append (by rw [IssueSDEError_errors, List.append_assoc])]
    simp [cleanupReports, hU, hV]
  refine ⟨env.event self.trace.length (.SE_state_delete self.nNextState),
    env.event (self.trace.length + 1) .SE_connection_rollback_transaction, ?_, rfl, rfl, hE,
    ?_, ?_⟩
  · rw [eventsSince_of_append (IssueSDEError_trace env self nErrorCode pszFunction)]
    simp [cleanupEvents, hU, hV]
  · intro h1 h2
    rw [hE]
    simp only [event_rc] at h1 h2
    simp [cleanupReportsOf, h1, h2]
  · intro h1
    rw [hE]
    simp only [event_rc] at h1
    simp [cleanupReportsOf, h1]

/-- Witness for C12: on a backend on which `SE_state_delete` fails with -5 and
the rollback with -7, both failures are reported. -/
theorem cleanup_is_not_short_circuited_witness :
    deleteFailed envCleanupFails (-51) (-5)
        ∈ errorsSince (editSession envCleanupFails)
            (IssueSDEError envCleanupFails (editSession envCleanupFails) (-51)
              (some "SE_layer_delete"))
    ∧ rollbackFailed envCleanupFails (-51) (-7)
        ∈ errorsSince (editSession envCleanupFails)
            (IssueSDEError envCleanupFails (editSession envCleanupFails) (-51)
              (some "SE_layer_delete")) := by
  obtain ⟨d, b, h1, -, -, -, h5, h6⟩ :=
    cleanup_is_not_short_circuited envCleanupFails (editSession envCleanupFails) (-51)
      (some "SE_layer_delete") (by decide) (by decide)
  have hd : [d, b] = [⟨.SE_state_delete (-2), -5, 0⟩,
      ⟨.SE_connection_rollback_transaction, -7, 0⟩] := h1.symm.trans (by decide)
  simp only [List.cons.injEq, and_true] at hd
  obtain ⟨rfl, rfl⟩ := hd
  exact ⟨h5 (by decide) (by decide), h6 (by decide)⟩
theorem connectCall_not_versionStep (c : Call) (h : connectCall c = true) :
    isVersionStep c = false := by
  cases c <;> simp_all [connectCall, isVersionStep, tableCall, cleanupCall, isSetupStep]

theorem sessionCall_not_tableStep (c : Call) (h : sessionCall c = true) :
    isTableStep c = false := by
  cases c <;>
    simp_all [sessionCall, isTableStep, resolveCall, setupCall, cleanupCall, isSetupStep]

@[simp] theorem CPLError_papoLayers (self : OGRSDEDataSource) (a : CPLErr) (b : CPLErrorNum)
    (m : String) : (CPLError self a b m).papoLayers = self.papoLayers := rfl

@[simp] theorem CPLError_nLayers (self : OGRSDEDataSource) (a : CPLErr) (b : CPLErrorNum)
    (m : String) : (CPLError self a b m).nLayers = self.nLayers := rfl

@[simp] theorem IssueSDEError_papoLayers (env : Env) (self : OGRSDEDataSource) (n : Int)
    (f : Option String) : (IssueSDEError env self n f).papoLayers = self.papoLayers := by
  unfold IssueSDEError
  simp only []
  split_ifs <;> rfl

@[simp] theorem IssueSDEError_nLayers (env : Env) (self : OGRSDEDataSource) (n : Int)
    (f : Option String) : (IssueSDEError env self n f).nLayers = self.nLayers := by
  unfold IssueSDEError
  simp only []
  split_ifs <;> rfl

theorem deleteRegistration_layers (env : Env) (self : OGRSDEDataSource) (t : String) :
    (deleteRegistration env self t).2.papoLayers = self.papoLayers
    ∧ (deleteRegistration env self t).2.nLayers = self.nLayers := by
  unfold deleteRegistration
  simp only []
  split_ifs <;> simp

theorem DeleteLayer_layers (env : Env) (self : OGRSDEDataSource) (iLayer : Int)
    (h0 : 0 ≤ iLayer) (h1 : iLayer < self.nLayers) :
    (DeleteLayer env self iLayer).2.papoLayers
        = memmove self.papoLayers iLayer.toNat (iLayer.toNat + 1)
            (self.nLayers - iLayer - 1).toNat
    ∧ (DeleteLayer env self iLayer).2.nLayers = self.nLayers - 1 := by
  have hr : ¬ (iLayer < 0 ∨ iLayer ≥ self.nLayers) := by omega
  unfold DeleteLayer
  simp only [hr, if_false]
  split_ifs <;> simp [deleteRegistration_layers]

theorem memmove_getD (a : List OGRSDELayer) (dst src n k : Nat) :
    (memmove a dst src n).getD k default
      = if k < a.length then
          (if dst ≤ k ∧ k < dst + n then a.getD (src + (k - dst)) default
            else a.getD k default)
        else default := by
  unfold memmove
  by_cases hk : k < a.length
  · simp [List.getD_eq_getElem?_getD, List.getElem?_map, List.getElem?_range, hk]
  · simp [List.getD_eq_getElem?_getD, List.getElem?_map, hk]
    rw [List.getElem?_eq_none (by simpa using hk)]
    simp
theorem getD_beyond (a : List OGRSDELayer) (k : Nat) (h : a.length ≤ k) :
    a.getD k default = default := by
  rw [List.getD_eq_getElem?_getD, List.getElem?_eq_none h]
  rfl

/-- C19: for an index outside `[0, nLayers)`, `DeleteLayer` returns
`OGRERR_FAILURE` and leaves the object, its layer list, `nLayers` and its trace
as they are.  For an index inside the range, whatever the backend calls that
follow return, `nLayers` is decreased by one and the layers `GetLayer` gives
afterwards are those it gave before with the one at position `iLayer` left
out: the layers before `iLayer` keep their position and those after it move
down by one. -/
theorem DeleteLayer_removes_one_layer (env : Env) (self : OGRSDEDataSource) (iLayer : Int) :
    (iLayer < 0 ∨ iLayer ≥ self.nLayers →
      DeleteLayer env self iLayer = (OGRERR_FAILURE, self))
    ∧ (0 ≤ iLayer → iLayer < self.nLayers →
        (DeleteLayer env self iLayer).2.nLayers = self.nLayers - 1
        ∧ ∀ j : Int, GetLayer (DeleteLayer env self iLayer).2 j
            = if j < iLayer then GetLayer self j else GetLayer self (j + 1)) := by
  constructor
  · intro h
    unfold DeleteLayer
    rw [if_pos h]
  · intro h0 h1
    obtain ⟨hp, hn⟩ := DeleteLayer_layers env self iLayer h0 h1
    refine ⟨hn, fun j => ?_⟩
    unfold GetLayer
    rw [hp, hn]
    by_cases hj0 : j < 0
    · have : j < iLayer := by omega
      simp [hj0, this]
    by_cases hj1 : j ≥ self.nLayers - 1
    · have h2 : ¬ j < iLayer := by omega
      have h3 : j + 1 ≥ self.nLayers := by omega
      simp [hj1, h2, h3]
    have hc : ¬ (j < 0 ∨ j ≥ self.nLayers - 1) := by omega
    rw [if_neg hc, memmove_getD]
    by_cases hji : j < iLayer
    · have hc' : ¬ (j < 0 ∨ j ≥ self.nLayers) := by omega
      have hd : ¬ (iLayer.toNat ≤ j.toNat ∧ j.toNat < iLayer.toNat
          + (self.nLayers - iLayer - 1).toNat) := by omega
      rw [if_pos hji, if_neg hc', if_neg hd]
      by_cases hl : j.toNat < self.papoLayers.length
      · rw [if_pos hl]
      · rw [if_neg hl, getD_beyond _ _ (by omega)]
    · have hc' : ¬ (j + 1 < 0 ∨ j + 1 ≥ self.nLayers) := by omega
      have hd : iLayer.toNat ≤ j.toNat ∧ j.toNat < iLayer.toNat
          + (self.nLayers - iLayer - 1).toNat := by omega
      have he : iLayer.toNat + 1 + (j.toNat - iLayer.toNat) = (j + 1).toNat := by omega
      rw [if_neg hji, if_neg hc', if_pos hd, he]
      by_cases hl : j.toNat < self.papoLayers.length
      · rw [if_pos hl]
      · rw [if_neg hl, getD_beyond _ _ (by omega)]

/-- Witness for C19: three layers `A`, `B`, `C`; after `DeleteLayer( 1 )`, on a
backend on which `SE_layer_delete` fails, `GetLayer` gives `A`, `C` and then
`NULL`. -/
theorem DeleteLayer_removes_one_layer_witness :
    (DeleteLayer envAbort threeLayers 1).2.nLayers = 2
    ∧ (GetLayer (DeleteLayer envAbort threeLayers 1).2 0).map (fun l => l.name) = some "A"
    ∧ (GetLayer (DeleteLayer envAbort threeLayers 1).2 1).map (fun l => l.name) = some "C"
    ∧ GetLayer (DeleteLayer envAbort threeLayers 1).2 2 = none
    ∧ DeleteLayer envAbort threeLayers 3 = (OGRERR_FAILURE, threeLayers) :=
  ⟨((DeleteLayer_removes_one_layer envAbort threeLayers 1).2 (by decide) (by decide)).1,
    by rw [((DeleteLayer_removes_one_layer envAbort threeLayers 1).2 (by decide) (by decide)).2 0]
       decide,
    by rw [((DeleteLayer_removes_one_layer envAbort threeLayers 1).2 (by decide) (by decide)).2 1]
       decide,
    by rw [((DeleteLayer_removes_one_layer envAbort threeLayers 1).2 (by decide) (by decide)).2 2]
       decide,
    (DeleteLayer_removes_one_layer envAbort threeLayers 3).1 (by decide)⟩
theorem deleteRegistration_adds (env : Env) (self : OGRSDEDataSource) (t : String)
    (x : Option Nat) : Adds (createCall x) self (deleteRegistration env self t).2 := by
  unfold deleteRegistration
  simp only []
  split_ifs <;>
    simp [Adds, eventsSince, IssueSDEError_trace, List.append_assoc] <;>
    (repeat' apply And.intro) <;>
    first
      | rfl
      | exact cleanupEvents_calls _ _ _ (fun _ => rfl) rfl

theorem DeleteLayer_adds (env : Env) (self : OGRSDEDataSource) (iLayer : Int)
    (x : Option Nat) : Adds (createCall x) self (DeleteLayer env self iLayer).2 := by
  unfold DeleteLayer
  simp only []
  split_ifs
  all_goals first
    | exact Adds.same _ _
    | (refine Adds.followedBy ?_ (deleteRegistration_adds env _ _ x)
       simp [Adds, eventsSince, List.append_assoc]
       (repeat' apply And.intro) <;> rfl)
    | (simp [Adds, eventsSince, IssueSDEError_trace, List.append_assoc] <;>
       (repeat' apply And.intro) <;>
       first
         | rfl
         | exact cleanupEvents_calls _ _ _ (fun _ => rfl) rfl)

theorem deleteExisting_adds (env : Env) (name : String) (opts : List String) (x : Option Nat)
    (n : Nat) : ∀ (iLayer : Int) (self : OGRSDEDataSource),
      Adds (createCall x) self (deleteExisting env name opts n iLayer self).2 := by
  induction n with
  | zero => intro iLayer self; exact Adds.same _ _
  | succ n ih =>
    intro iLayer self
    unfold deleteExisting
    split_ifs
    · exact (DeleteLayer_adds env self iLayer x).followedBy (ih _ _)
    · exact Adds.of_append [] (by simp) (by simp)
    · exact ih _ _
    · exact Adds.same _ _

theorem ConvertOSRtoSDESpatRef_adds (env : Env) (self : OGRSDEDataSource)
    (poSRS : Option OGRSpatialReference) (x : Option Nat) :
    Adds (createCall x) self (ConvertOSRtoSDESpatRef env self poSRS).2 := by
  unfold ConvertOSRtoSDESpatRef
  simp only []
  cases poSRS <;>
    (simp only []
     split_ifs <;>
      simp [Adds, eventsSince, List.append_assoc] <;>
      (repeat' apply And.intro) <;> rfl)

theorem shapeTypes_adds (env : Env) (self : OGRSDEDataSource) (name : String) (eType : Int)
    (x : Option Nat) : Adds (createCall x) self (shapeTypes env self name eType).2 := by
  unfold shapeTypes
  simp only []
  split_ifs <;> simp [Adds, eventsSince] <;> rfl

theorem setLayerInfo_adds (env : Env) (self : OGRSDEDataSource) (a b c : String) (n : Nat) :
    Adds (createCall (some n)) self (setLayerInfo env self a b c n).2 := by
  unfold setLayerInfo
  simp only []
  split_ifs <;>
    simp [Adds, eventsSince, IssueSDEError_trace, List.append_assoc] <;>
    (repeat' apply And.intro) <;>
    first
      | rfl
      | exact cleanupEvents_calls _ _ _ (fun _ => rfl) rfl
      | simp [createCall]

theorem getEnvelope_adds (env : Env) (self : OGRSDEDataSource)
    (poSRS : Option OGRSpatialReference) (x : Option Nat) :
    Adds (createCall x) self (getEnvelope env self poSRS).2 := by
  unfold getEnvelope
  simp only []
  split_ifs <;>
    simp [Adds, eventsSince, IssueSDEError_trace, List.append_assoc] <;>
    (repeat' apply And.intro) <;>
    first
      | rfl
      | exact cleanupEvents_calls _ _ _ (fun _ => rfl) rfl

theorem setLayerExtent_adds (env : Env) (self : OGRSDEDataSource) (d : String)
    (x : Option Nat) : Adds (createCall x) self (setLayerExtent env self d).2 := by
  unfold setLayerExtent
  simp only []
  split_ifs <;>
    simp [Adds, eventsSince, IssueSDEError_trace, List.append_assoc] <;>
    (repeat' apply And.intro) <;>
    first
      | rfl
      | exact cleanupEvents_calls _ _ _ (fun _ => rfl) rfl

theorem getRegistration_adds (env : Env) (self : OGRSDEDataSource) (a b c : String)
    (x : Option Nat) : Adds (createCall x) self (getRegistration env self a b c).2 := by
  unfold getRegistration
  simp only []
  split_ifs <;>
    simp [Adds, eventsSince, IssueSDEError_trace, List.append_assoc] <;>
    (repeat' apply And.intro) <;>
    first
      | rfl
      | exact cleanupEvents_calls _ _ _ (fun _ => rfl) rfl

theorem setMultiversion_adds (env : Env) (self : OGRSDEDataSource) (opts : List String)
    (x : Option Nat) : Adds (createCall x) self (setMultiversion env self opts).2 := by
  unfold setMultiversion
  simp only []
  split_ifs <;>
    simp [Adds, eventsSince, IssueSDEError_trace, List.append_assoc] <;>
    (repeat' apply And.intro) <;>
    first
      | rfl
      | exact cleanupEvents_calls _ _ _ (fun _ => rfl) rfl

theorem alterRegistration_adds (env : Env) (self : OGRSDEDataSource) (x : Option Nat) :
    Adds (createCall x) self (alterRegistration env self).2 := by
  unfold alterRegistration
  simp only []
  split_ifs <;>
    simp [Adds, eventsSince, IssueSDEError_trace, List.append_assoc] <;>
    (repeat' apply And.intro) <;>
    first
      | rfl
      | exact cleanupEvents_calls _ _ _ (fun _ => rfl) rfl

theorem registerTable_adds (env : Env) (self : OGRSDEDataSource) (a b c : String)
    (opts : List String) (x : Option Nat) :
    Adds (createCall x) self (registerTable env self a b c opts).2 := by
  unfold registerTable
  simp only []
  split_ifs
  all_goals first
    | exact getRegistration_adds env self a b c x
    | exact (getRegistration_adds env self a b c x).followedBy
        (setMultiversion_adds env _ opts x)
    | exact ((getRegistration_adds env self a b c x).followedBy
        (setMultiversion_adds env _ opts x)).followedBy (alterRegistration_adds env _ x)

theorem addLayer_trace (env : Env) (self : OGRSDEDataSource) (a b c d e : String) :
    (addLayer env self a b c d e).2.trace = self.trace := by
  unfold addLayer
  split <;> rfl
theorem Adds.report (p : Call → Bool) (self : OGRSDEDataSource) (a : CPLErr)
    (b : CPLErrorNum) (m : String) : Adds p self (CPLError self a b m) :=
  Adds.of_append [] (by simp) (by simp)

theorem enableTable_adds (env : Env) (self : OGRSDEDataSource) (name : String)
    (poSRS : Option OGRSpatialReference) (opts : List String) (fid geom kw desc : String)
    (n : Nat) :
    Adds (createCall (some n)) self
      (enableTable env self name poSRS opts fid geom kw desc n).2 := by
  have A1 := setLayerInfo_adds env self name geom kw n
  have A2 := A1.followedBy (getEnvelope_adds env _ poSRS (some n))
  have A3 := A2.followedBy (setLayerExtent_adds env _ desc (some n))
  have A4 := (A3.followedBy (Adds.call env (createCall (some n)) _ .SE_layer_create rfl)).followedBy
    (Adds.call env _ _ .SE_layerinfo_free rfl)
  have A5 := A4.followedBy (registerTable_adds env _ name fid kw opts (some n))
  unfold enableTable
  simp only []
  split_ifs
  all_goals first
    | exact A1
    | exact A2
    | exact A3
    | exact A4.followedBy (Adds.cleanup env _ _ _ _ (fun _ => rfl) rfl)
    | exact A5
    | exact A5.followedBy (Adds.of_append [] (by simp [addLayer_trace]) (by simp))

theorem shapeTypes_fst (env : Env) (s s' : OGRSDEDataSource) (name : String) (eType : Int) :
    (shapeTypes env s name eType).1 = (shapeTypes env s' name eType).1 := by
  unfold shapeTypes
  simp only []
  split_ifs <;> rfl

theorem CreateLayer_adds (env : Env) (self : OGRSDEDataSource) (name : String)
    (poSRS : Option OGRSpatialReference) (eType : Int) (opts : List String) :
    Adds (createCall (shapeTypes env self name eType).1) self
      (CreateLayer env self name poSRS eType opts).2 := by
  generalize hx : (shapeTypes env self name eType).1 = x
  have B0 := deleteExisting_adds env name opts x self.nLayers.toNat 0 self
  have B1 := B0.followedBy (Adds.call env _ _ (.SE_table_create name) rfl)
  have B2 := B1.followedBy (ConvertOSRtoSDESpatRef_adds env _ poSRS x)
  have B3 := B2.followedBy (Adds.call env _ _ .SE_layerinfo_create rfl)
  have B4 := B3.followedBy (shapeTypes_adds env _ name eType x)
  unfold CreateLayer
  simp only []
  split_ifs
  all_goals first
    | exact B0
    | exact B1.followedBy (Adds.cleanup env _ _ _ _ (fun _ => rfl) rfl)
    | exact B2.followedBy (Adds.report _ _ _ _ _)
    | exact B3.followedBy (Adds.cleanup env _ _ _ _ (fun _ => rfl) rfl)
    | skip
  split
  next s' h =>
    have h1 := congrArg Prod.snd h
    simp only [] at h1
    show Adds (createCall x) self s'
    rw [← h1]
    exact B4
  next n s' h =>
    have h1 := congrArg Prod.snd h
    have h2 := congrArg Prod.fst h
    simp only [] at h1 h2
    rw [← shapeTypes_fst env self _ name eType, hx] at h2
    rw [← h1]
    subst h2
    exact B4.followedBy (enableTable_adds env _ name poSRS opts _ _ _ _ n)
theorem ConvertOSRtoSDESpatRef_layers (env : Env) (self : OGRSDEDataSource)
    (poSRS : Option OGRSpatialReference) :
    (ConvertOSRtoSDESpatRef env self poSRS).2.papoLayers = self.papoLayers
    ∧ (ConvertOSRtoSDESpatRef env self poSRS).2.nLayers = self.nLayers := by
  unfold ConvertOSRtoSDESpatRef
  simp only []
  cases poSRS <;> (simp only []; split_ifs <;> simp)

theorem shapeTypes_layers (env : Env) (self : OGRSDEDataSource) (name : String)
    (eType : Int) :
    (shapeTypes env self name eType).2.papoLayers = self.papoLayers
    ∧ (shapeTypes env self name eType).2.nLayers = self.nLayers := by
  unfold shapeTypes
  simp only []
  split_ifs <;> simp

theorem DeleteLayer_nLayers_le (env : Env) (self : OGRSDEDataSource) (iLayer : Int) :
    (DeleteLayer env self iLayer).2.nLayers ≤ self.nLayers := by
  by_cases h : iLayer < 0 ∨ iLayer ≥ self.nLayers
  · unfold DeleteLayer
    rw [if_pos h]
  · rw [(DeleteLayer_layers env self iLayer (by omega) (by omega)).2]
    omega

theorem deleteExisting_nLayers_le (env : Env) (name : String) (opts : List String) (n : Nat) :
    ∀ (iLayer : Int) (self : OGRSDEDataSource),
      (deleteExisting env name opts n iLayer self).2.nLayers ≤ self.nLayers := by
  induction n with
  | zero => intro iLayer self; exact le_refl _
  | succ n ih =>
    intro iLayer self
    unfold deleteExisting
    split_ifs
    · exact (ih _ _).trans (DeleteLayer_nLayers_le env self iLayer)
    · exact le_refl _
    · exact ih _ _
    · exact le_refl _

/-- The bound `CreateLayer` passes to `deleteExisting` is never reached: with a
larger bound the loop does the same. -/
theorem deleteExisting_bound (env : Env) (name : String) (opts : List String) (k : Nat)
    (n : Nat) : ∀ (iLayer : Int) (self : OGRSDEDataSource), self.nLayers - iLayer ≤ n →
      deleteExisting env name opts (n + k) iLayer self
        = deleteExisting env name opts n iLayer self := by
  induction n with
  | zero =>
    intro iLayer self h
    cases k with
    | zero => rfl
    | succ k =>
      have h' : ¬ iLayer < self.nLayers := by omega
      show deleteExisting env name opts (0 + k + 1) iLayer self = (true, self)
      unfold deleteExisting
      rw [if_neg h']
  | succ n ih =>
    intro iLayer self h
    have e : n + 1 + k = (n + k) + 1 := by omega
    rw [e]
    unfold deleteExisting
    split_ifs
    · exact ih _ _ (by have := DeleteLayer_nLayers_le env self iLayer; omega)
    · rfl
    · exact ih _ _ (by omega)
    · rfl

/-- The bound `CreateLayer` passes to its loop over the layers is enough. -/
theorem deleteExisting_enough (env : Env) (name : String) (opts : List String)
    (self : OGRSDEDataSource) (k : Nat) :
    deleteExisting env name opts (self.nLayers.toNat + k) 0 self
      = deleteExisting env name opts self.nLayers.toNat 0 self :=
  deleteExisting_bound env name opts k _ 0 self (by omega)

theorem CreateLayer_unsupported (env : Env) (self : OGRSDEDataSource) (name : String)
    (poSRS : Option OGRSpatialReference) (eType : Int) (opts : List String)
    (h : (shapeTypes env self name eType).1 = none) :
    (CreateLayer env self name poSRS eType opts).1 = none
    ∧ (CreateLayer env self name poSRS eType opts).2.papoLayers
        = (deleteExisting env name opts self.nLayers.toNat 0 self).2.papoLayers
    ∧ (CreateLayer env self name poSRS eType opts).2.nLayers
        = (deleteExisting env name opts self.nLayers.toNat 0 self).2.nLayers := by
  unfold CreateLayer
  simp only []
  split_ifs
  all_goals first
    | exact ⟨rfl, rfl, rfl⟩
    | exact ⟨rfl, by simp [(ConvertOSRtoSDESpatRef_layers env _ poSRS).1],
        by simp [(ConvertOSRtoSDESpatRef_layers env _ poSRS).2]⟩
    | skip
  split
  next s' h' =>
    have h1 := congrArg Prod.snd h'
    simp only [] at h1
    refine ⟨rfl, ?_, ?_⟩
    · show s'.papoLayers = _
      rw [← h1, (shapeTypes_layers env _ name eType).1]
      simp [(ConvertOSRtoSDESpatRef_layers env _ poSRS).1]
    · show s'.nLayers = _
      rw [← h1, (shapeTypes_layers env _ name eType).2]
      simp [(ConvertOSRtoSDESpatRef_layers env _ poSRS).2]
  next n s' h' =>
    exfalso
    have h2 := congrArg Prod.fst h'
    simp only [] at h2
    rw [← shapeTypes_fst env self _ name eType, h] at h2
    exact Option.noConfusion h2

theorem or_and_left_self (a b : Nat) : (a ||| b) &&& a = a := by
  apply Nat.eq_of_testBit_eq
  intro i
  simp only [Nat.testBit_and, Nat.testBit_or]
  cases a.testBit i <;> simp
/-- C13 (fails on the code): on a session opened for update (baseline 10,
child 11), `CreateLayer` of a layer `ROADS` with an unsupported geometry type
returns `NULL` after `SE_table_create( "ROADS" )` has succeeded: it reports the
error through `CPLError`, frees the layer info and returns.  It calls neither
`SE_table_delete` nor `SE_connection_rollback_transaction`, and the destructor
then commits the transaction and moves the version to state 11: the table
stays.  The same holds when the spatial reference cannot be converted. -/
theorem failed_CreateLayer_leaves_table :
    (openedForUpdate envOK).1 = TRUE
    ∧ collectionLayer.1 = none
    ∧ (eventsSince (openedForUpdate envOK).2 collectionLayer.2).map (fun e => (e.call, e.rc))
        = [(.SE_table_create "ROADS", 0), (.SE_coordref_create, 0),
            (.SE_coordref_set_xy_by_envelope, 0), (.SE_layerinfo_create, 0),
            (.SE_layerinfo_free, 0)]
    ∧ (errorsSince (openedForUpdate envOK).2 collectionLayer.2).map (fun r => r.msg)
        = ["Cannot create SDE layer ROADS with geometry type 7."]
    ∧ (eventsSince collectionLayer.2 (destructor envOK collectionLayer.2)).map
          (fun e => (e.call, e.rc))
        = [(.SE_connection_commit_transaction, 0), (.SE_state_close 11, 0),
            (.SE_version_change_state 11, 0), (.SE_state_trim_tree 10 11, 0),
            (.SE_versioninfo_free, 0), (.SE_connection_free, 0)]
    ∧ unconvertibleLayer.1 = none
    ∧ (eventsSince (openedForUpdate envOK).2 unconvertibleLayer.2).map
          (fun e => (e.call, e.rc))
        = [(.SE_table_create "ROADS", 0), (.SE_coordref_create, 0), (.SE_coordref_free, 0)]
    ∧ (eventsSince unconvertibleLayer.2 (destructor envOK unconvertibleLayer.2)).map
          (fun e => (e.call, e.rc))
        = [(.SE_connection_commit_transaction, 0), (.SE_state_close 11, 0),
            (.SE_version_change_state 11, 0), (.SE_state_trim_tree 10 11, 0),
            (.SE_versioninfo_free, 0), (.SE_connection_free, 0)] := by
  decide

theorem SetupFailure.lift {env : Env} {a b : OGRSDEDataSource} {e : Event}
    {r : Int × OGRSDEDataSource} (hab : a.trace <+: b.trace) (hbr : b.trace <+: r.2.trace)
    (hE : b.errors = a.errors) (hN : b.nNextState = a.nNextState)
    (hpre : ∀ e' ∈ eventsSince a b, ∀ n,
      e'.call ≠ .SE_state_create n ∧ e'.call ≠ .SE_state_delete n)
    (h : SetupFailure env b e r) : SetupFailure env a e r := by
  obtain ⟨h1, ⟨d, x, h2, h3, h4, h5⟩, h6, h7, h8, h9⟩ := h
  refine ⟨h1, ⟨d, x, ?_, h3, h4, ?_⟩, ?_, ?_, ?_, ?_⟩
  · rw [eventsSince_trans hab hbr]
    exact h2.trans (List.suffix_append _ _)
  · rw [← h5]
    simp [errorsSince, hE]
  · intro c hc
    obtain ⟨g1, e', he', g2⟩ := h6 c hc
    exact ⟨g1, e', mem_eventsSince_of_extends hab hbr he', g2⟩
  · intro hc
    obtain ⟨g1, e', he', g2⟩ := h7 hc
    exact ⟨g1, e', mem_eventsSince_of_extends hab hbr he', g2⟩
  · intro hc
    obtain ⟨g1, g2⟩ := h8 hc
    refine ⟨g1.trans hN, fun e' he' n hn => ?_⟩
    rcases mem_eventsSince_split hab hbr he' with h | h
    · exact absurd hn (hpre e' h n).1
    · exact g2 e' h n hn
  · intro x hx n hn
    rcases mem_eventsSince_split hab hbr hx with h | h
    · exact absurd hn (hpre x h n).2
    · exact h9 x h n hn

/-- A step that fails and goes to `IssueSDEError`: `S` is the object after the
failed call `e`, and `t` the calls made before it. -/
theorem failure_at (env : Env) (s S : OGRSDEDataSource) (e : Event) (nm : String)
    (t : List Event) (ht : S.trace = s.trace ++ (t ++ [e])) (hE : S.errors = s.errors)
    (hU : S.bDSUpdate = true) (hV : S.bDSUseVersionEdits = true)
    (hnm : stepName e.call = nm)
    (hopen : ∀ c, e.call = .SE_state_open c →
      S.nNextState = c
      ∧ ∃ e' ∈ t, e'.call = .SE_state_create S.nState ∧ e'.rc = SE_SUCCESS ∧ e'.out = c)
    (hget : e.call = .SE_stateinfo_get_id →
      S.nNextState = e.out
      ∧ ∃ e' ∈ t, e'.call = .SE_state_create S.nState ∧ e'.rc = SE_SUCCESS)
    (hearly : beforeChild e.call = true →
      S.nNextState = s.nNextState
      ∧ ∀ e' ∈ t ++ [e], ∀ n, e'.call = .SE_state_create n → e'.rc ≠ SE_SUCCESS)
    (hnd : ∀ x ∈ t ++ [e], ∀ n, x.call ≠ .SE_state_delete n) :
    SetupFailure env s e (FALSE, IssueSDEError env S e.rc (some nm)) := by
  have htr : (IssueSDEError env S e.rc (some nm)).trace
      = s.trace ++ (t ++ [e] ++ cleanupEvents env S) := by
    rw [IssueSDEError_trace, ht, List.append_assoc]
  refine ⟨rfl, ⟨env.event S.trace.length (.SE_state_delete S.nNextState),
    env.event (S.trace.length + 1) .SE_connection_rollback_transaction, ?_, ?_, rfl, ?_⟩,
    ?_, ?_, ?_, ?_⟩
  · show _ <:+ eventsSince s (IssueSDEError env S e.rc (some nm))
    rw [eventsSince_of_append htr]
    simp only [cleanupEvents, hU, hV, Bool.and_self, if_true, List.append_assoc]
    exact List.suffix_append t _
  · simp
  · show errorsSince s (IssueSDEError env S e.rc (some nm)) = _
    rw [errorsSince_of_append (by rw [IssueSDEError_errors, List.append_assoc, hE])]
    simp [cleanupReports, hU, hV, hnm]
  · intro c hc
    obtain ⟨g1, e', he', g2⟩ := hopen c hc
    refine ⟨by simpa using g1, e', ?_, by simpa using g2⟩
    show e' ∈ eventsSince s (IssueSDEError env S e.rc (some nm))
    rw [eventsSince_of_append htr]
    simp [he']
  · intro hc
    obtain ⟨g1, e', he', g2⟩ := hget hc
    refine ⟨by simpa using g1, e', ?_, by simpa using g2⟩
    show e' ∈ eventsSince s (IssueSDEError env S e.rc (some nm))
    rw [eventsSince_of_append htr]
    simp [he']
  · intro hc
    obtain ⟨g1, g2⟩ := hearly hc
    refine ⟨by simpa using g1, ?_⟩
    show ∀ e' ∈ eventsSince s (IssueSDEError env S e.rc (some nm)), _
    rw [eventsSince_of_append htr]
    intro e' he' n hn
    rcases List.mem_append.1 he' with h | h
    · exact g2 e' h n hn
    · have := cleanupEvents_calls env S cleanupCall (fun _ => rfl) rfl e' h
      rw [hn] at this
      simp [cleanupCall] at this
  · show ∀ x ∈ eventsSince s (IssueSDEError env S e.rc (some nm)), _
    rw [eventsSince_of_append htr]
    intro x hx n hn
    rcases List.mem_append.1 hx with h | h
    · exact absurd hn (hnd x h n)
    · simp only [cleanupEvents, hU, hV, Bool.and_self, if_true, List.mem_cons,
        List.mem_singleton, List.not_mem_nil, or_false] at h
      rcases h with rfl | rfl
      · have hn' : S.nNextState = n := by simpa [Env.event] using hn
        simp [hn']
      · simp [Env.event] at hn

theorem createChildState_failure (env : Env) (s : OGRSDEDataSource)
    (hU : s.bDSUpdate = true) (hV : s.bDSUseVersionEdits = true) (e : Event)
    (he : e ∈ eventsSince s (createChildState env s).2)
    (hstep : isSetupStep e.call = true) (hfail : e.rc ≠ SE_SUCCESS) :
    SetupFailure env s e (createChildState env s) := by
  unfold createChildState at he ⊢
  simp only [] at he ⊢
  by_cases h1 : env.reply s.trace.length .SE_stateinfo_create = SE_SUCCESS
  swap
  · have he' : e = env.event s.trace.length .SE_stateinfo_create := by
      simp [h1, eventsSince, IssueSDEError_trace, cleanupEvents, hU, hV] at he
      rcases he with he | he | he <;> subst he <;> simp_all [isSetupStep]
    subst he'
    simp [h1]
    exact failure_at env s _ (env.event s.trace.length .SE_stateinfo_create) _ []
      (by simp) (by simp) (by simp [hU]) (by simp [hV]) rfl (by simp)
      (by simp_all) (by simp_all [beforeChild]) (by simp)
  by_cases h2 : env.reply (s.trace.length + 1) .SE_stateinfo_create = SE_SUCCESS
  swap
  · have he' : e = env.event (s.trace.length + 1) .SE_stateinfo_create := by
      simp [h1, h2, eventsSince, IssueSDEError_trace, cleanupEvents, hU, hV] at he
      rcases he with he | he | he | he <;> subst he <;> simp_all [isSetupStep]
    subst he'
    simp [h1, h2]
    exact failure_at env s _ (env.event (s.trace.length + 1) .SE_stateinfo_create) _
      [env.event s.trace.length .SE_stateinfo_create]
      (by simp) (by simp) (by simp [hU]) (by simp [hV]) rfl (by simp)
      (by simp_all) (by simp_all [beforeChild]) (by simp)
  by_cases h3 : env.reply (s.trace.length + 2) (.SE_state_create s.nState) = SE_SUCCESS
  swap
  · have he' : e = env.event (s.trace.length + 2) (.SE_state_create s.nState) := by
      simp [h1, h2, h3, eventsSince, IssueSDEError_trace, cleanupEvents, hU, hV] at he
      rcases he with he | he | he | he | he <;> subst he <;> simp_all [isSetupStep]
    subst he'
    simp [h1, h2, h3]
    exact failure_at env s _ (env.event (s.trace.length + 2) (.SE_state_create s.nState)) _
      [env.event s.trace.length .SE_stateinfo_create,
        env.event (s.trace.length + 1) .SE_stateinfo_create]
      (by simp) (by simp) (by simp [hU]) (by simp [hV]) rfl (by simp)
      (by simp_all) (by simp_all [beforeChild]) (by simp)
  by_cases h4 : env.reply (s.trace.length + 3) .SE_stateinfo_get_id = SE_SUCCESS
  swap
  · have he' : e = env.event (s.trace.length + 3) .SE_stateinfo_get_id := by
      simp [h1, h2, h3, h4, eventsSince, IssueSDEError_trace, cleanupEvents, hU, hV] at he
      rcases he with he | he | he | he | he | he <;> subst he <;> simp_all [isSetupStep]
    subst he'
    simp [h1, h2, h3, h4]
    exact failure_at env s _ (env.event (s.trace.length + 3) .SE_stateinfo_get_id) _
      [env.event s.trace.length .SE_stateinfo_create,
        env.event (s.trace.length + 1) .SE_stateinfo_create,
        env.event (s.trace.length + 2) (.SE_state_create s.nState)]
      (by simp) (by simp) (by simp [hU]) (by simp [hV]) rfl (by simp)
      (by simp_all) (by simp_all [beforeChild]) (by simp)
  by_cases h5 : env.reply (s.trace.length + 4)
      (.SE_state_open (env.out (s.trace.length + 2) (.SE_state_create s.nState))) = SE_SUCCESS
  swap
  · have he' : e = env.event (s.trace.length + 4)
        (.SE_state_open (env.out (s.trace.length + 2) (.SE_state_create s.nState))) := by
      simp [h1, h2, h3, h4, h5, eventsSince, IssueSDEError_trace, cleanupEvents, hU, hV]
        at he
      rcases he with he | he | he | he | he | he | he <;> subst he <;>
        simp_all [isSetupStep]
    subst he'
    simp [h1, h2, h3, h4, h5]
    exact failure_at env s _
      (env.event (s.trace.length + 4)
        (.SE_state_open (env.out (s.trace.length + 2) (.SE_state_create s.nState)))) _
      [env.event s.trace.length .SE_stateinfo_create,
        env.event (s.trace.length + 1) .SE_stateinfo_create,
        env.event (s.trace.length + 2) (.SE_state_create s.nState),
        env.event (s.trace.length + 3) .SE_stateinfo_get_id]
      (by simp) (by simp) (by simp [hU]) (by simp [hV]) rfl (by simp [h3])
      (by simp_all) (by simp_all [beforeChild]) (by simp)
  · exfalso
    simp [h1, h2, h3, h4, h5, eventsSince] at he
    rcases he with he | he | he | he | he | he | he | he <;> subst he <;>
      simp_all [isSetupStep]

theorem createChildState_failure_after (env : Env) (s S : OGRSDEDataSource)
    (hp : s.trace <+: S.trace) (hE : S.errors = s.errors) (hN : S.nNextState = s.nNextState)
    (hnc : ∀ e' ∈ eventsSince s S, ∀ n,
      e'.call ≠ .SE_state_create n ∧ e'.call ≠ .SE_state_delete n)
    (hU : S.bDSUpdate = true) (hV : S.bDSUseVersionEdits = true) (e : Event)
    (he : e ∈ eventsSince s (createChildState env S).2)
    (hpre : e ∈ eventsSince s S → False)
    (hstep : isSetupStep e.call = true) (hfail : e.rc ≠ SE_SUCCESS) :
    SetupFailure env s e (createChildState env S) := by
  rcases mem_eventsSince_split hp (createChildState_adds env S).1 he with h | h
  · exact absurd h hpre
  · exact (createChildState_failure env S hU hV e h hstep hfail).lift hp
      (createChildState_adds env S).1 hE hN hnc

theorem openEditState_failure (env : Env) (s : OGRSDEDataSource)
    (hU : s.bDSUpdate = true) (hV : s.bDSUseVersionEdits = true) (e : Event)
    (he : e ∈ eventsSince s (openEditState env s).2)
    (hstep : isSetupStep e.call = true) (hfail : e.rc ≠ SE_SUCCESS) :
    SetupFailure env s e (openEditState env s) := by
  unfold openEditState at he ⊢
  simp only [] at he ⊢
  by_cases h1 : env.reply s.trace.length .SE_connection_start_transaction = SE_SUCCESS
  swap
  · have he' : e = env.event s.trace.length .SE_connection_start_transaction := by
      simp [h1, eventsSince, IssueSDEError_trace, cleanupEvents, hU, hV] at he
      rcases he with he | he | he <;> subst he <;> simp_all [isSetupStep]
    subst he'
    simp [h1]
    exact failure_at env s _ (env.event s.trace.length .SE_connection_start_transaction) _ []
      (by simp) (by simp) (by simp [hU]) (by simp [hV]) rfl (by simp)
      (by simp_all) (by simp_all [beforeChild]) (by simp)
  by_cases h2 : env.reply (s.trace.length + 1) .SE_stateinfo_create = SE_SUCCESS
  swap
  · have he' : e = env.event (s.trace.length + 1) .SE_stateinfo_create := by
      simp [h1, h2, eventsSince, IssueSDEError_trace, cleanupEvents, hU, hV] at he
      rcases he with he | he | he | he <;> subst he <;> simp_all [isSetupStep]
    subst he'
    simp [h1, h2]
    exact failure_at env s _ (env.event (s.trace.length + 1) .SE_stateinfo_create) _
      [env.event s.trace.length .SE_connection_start_transaction]
      (by simp) (by simp) (by simp [hU]) (by simp [hV]) rfl (by simp)
      (by simp_all) (by simp_all [beforeChild]) (by simp)
  by_cases h3 : env.reply (s.trace.length + 2) (.SE_state_get_info s.nState) = SE_SUCCESS
  swap
  · have he' : e = env.event (s.trace.length + 2) (.SE_state_get_info s.nState) := by
      simp [h1, h2, h3, eventsSince, IssueSDEError_trace, cleanupEvents, hU, hV] at he
      rcases he with he | he | he | he | he <;> subst he <;> simp_all [isSetupStep]
    subst he'
    simp [h1, h2, h3]
    exact failure_at env s _ (env.event (s.trace.length + 2) (.SE_state_get_info s.nState)) _
      [env.event s.trace.length .SE_connection_start_transaction,
        env.event (s.trace.length + 1) .SE_stateinfo_create]
      (by simp) (by simp) (by simp [hU]) (by simp [hV]) rfl (by simp)
      (by simp_all) (by simp_all [beforeChild]) (by simp)
  by_cases h4 : env.reply (s.trace.length + 3) .SE_stateinfo_is_open = 0
  swap
  · exfalso
    simp [h1, h2, h3, h4, eventsSince] at he
    rcases he with he | he | he | he <;> subst he <;> simp_all [isSetupStep]
  · simp [h1, h2, h3, h4] at he ⊢
    refine createChildState_failure_after env s _ (by simp) (by simp) (by simp)
      (by simp [eventsSince]) (by simp [hU])
      (by simp [hV]) e he ?_ hstep hfail
    intro h
    simp [eventsSince] at h
    rcases h with h | h | h | h <;> subst h <;> simp_all [isSetupStep]

theorem openEditState_failure_after (env : Env) (s S : OGRSDEDataSource)
    (hp : s.trace <+: S.trace) (hE : S.errors = s.errors) (hN : S.nNextState = s.nNextState)
    (hnc : ∀ e' ∈ eventsSince s S, ∀ n,
      e'.call ≠ .SE_state_create n ∧ e'.call ≠ .SE_state_delete n)
    (hU : S.bDSUpdate = true) (hV : S.bDSUseVersionEdits = true) (e : Event)
    (he : e ∈ eventsSince s (openEditState env S).2)
    (hpre : e ∈ eventsSince s S → False)
    (hstep : isSetupStep e.call = true) (hfail : e.rc ≠ SE_SUCCESS) :
    SetupFailure env s e (openEditState env S) := by
  rcases mem_eventsSince_split hp (openEditState_adds env S).1 he with h | h
  · exact absurd h hpre
  · exact (openEditState_failure env S hU hV e h hstep hfail).lift hp
      (openEditState_adds env S).1 hE hN hnc

theorem SetVersionState_failure (env : Env) (s : OGRSDEDataSource) (name : String)
    (hU : s.bDSUpdate = true) (hV : s.bDSUseVersionEdits = true) (e : Event)
    (he : e ∈ eventsSince s (SetVersionState env s name).2)
    (hstep : isSetupStep e.call = true) (hfail : e.rc ≠ SE_SUCCESS) :
    SetupFailure env s e (SetVersionState env s name) := by
  have hc : ∀ x : OGRSDEDataSource, e ∉ cleanupEvents env x := by
    intro x hx
    have := cleanupEvents_cleanupCall env x e hx
    cases hcall : e.call <;> simp_all [cleanupCall, isSetupStep]
  unfold SetVersionState at he ⊢
  simp only [] at he ⊢
  by_cases h1 : env.reply s.trace.length .SE_versioninfo_create = SE_SUCCESS
  swap
  · exfalso
    simp [h1, eventsSince, IssueSDEError_trace, hc] at he
    subst he
    simp [isSetupStep] at hstep
  by_cases h2 : env.reply (s.trace.length + 1) (.SE_version_get_info name) = SE_SUCCESS
  swap
  · exfalso
    by_cases h3 : env.reply (s.trace.length + 1) (.SE_version_get_info name)
        = env.SE_INVALID_RELEASE
    · have h2' : ¬ env.SE_INVALID_RELEASE = SE_SUCCESS := h3 ▸ h2
      simp [h1, h2', h3, eventsSince, IssueSDEError_trace, hc] at he
      rcases he with he | he | he <;> subst he <;> simp [isSetupStep] at hstep
    · simp [h1, h2, h3, eventsSince, IssueSDEError_trace, hc] at he
      rcases he with he | he <;> subst he <;> simp [isSetupStep] at hstep
  by_cases h3 : env.reply (s.trace.length + 2) .SE_versioninfo_get_state_id = SE_SUCCESS
  swap
  · exfalso
    simp [h1, h2, h3, eventsSince, IssueSDEError_trace, hc] at he
    rcases he with he | he | he <;> subst he <;> simp [isSetupStep] at hstep
  simp [h1, h2, h3, hU, hV] at he ⊢
  refine openEditState_failure_after env s _ (by simp) (by simp) (by simp)
    (by simp [eventsSince]) (by simp [hU])
    (by simp [hV]) e he ?_ hstep hfail
  intro h
  simp [eventsSince] at h
  rcases h with h | h | h <;> subst h <;> simp [isSetupStep] at hstep

/-- C10 (amended): in a session opened for update with version edits enabled,
when a step of the setup sequence of `SetVersionState` (start transaction,
create state info, get baseline info, create child state, read the child id,
open child state), recorded as `e`, fails: `SetVersionState` returns `FALSE`;
the two calls after the failed one are `SE_state_delete` on `nNextState` and
`SE_connection_rollback_transaction`; the reports are those of a cleanup call
that failed, where an `SE_state_delete` that answered `SE_STATE_INUSE` is not
reported, followed by the error of the failed step.  When the failed step is
the opening of the child state, `nNextState` is the id of the child the backend
created.  When it is the reading of the child's id, a child was created and
`nNextState` is the value `e.out` the failed getter left.  When it is an
earlier step, no child was created and `nNextState` has its value on entry.
Every `SE_state_delete` of the run is on `nNextState`. -/
theorem setup_failure_cleans_up (env : Env) (self : OGRSDEDataSource)
    (pszVersionName : String) (e : Event)
    (hU : self.bDSUpdate = true) (hV : self.bDSUseVersionEdits = true)
    (he : e ∈ eventsSince self (SetVersionState env self pszVersionName).2)
    (hstep : isSetupStep e.call = true) (hfail : e.rc ≠ SE_SUCCESS) :
    (SetVersionState env self pszVersionName).1 = FALSE
    ∧ (∃ d b : Event,
        [e, d, b] <:+ eventsSince self (SetVersionState env self pszVersionName).2
        ∧ d.call = .SE_state_delete (SetVersionState env self pszVersionName).2.nNextState
        ∧ b.call = .SE_connection_rollback_transaction
        ∧ errorsSince self (SetVersionState env self pszVersionName).2
            = cleanupReportsOf env e.rc d.rc b.rc ++ [issued env e.rc (stepName e.call)])
    ∧ (∀ c, e.call = .SE_state_open c →
        (SetVersionState env self pszVersionName).2.nNextState = c
        ∧ ∃ e' ∈ eventsSince self (SetVersionState env self pszVersionName).2,
            e'.call = .SE_state_create (SetVersionState env self pszVersionName).2.nState
            ∧ e'.rc = SE_SUCCESS ∧ e'.out = c)
    ∧ (e.call = .SE_stateinfo_get_id →
        (SetVersionState env self pszVersionName).2.nNextState = e.out
        ∧ ∃ e' ∈ eventsSince self (SetVersionState env self pszVersionName).2,
            e'.call = .SE_state_create (SetVersionState env self pszVersionName).2.nState
            ∧ e'.rc = SE_SUCCESS)
    ∧ (beforeChild e.call = true →
        (SetVersionState env self pszVersionName).2.nNextState = self.nNextState
        ∧ ∀ e' ∈ eventsSince self (SetVersionState env self pszVersionName).2, ∀ n,
            e'.call = .SE_state_create n → e'.rc ≠ SE_SUCCESS)
    ∧ (∀ x ∈ eventsSince self (SetVersionState env self pszVersionName).2, ∀ n,
        x.call = .SE_state_delete n
          → n = (SetVersionState env self pszVersionName).2.nNextState) :=
  SetVersionState_failure env self pszVersionName hU hV e he hstep hfail

/-- C10 (fails as stated): the backend creates child state 11, then
`SE_stateinfo_get_id` fails and leaves `nNextState` at -2.  `SetVersionState`
returns `FALSE` after `SE_state_delete( -2 )` and the rollback; neither it nor
the destructor ever calls `SE_state_delete( 11 )`. -/
theorem child_not_deleted_when_id_unread :
    (openedForUpdate envGetIdFails).1 = FALSE
    ∧ ((openedForUpdate envGetIdFails).2.trace.map (fun e => (e.call, e.rc, e.out))).drop 13
        = [(.SE_state_create 10, 0, 11), (.SE_stateinfo_get_id, -1, -2),
            (.SE_state_delete (-2), 0, 0), (.SE_connection_rollback_transaction, 0, 0)]
    ∧ (∀ e ∈ (destructor envGetIdFails (openedForUpdate envGetIdFails).2).trace,
        e.call ≠ .SE_state_delete 11) := by
  decide

/-- Witness for C10: on a backend on which `SE_state_open` fails, the failed
step is the opening of child state 11, and `nNextState` is 11. -/
theorem setup_failure_cleans_up_witness :
    (SetVersionState envOpenFails (editSession envOpenFails) "HEAD").1 = FALSE
    ∧ (SetVersionState envOpenFails (editSession envOpenFails) "HEAD").2.nNextState = 11 :=
  ⟨(setup_failure_cleans_up envOpenFails (editSession envOpenFails) "HEAD"
      ⟨.SE_state_open 11, -1, 0⟩ (by decide) (by decide) (by decide) (by decide)
      (by decide)).1,
   ((setup_failure_cleans_up envOpenFails (editSession envOpenFails) "HEAD"
      ⟨.SE_state_open 11, -1, 0⟩ (by decide) (by decide) (by decide) (by decide)
      (by decide)).2.2.1 11 rfl).1⟩

theorem earlyCall_not_step (c : Call) (h : earlyCall c = true) :
    isTableStep c = false ∧ isVersionStep c = false := by
  cases c <;> simp_all [earlyCall, cleanupCall, isTableStep, isVersionStep, isSetupStep]

theorem tableCall_not_versionStep (c : Call) (h : tableCall c = true) :
    isVersionStep c = false := by
  cases c <;> simp_all [tableCall, cleanupCall, isVersionStep, isSetupStep]

theorem OpenSpatialTable_first (env : Env) (self : OGRSDEDataSource) (t : String) :
    Adds tableCall (SE env self .SE_reginfo_create).self (OpenSpatialTable env self t) := by
  unfold OpenSpatialTable
  simp only []
  refine Adds.followedBy (b := if (SE env self .SE_reginfo_create).rc ≠ SE_SUCCESS then
      IssueSDEError env (SE env self .SE_reginfo_create).self
        (SE env self .SE_reginfo_create).rc (some "SE_reginfo_create")
    else (SE env self .SE_reginfo_create).self) ?_ ?_
  · split_ifs
    · exact Adds.cleanup env _ _ _ _ (fun _ => rfl) rfl
    · exact Adds.same _ _
  · refine Adds.followedBy ?_ (Adds.call env tableCall _ _ (by rfl))
    refine Adds.followedBy (Adds.call env tableCall _ (.SE_registration_get_info t) (by rfl)) ?_
    split_ifs
    all_goals first
      | exact Adds.cleanup env _ _ _ _ (fun _ => rfl) rfl
      | exact Adds.of_append [] (by simp [CreateLayerFromRegInfo_trace]) (by simp)

theorem EnumerateSpatialTables_first (env : Env) (self : OGRSDEDataSource) :
    Adds tableCall (SE env self .SE_registration_get_info_list).self
      (EnumerateSpatialTables env self) := by
  unfold EnumerateSpatialTables
  simp only []
  split_ifs
  · exact Adds.cleanup env _ _ _ _ (fun _ => rfl) rfl
  · exact Adds.followedBy (b := env.ahTableList.foldl (CreateLayerFromRegInfo env)
        (SE env self .SE_registration_get_info_list).self)
      (Adds.of_append [] (by simp [foldl_CreateLayerFromRegInfo_trace]) (by simp))
      (Adds.call env tableCall _ _ (by rfl))

theorem tables_first (env : Env) (self : OGRSDEDataSource) (c : Prop) [Decidable c]
    (t : String) :
    ∃ f t1, isTableStep f.call = true ∧ (∀ e ∈ t1, tableCall e.call = true)
      ∧ (if c then OpenSpatialTable env self t else EnumerateSpatialTables env self).trace
          = self.trace ++ f :: t1 := by
  split_ifs
  · obtain ⟨⟨d, hd⟩, h⟩ := OpenSpatialTable_first env self t
    rw [eventsSince_of_append hd.symm] at h
    exact ⟨env.event self.trace.length .SE_reginfo_create, d, rfl, h, by
      rw [← hd, SE_trace]; simp⟩
  · obtain ⟨⟨d, hd⟩, h⟩ := EnumerateSpatialTables_first env self
    rw [eventsSince_of_append hd.symm] at h
    exact ⟨env.event self.trace.length .SE_registration_get_info_list, d, rfl, h, by
      rw [← hd, SE_trace]; simp⟩

theorem SetVersionState_extends_first (env : Env) (s : OGRSDEDataSource) (v : String) :
    (SE env s .SE_versioninfo_create).self.trace <+: (SetVersionState env s v).2.trace := by
  unfold SetVersionState
  simp only []
  split_ifs
  all_goals first
    | (refine List.IsPrefix.trans ?_ (openEditState_adds env _).1
       simp [List.append_assoc])
    | simp [IssueSDEError_trace, List.append_assoc]

theorem SetVersionState_first (env : Env) (s : OGRSDEDataSource) (v : String) :
    ∃ g t2, g.call = .SE_versioninfo_create
      ∧ (∀ e ∈ g :: t2, sessionCall e.call = true)
      ∧ (SetVersionState env s v).2.trace = s.trace ++ g :: t2 := by
  obtain ⟨d, hd⟩ := SetVersionState_extends_first env s v
  have htr : (SetVersionState env s v).2.trace
      = s.trace ++ env.event s.trace.length .SE_versioninfo_create :: d := by
    rw [← hd, SE_trace]; simp
  have h := (SetVersionState_adds env s v).2
  rw [eventsSince_of_append htr] at h
  exact ⟨_, d, rfl, h, htr⟩

theorem openTablesAndVersion_order (env : Env) (self : OGRSDEDataSource)
    (papszTokens : List String) :
    ∃ (f g : Event) (t1 t2 : List Event) (s : OGRSDEDataSource) (v : String),
      isTableStep f.call = true
      ∧ (∀ e ∈ t1, tableCall e.call = true)
      ∧ s.trace = self.trace ++ f :: t1
      ∧ g.call = .SE_versioninfo_create
      ∧ (∀ e ∈ g :: t2, sessionCall e.call = true)
      ∧ (SetVersionState env s v).2.trace = s.trace ++ g :: t2
      ∧ (openTablesAndVersion env self papszTokens).1
          = (if (SetVersionState env s v).1 = 0 then FALSE else TRUE)
      ∧ (openTablesAndVersion env self papszTokens).2 = (SetVersionState env s v).2 := by
  obtain ⟨f, t1, hf, ht1, hs⟩ := tables_first env self
    (papszTokens.length = 6 ∧ papszTokens.getD 5 "" ≠ "") (papszTokens.getD 5 "")
  obtain ⟨g, t2, hg, ht2, hv⟩ := SetVersionState_first env
    (if papszTokens.length = 6 ∧ papszTokens.getD 5 "" ≠ "" then
      OpenSpatialTable env self (papszTokens.getD 5 "")
    else EnumerateSpatialTables env self)
    (if papszTokens.length = 7 ∧ papszTokens.getD 6 "" ≠ "" then papszTokens.getD 6 ""
    else "SDE.DEFAULT")
  refine ⟨f, g, t1, t2, _, _, hf, ht1, hs, hg, ht2, hv, ?_, ?_⟩
  · unfold openTablesAndVersion
    simp only []
    by_cases h7 : papszTokens.length = 7 ∧ papszTokens.getD 6 "" ≠ ""
    · rw [if_pos h7, if_pos h7]; split_ifs <;> rfl
    · rw [if_neg h7, if_neg h7]; split_ifs <;> rfl
  · unfold openTablesAndVersion
    simp only []
    by_cases h7 : papszTokens.length = 7 ∧ papszTokens.getD 6 "" ≠ ""
    · rw [if_pos h7, if_pos h7]; split_ifs <;> rfl
    · rw [if_neg h7, if_neg h7]; split_ifs <;> rfl

theorem order_of_tables (env : Env) (self S : OGRSDEDataSource) (papszTokens : List String)
    (c1 c2 : Event) (hS : S.trace = self.trace ++ [c1, c2])
    (hc1 : ∃ a b c d e, c1.call = .SE_connection_create a b c d e) (hr1 : c1.rc = SE_SUCCESS)
    (hc2 : c2.call = .SE_connection_set_concurrency) (hr2 : c2.rc = SE_SUCCESS) :
    TablesThenVersion env self (openTablesAndVersion env S papszTokens) := by
  obtain ⟨f, g, t1, t2, s, v, hf, ht1, hs, hg, ht2, hv, hR1, hR2⟩ :=
    openTablesAndVersion_order env S papszTokens
  refine Or.inr ⟨c1, c2, f, g, t1, t2, s, v, hc1, hr1, hc2, hr2, hf, ht1, ?_,
    hg, ht2, hv, hR1, hR2⟩
  rw [hs, hS]
  simp

theorem connect_order (env : Env) (self : OGRSDEDataSource) (pszNewName : String)
    (bUpdate : Bool) (papszTokens : List String) :
    TablesThenVersion env self (connect env self pszNewName bUpdate papszTokens) := by
  unfold connect
  simp only []
  split_ifs
  all_goals first
    | exact order_of_tables env self _ papszTokens
        (env.event self.trace.length (.SE_connection_create
          (papszTokens.getD 0 "") (papszTokens.getD 1 "") (papszTokens.getD 2 "")
          (papszTokens.getD 3 "") (papszTokens.getD 4 "")))
        (env.event (self.trace.length + 1) .SE_connection_set_concurrency)
        (by simp) ⟨_, _, _, _, _, rfl⟩ (by simp_all) rfl (by simp_all)
    | (refine Or.inl ⟨rfl, ?_⟩
       simp [Adds, eventsSince, IssueSDEError_trace, List.append_assoc] <;>
       (repeat' apply And.intro) <;>
       first
         | rfl
         | exact cleanupEvents_calls _ _ _ (fun _ => rfl) rfl)

theorem Open_order (env : Env) (self : OGRSDEDataSource) (pszNewName : String)
    (bUpdate : Bool) : TablesThenVersion env self (Open env self pszNewName bUpdate) := by
  unfold Open
  simp only []
  split_ifs
  · exact Or.inl ⟨rfl, Adds.same _ _⟩
  · exact Or.inl ⟨rfl, Adds.of_append [] (by simp) (by simp)⟩
  · exact connect_order env self pszNewName bUpdate _

/-- C15 (amended): every run of `Open` on a new object, whose unassigned flags
hold `g1` and `g2`, either returns `FALSE` without a call that opens or
enumerates tables and without a call of `SetVersionState`, or makes its calls
in this order: a successful `SE_connection_create` (`c1`), a successful
`SE_connection_set_concurrency` (`c2`), then the calls of `OpenSpatialTable` or
`EnumerateSpatialTables`, the first of which (`f`) opens or enumerates tables
and none of which is a call of `SetVersionState`, and last, from the state `s`
so reached, the calls of `SetVersionState`, which start with
`SE_versioninfo_create` (`g`) and include no call that opens or enumerates
tables.  The tables are opened after the connection is made and its concurrency
policy set, and before the version is resolved; `SetVersionState` is the last
step of `Open` and decides its result. -/
theorem tables_opened_before_version (env : Env) (g1 g2 : Bool) (pszNewName : String)
    (bUpdate : Bool) :
    ((Open env (OGRSDEDataSource.new env g1 g2) pszNewName bUpdate).1 = FALSE
      ∧ ∀ e ∈ (Open env (OGRSDEDataSource.new env g1 g2) pszNewName bUpdate).2.trace,
          isTableStep e.call = false ∧ isVersionStep e.call = false)
    ∨ ∃ (c1 c2 f g : Event) (t1 t2 : List Event) (s : OGRSDEDataSource) (v : String),
        (∃ a b c d e, c1.call = .SE_connection_create a b c d e) ∧ c1.rc = SE_SUCCESS
        ∧ c2.call = .SE_connection_set_concurrency ∧ c2.rc = SE_SUCCESS
        ∧ isTableStep f.call = true
        ∧ (∀ e ∈ f :: t1, tableCall e.call = true ∧ isVersionStep e.call = false)
        ∧ s.trace = c1 :: c2 :: f :: t1
        ∧ g.call = .SE_versioninfo_create
        ∧ (∀ e ∈ g :: t2, sessionCall e.call = true ∧ isTableStep e.call = false)
        ∧ (Open env (OGRSDEDataSource.new env g1 g2) pszNewName bUpdate).2.trace
            = c1 :: c2 :: f :: t1 ++ g :: t2
        ∧ (Open env (OGRSDEDataSource.new env g1 g2) pszNewName bUpdate).1
            = (if (SetVersionState env s v).1 = 0 then FALSE else TRUE)
        ∧ (Open env (OGRSDEDataSource.new env g1 g2) pszNewName bUpdate).2
            = (SetVersionState env s v).2 := by
  rcases Open_order env (OGRSDEDataSource.new env g1 g2) pszNewName bUpdate with
    ⟨h1, hA⟩ | ⟨c1, c2, f, g, t1, t2, s, v, hc1, hr1, hc2, hr2, hf, ht1, hs, hg, ht2, hv,
      hR1, hR2⟩
  · exact Or.inl ⟨h1, fun e he => earlyCall_not_step _ (hA.from_new e he)⟩
  · have hs' : s.trace = c1 :: c2 :: f :: t1 := by simpa [OGRSDEDataSource.new] using hs
    refine Or.inr ⟨c1, c2, f, g, t1, t2, s, v, hc1, hr1, hc2, hr2, hf, ?_, hs', hg, ?_, ?_,
      hR1, hR2⟩
    · intro e he
      have ht : tableCall e.call = true := by
        rcases List.mem_cons.1 he with rfl | h
        · revert hf; cases e.call <;> simp [isTableStep, tableCall]
        · exact ht1 e h
      exact ⟨ht, tableCall_not_versionStep _ ht⟩
    · exact fun e he => ⟨ht2 e he, sessionCall_not_tableStep _ (ht2 e he)⟩
    · rw [hR2, hv, hs']

@[simp] theorem made_nil (env : Env) (self : OGRSDEDataSource) : made env self [] = self := rfl

@[simp] theorem made_cons (env : Env) (self : OGRSDEDataSource) (c : Call) (l : List Call) :
    made env self (c :: l) = made env (SE env self c).self l := rfl

theorem made_append (env : Env) (l1 l2 : List Call) (self : OGRSDEDataSource) :
    made env self (l1 ++ l2) = made env (made env self l1) l2 := by
  simp [made, List.foldl_append]

theorem made_frame (env : Env) (l : List Call) : ∀ self : OGRSDEDataSource,
    (made env self l).trace.map Event.call = self.trace.map Event.call ++ l
    ∧ (made env self l).trace.length = self.trace.length + l.length
    ∧ self.trace <+: (made env self l).trace
    ∧ (made env self l).papoLayers = self.papoLayers
    ∧ (made env self l).nLayers = self.nLayers
    ∧ (made env self l).errors = self.errors
    ∧ (made env self l).bDSUpdate = self.bDSUpdate := by
  induction l with
  | nil => intro self; simp
  | cons c l ih =>
    intro self
    obtain ⟨h1, h2, h3, h4, h5, h6, h7⟩ := ih (SE env self c).self
    refine ⟨?_, ?_, ?_, ?_, ?_, ?_, ?_⟩
    · simp [h1]
    · simp [h2]; omega
    · exact (List.prefix_append _ _).trans (by simpa using h3)
    · simpa using h4
    · simpa using h5
    · simpa using h6
    · simpa using h7

/-- The backend answers success to every call from position `k` on. -/
theorem rc_of_succeeds {env : Env} {k : Nat}
    (h : ∀ n c, k ≤ n → env.reply n c = SE_SUCCESS) (s : OGRSDEDataSource) (c : Call)
    (hk : k ≤ s.trace.length) : (SE env s c).rc = SE_SUCCESS := h _ _ hk

theorem setLayerInfo_ok (env : Env) (self : OGRSDEDataSource) (a b c : String) (m : Nat)
    (h : ∀ n x, self.trace.length ≤ n → env.reply n x = SE_SUCCESS) :
    setLayerInfo env self a b c m
      = (true, made env self [.SE_layerinfo_set_shape_types m,
          .SE_layerinfo_set_spatial_column a b, .SE_layerinfo_set_creation_keyword c]) := by
  unfold setLayerInfo
  simp only []
  rw [if_neg (by simp [h]), if_neg (by simp [h]), if_neg (by simp [h])]
  rfl

theorem getEnvelope_ok (env : Env) (self : OGRSDEDataSource)
    (poSRS : Option OGRSpatialReference)
    (h : ∀ n x, self.trace.length ≤ n → env.reply n x = SE_SUCCESS) :
    getEnvelope env self poSRS
      = (true, made env self (if (poSRS.map fun o => o.IsGeographic) = some true then []
          else [.SE_coordref_get_xy_envelope])) := by
  unfold getEnvelope
  simp only []
  by_cases hg : (poSRS.map fun o => o.IsGeographic) = some true
  · rw [if_pos hg, if_pos hg]
    rfl
  · rw [if_neg hg, if_neg hg, if_neg (by simp [h])]
    rfl

theorem setLayerExtent_ok (env : Env) (self : OGRSDEDataSource) (d : String)
    (h : ∀ n x, self.trace.length ≤ n → env.reply n x = SE_SUCCESS) :
    setLayerExtent env self d
      = (true, made env self [.SE_layerinfo_set_envelope, .SE_layerinfo_set_description d,
          .SE_layerinfo_set_grid_sizes, .SE_layerinfo_set_coordref]) := by
  unfold setLayerExtent
  simp only []
  rw [if_neg (by simp [h]), if_neg (by simp [h]), if_neg (by simp [h]), if_neg (by simp [h])]
  rfl

theorem getRegistration_ok (env : Env) (self : OGRSDEDataSource) (a b c : String)
    (h : ∀ n x, self.trace.length ≤ n → env.reply n x = SE_SUCCESS) :
    getRegistration env self a b c
      = (true, made env self [.SE_reginfo_create, .SE_registration_get_info a,
          .SE_reginfo_set_creation_keyword c, .SE_reginfo_set_rowid_column b]) := by
  unfold getRegistration
  simp only []
  rw [if_neg (by simp [h]), if_neg (by simp [h]), if_neg (by simp [h]), if_neg (by simp [h])]
  rfl

theorem setMultiversion_ok (env : Env) (self : OGRSDEDataSource) (opts : List String)
    (h : ∀ n x, self.trace.length ≤ n → env.reply n x = SE_SUCCESS) :
    setMultiversion env self opts
      = (true, made env self (if env.CSLFetchBoolean opts "SDE_MULTIVERSION" true then
          [.SE_reginfo_set_multiversion] else [])) := by
  unfold setMultiversion
  simp only []
  by_cases hm : env.CSLFetchBoolean opts "SDE_MULTIVERSION" true = true
  · rw [if_pos hm, if_pos hm, if_neg (by simp [h])]
    rfl
  · rw [if_neg hm, if_neg hm]
    rfl

theorem alterRegistration_ok (env : Env) (self : OGRSDEDataSource)
    (h : ∀ n x, self.trace.length ≤ n → env.reply n x = SE_SUCCESS) :
    alterRegistration env self
      = (true, made env self [.SE_registration_alter, .SE_reginfo_get_table_name,
          .SE_reginfo_free, .SE_coordref_free]) := by
  unfold alterRegistration
  simp only []
  rw [if_neg (by simp [h]), if_neg (by simp [h])]
  rfl

theorem succeeds_made {env : Env} {self : OGRSDEDataSource}
    (h : ∀ n x, self.trace.length ≤ n → env.reply n x = SE_SUCCESS) (l : List Call) :
    ∀ n x, (made env self l).trace.length ≤ n → env.reply n x = SE_SUCCESS := by
  intro n x hn
  rw [(made_frame env l self).2.1] at hn
  exact h n x (by omega)

theorem registerTable_ok (env : Env) (self : OGRSDEDataSource) (a b c : String)
    (opts : List String)
    (h : ∀ n x, self.trace.length ≤ n → env.reply n x = SE_SUCCESS) :
    registerTable env self a b c opts
      = (true, made env self ([.SE_reginfo_create, .SE_registration_get_info a,
          .SE_reginfo_set_creation_keyword c, .SE_reginfo_set_rowid_column b]
          ++ (if env.CSLFetchBoolean opts "SDE_MULTIVERSION" true then
            [.SE_reginfo_set_multiversion] else [])
          ++ [.SE_registration_alter, .SE_reginfo_get_table_name,
            .SE_reginfo_free, .SE_coordref_free])) := by
  unfold registerTable
  simp only []
  rw [getRegistration_ok env self a b c h]
  simp only [not_true_eq_false, if_false]
  rw [setMultiversion_ok env _ opts (succeeds_made h _)]
  simp only [not_true_eq_false, if_false]
  rw [alterRegistration_ok env _ (succeeds_made (succeeds_made h _) _)]
  rw [made_append, made_append]

theorem ConvertOSRtoSDESpatRef_ok (env : Env) (self : OGRSDEDataSource)
    (poSRS : Option OGRSpatialReference)
    (h : ∀ n x, self.trace.length ≤ n → env.reply n x = SE_SUCCESS)
    (hsrs : ∀ o, poSRS = some o → o.morphToESRI = OGRERR_NONE ∧ o.exportToWkt = OGRERR_NONE) :
    ConvertOSRtoSDESpatRef env self poSRS = (OGRERR_NONE, made env self (spatRefCalls poSRS)) := by
  unfold ConvertOSRtoSDESpatRef
  simp only []
  rw [if_neg (by simp [h])]
  cases poSRS with
  | none =>
    simp only []
    rw [if_neg (by simp [h])]
    rfl
  | some o =>
    obtain ⟨h1, h2⟩ := hsrs o rfl
    simp only []
    rw [if_neg (by simp [h1]), if_neg (by simp [h2]), if_neg (by simp [h])]
    rfl

theorem enableTable_ok (env : Env) (self : OGRSDEDataSource) (name : String)
    (poSRS : Option OGRSpatialReference) (opts : List String) (fid geom kw desc : String)
    (m : Nat) (h : ∀ n x, self.trace.length ≤ n → env.reply n x = SE_SUCCESS) :
    enableTable env self name poSRS opts fid geom kw desc m
      = addLayer env (made env self (enableCalls env name poSRS opts fid geom kw desc m))
          name fid geom kw desc := by
  have h1 := succeeds_made h [.SE_layerinfo_set_shape_types m,
    .SE_layerinfo_set_spatial_column name geom, .SE_layerinfo_set_creation_keyword kw]
  have h2 := succeeds_made h1 (if (poSRS.map fun o => o.IsGeographic) = some true then []
    else [.SE_coordref_get_xy_envelope])
  have h3 := succeeds_made h2 [.SE_layerinfo_set_envelope, .SE_layerinfo_set_description desc,
    .SE_layerinfo_set_grid_sizes, .SE_layerinfo_set_coordref]
  have h4 := succeeds_made h3 [.SE_layer_create, .SE_layerinfo_free]
  unfold enableTable
  simp only []
  rw [setLayerInfo_ok env self name geom kw m h]
  simp only [not_true_eq_false, if_false]
  rw [getEnvelope_ok env _ poSRS h1]
  simp only [not_true_eq_false, if_false]
  rw [setLayerExtent_ok env _ desc h2]
  simp only [not_true_eq_false, if_false]
  rw [if_neg (by simp [h3])]
  rw [show ∀ s : OGRSDEDataSource, (SE env (SE env s .SE_layer_create).self
      .SE_layerinfo_free).self = made env s [.SE_layer_create, .SE_layerinfo_free] from
    fun _ => rfl]
  rw [registerTable_ok env _ name fid kw opts h4]
  rw [if_neg (by simp)]
  simp only [enableCalls, made_append, made_cons, made_nil]

/-- When `shapeTypes` chooses shape types, it makes no call and leaves the
layers as they are. -/
theorem shapeTypes_some (env : Env) (s : OGRSDEDataSource) (name : String) (eType : Int)
    (m : Nat) (h : (shapeTypes env s name eType).1 = some m) :
    (shapeTypes env s name eType).2.trace = s.trace
    ∧ (shapeTypes env s name eType).2.papoLayers = s.papoLayers
    ∧ (shapeTypes env s name eType).2.nLayers = s.nLayers
    ∧ (shapeTypes env s name eType).2.bDSUpdate = s.bDSUpdate := by
  unfold shapeTypes at h ⊢
  simp only [] at h ⊢
  split_ifs at h ⊢
  all_goals exact ⟨rfl, rfl, rfl, rfl⟩

/-- The shape types `shapeTypes` chooses are those the claim lists. -/
theorem shapeTypes_claimed (env : Env) (s : OGRSDEDataSource) (name : String) (eType : Int)
    (hcodes : [env.wkbFlatten env.wkbUnknown, env.wkbPoint, env.wkbMultiPoint,
      env.wkbLineString, env.wkbMultiLineString, env.wkbPolygon, env.wkbMultiPolygon].Nodup)
    (m : Nat) (hm : (shapeTypes env s name eType).1 = some m) :
    ClaimedShapeTypes env eType m := by
  simp only [List.nodup_cons, List.mem_cons, List.mem_singleton, not_or, List.not_mem_nil,
    not_false_eq_true, List.nodup_nil, and_true] at hcodes
  obtain ⟨⟨u1, u2, u3, u4, u5, u6⟩, ⟨p1, p2, p3, p4, p5⟩, ⟨q1, q2, q3, q4⟩,
    ⟨l1, l2, l3⟩, ⟨k1, k2⟩, g1⟩ := hcodes
  refine ⟨?_, ?_, ?_, ?_, ?_⟩
  · unfold shapeTypes at hm
    simp only [] at hm
    split_ifs at hm <;> simp only [Option.some.injEq, Nat.zero_or] at hm <;>
      (subst hm; exact or_and_left_self _ _)
  · intro h
    refine Option.some.inj (hm.symm.trans ?_)
    unfold shapeTypes
    simp [h]
  · intro h
    have n1 : ¬ (env.wkbFlatten eType = env.wkbPoint
        ∨ env.wkbFlatten eType = env.wkbMultiPoint) := by
      omega
    refine Option.some.inj (hm.symm.trans ?_)
    unfold shapeTypes
    simp [h, n1, Nat.or_assoc]
  · intro h
    have n1 : ¬ (env.wkbFlatten eType = env.wkbPoint
        ∨ env.wkbFlatten eType = env.wkbMultiPoint) := by
      omega
    have n2 : ¬ (env.wkbFlatten eType = env.wkbLineString
        ∨ env.wkbFlatten eType = env.wkbMultiLineString) := by
      omega
    refine Option.some.inj (hm.symm.trans ?_)
    unfold shapeTypes
    simp [h, n1, n2]
  · intro h
    subst h
    refine Option.some.inj (hm.symm.trans ?_)
    unfold shapeTypes
    simp [u1, u2, u3, u4, u5, u6, Nat.or_assoc]

theorem shapeTypes_supported (env : Env) (s : OGRSDEDataSource) (name : String) (eType : Int) :
    (supported env eType → ∃ m, (shapeTypes env s name eType).1 = some m)
    ∧ (¬ supported env eType → (shapeTypes env s name eType).1 = none) := by
  unfold shapeTypes supported
  simp only []
  constructor
  · intro h
    split_ifs with a b c d
    · exact ⟨_, rfl⟩
    · exact ⟨_, rfl⟩
    · exact ⟨_, rfl⟩
    · exact ⟨_, rfl⟩
    · exfalso
      rcases h with h | h | h | h | h | h | h
      · exact a (Or.inl h)
      · exact a (Or.inr h)
      · exact b (Or.inl h)
      · exact b (Or.inr h)
      · exact c (Or.inl h)
      · exact c (Or.inr h)
      · exact d h
  · intro h
    simp only [not_or] at h
    obtain ⟨h1, h2, h3, h4, h5, h6, h7⟩ := h
    simp [h1, h2, h3, h4, h5, h6, h7]

/-- A `CreateLayer` in which every step succeeds: it makes the calls of
`createCalls` and ends in `addLayer`. -/
theorem CreateLayer_ok (env : Env) (self : OGRSDEDataSource) (name : String)
    (poSRS : Option OGRSpatialReference) (eType : Int) (opts : List String) (m : Nat)
    (h0 : (deleteExisting env name opts self.nLayers.toNat 0 self).1 = true)
    (h : ∀ n x, (deleteExisting env name opts self.nLayers.toNat 0 self).2.trace.length ≤ n →
      env.reply n x = SE_SUCCESS)
    (hsrs : ∀ o, poSRS = some o → o.morphToESRI = OGRERR_NONE ∧ o.exportToWkt = OGRERR_NONE)
    (hm : (shapeTypes env self name eType).1 = some m) :
    ∃ X : OGRSDEDataSource,
      CreateLayer env self name poSRS eType opts
        = addLayer env X name (env.SDE_FID.getD "OBJECTID")
            ((env.CSLFetchNameValue opts "GEOMETRY_NAME").getD "SHAPE")
            ((env.CSLFetchNameValue opts "SDE_KEYWORD").getD "DEFAULTS")
            ((env.CSLFetchNameValue opts "SDE_DESCRIPTION").getD
              ("Created by GDAL/OGR " ++ env.RELEASE_NAME))
      ∧ X.trace.map Event.call
          = (deleteExisting env name opts self.nLayers.toNat 0 self).2.trace.map Event.call
            ++ createCalls env name poSRS opts m
      ∧ (deleteExisting env name opts self.nLayers.toNat 0 self).2.trace <+: X.trace
      ∧ X.papoLayers = (deleteExisting env name opts self.nLayers.toNat 0 self).2.papoLayers
      ∧ X.nLayers = (deleteExisting env name opts self.nLayers.toNat 0 self).2.nLayers
      ∧ X.bDSUpdate = (deleteExisting env name opts self.nLayers.toNat 0 self).2.bDSUpdate := by
  generalize hS0 : (deleteExisting env name opts self.nLayers.toNat 0 self).2 = S0 at h
  have hd : deleteExisting env name opts self.nLayers.toNat 0 self = (true, S0) :=
    Prod.ext h0 hS0
  have e1 : (SE env S0 (.SE_table_create name)).self = made env S0 [.SE_table_create name] :=
    rfl
  have h1 := succeeds_made h [.SE_table_create name]
  have h2 := succeeds_made h1 (spatRefCalls poSRS)
  have h3 := succeeds_made h2 [.SE_layerinfo_create]
  have hm' : (shapeTypes env (made env (made env (made env S0 [.SE_table_create name])
      (spatRefCalls poSRS)) [.SE_layerinfo_create]) name eType).1 = some m :=
    (shapeTypes_fst env _ self name eType).trans hm
  obtain ⟨x1, x2, x3, x4⟩ := shapeTypes_some env _ name eType m hm'
  have hX : shapeTypes env (made env (made env (made env S0 [.SE_table_create name])
      (spatRefCalls poSRS)) [.SE_layerinfo_create]) name eType
      = (some m, (shapeTypes env (made env (made env (made env S0 [.SE_table_create name])
          (spatRefCalls poSRS)) [.SE_layerinfo_create]) name eType).2) := by
    rw [← hm']
  have h4 : ∀ n x, (shapeTypes env (made env (made env (made env S0 [.SE_table_create name])
      (spatRefCalls poSRS)) [.SE_layerinfo_create]) name eType).2.trace.length ≤ n →
      env.reply n x = SE_SUCCESS := by
    rw [x1]; exact h3
  refine ⟨made env (shapeTypes env (made env (made env (made env S0 [.SE_table_create name])
      (spatRefCalls poSRS)) [.SE_layerinfo_create]) name eType).2
      (enableCalls env name poSRS opts (env.SDE_FID.getD "OBJECTID")
        ((env.CSLFetchNameValue opts "GEOMETRY_NAME").getD "SHAPE")
        ((env.CSLFetchNameValue opts "SDE_KEYWORD").getD "DEFAULTS")
        ((env.CSLFetchNameValue opts "SDE_DESCRIPTION").getD
          ("Created by GDAL/OGR " ++ env.RELEASE_NAME)) m), ?_, ?_, ?_, ?_, ?_, ?_⟩
  · unfold CreateLayer
    simp only []
    rw [hd]
    simp only [not_true_eq_false, if_false]
    rw [if_neg (by simp [h]), e1, ConvertOSRtoSDESpatRef_ok env _ poSRS h1 hsrs]
    simp only [ne_eq, not_true_eq_false, if_false]
    rw [if_neg (by simp [h2])]
    rw [show ∀ s : OGRSDEDataSource, (SE env s .SE_layerinfo_create).self
      = made env s [.SE_layerinfo_create] from fun _ => rfl]
    rw [hX]
    simp only []
    exact enableTable_ok env _ name poSRS opts _ _ _ _ m h4
  · rw [(made_frame env _ _).1, x1, (made_frame env _ _).1, (made_frame env _ _).1,
      (made_frame env _ _).1]
    simp [createCalls, List.append_assoc]
  · refine List.IsPrefix.trans ?_ (made_frame env _ _).2.2.1
    rw [x1]
    exact ((made_frame env _ _).2.2.1.trans (made_frame env _ _).2.2.1).trans
      (made_frame env _ _).2.2.1
  · rw [(made_frame env _ _).2.2.2.1, x2, (made_frame env _ _).2.2.2.1,
      (made_frame env _ _).2.2.2.1, (made_frame env _ _).2.2.2.1]
  · rw [(made_frame env _ _).2.2.2.2.1, x3, (made_frame env _ _).2.2.2.2.1,
      (made_frame env _ _).2.2.2.2.1, (made_frame env _ _).2.2.2.2.1]
  · rw [(made_frame env _ _).2.2.2.2.2.2, x4, (made_frame env _ _).2.2.2.2.2.2,
      (made_frame env _ _).2.2.2.2.2.2, (made_frame env _ _).2.2.2.2.2.2]

theorem addLayer_some (env : Env) (X : OGRSDEDataSource) (name fid geom kw desc : String)
    (d : String × String)
    (h : env.Initialize (env.szQualifiedTable name) (some fid) (some geom) = some d) :
    addLayer env X name fid geom kw desc
      = (some { poLayer := { bUpdate := X.bDSUpdate, name := d.1, osShapeColumnName := d.2,
                             nFIDColumnType := env.SE_REGISTRATION_ROW_ID_COLUMN_TYPE_SDE }
                freed := [fid, geom, kw, desc] },
          { X with
            papoLayers := X.papoLayers.take X.nLayers.toNat ++
              [{ bUpdate := X.bDSUpdate, name := d.1, osShapeColumnName := d.2,
                 nFIDColumnType := env.SE_REGISTRATION_ROW_ID_COLUMN_TYPE_SDE }]
            nLayers := X.nLayers + 1 }) := by
  unfold addLayer
  rw [h]

/-- C20: the shape types of `CreateLayer` follow the geometry type.
(1) Every `SE_layerinfo_set_shape_types` call of `CreateLayer` passes shape
types that contain `SE_NIL_TYPE_MASK` and are `NIL|POINT` for a flattened type
point or multipoint, `NIL|LINE|SIMPLE_LINE` for linestring or multilinestring,
`NIL|AREA` for polygon or multipolygon, and `NIL|POINT|LINE|SIMPLE_LINE|AREA`
for `eType` equal to `wkbUnknown` (`ClaimedShapeTypes`).
(2) The call is made: when no layer of that name stands in the way, the
backend answers success to every call from then on, the spatial reference
converts, the new layer initializes (`d` is its name and geometry column) and
the geometry type is one of those seven, `CreateLayer` makes exactly the calls
of `createCalls`, among them `SE_layerinfo_set_shape_types` with such shape
types and `SE_layer_create`, adds the new layer to the list and reaches the
`CPLFree` calls of lines 905-908.
(3) For every other `eType`, `CreateLayer` returns `NULL`, calls neither
`SE_layerinfo_set_shape_types` nor `SE_layer_create`, and leaves the layer list
as its loop over the existing layers left it, with no layer added.
The geometry type codes are assumed distinct, and `wkbUnknown` flattened to be
none of the six others. -/
theorem shape_types_follow_geometry_type (env : Env) (self : OGRSDEDataSource)
    (pszLayerName : String) (poSRS : Option OGRSpatialReference) (eType : Int)
    (papszOptions : List String)
    (hcodes : [env.wkbFlatten env.wkbUnknown, env.wkbPoint, env.wkbMultiPoint,
      env.wkbLineString, env.wkbMultiLineString, env.wkbPolygon, env.wkbMultiPolygon].Nodup) :
    (∀ e ∈ eventsSince self (CreateLayer env self pszLayerName poSRS eType papszOptions).2,
        ∀ m, e.call = .SE_layerinfo_set_shape_types m → ClaimedShapeTypes env eType m)
    ∧ (∀ d : String × String,
        (deleteExisting env pszLayerName papszOptions self.nLayers.toNat 0 self).1 = true →
        (∀ n c,
          (deleteExisting env pszLayerName papszOptions self.nLayers.toNat 0
            self).2.trace.length ≤ n → env.reply n c = SE_SUCCESS) →
        (∀ o, poSRS = some o → o.morphToESRI = OGRERR_NONE ∧ o.exportToWkt = OGRERR_NONE) →
        env.Initialize (env.szQualifiedTable pszLayerName) (some (env.SDE_FID.getD "OBJECTID"))
          (some ((env.CSLFetchNameValue papszOptions "GEOMETRY_NAME").getD "SHAPE")) = some d →
        supported env eType →
        ∃ m, ClaimedShapeTypes env eType m
          ∧ (eventsSince
                (deleteExisting env pszLayerName papszOptions self.nLayers.toNat 0 self).2
                (CreateLayer env self pszLayerName poSRS eType papszOptions).2).map Event.call
              = createCalls env pszLayerName poSRS papszOptions m
          ∧ .SE_layerinfo_set_shape_types m
              ∈ (eventsSince self
                  (CreateLayer env self pszLayerName poSRS eType papszOptions).2).map
                    Event.call
          ∧ (CreateLayer env self pszLayerName poSRS eType papszOptions).1
              = some
                { poLayer :=
                    { bUpdate := (deleteExisting env pszLayerName papszOptions
                        self.nLayers.toNat 0 self).2.bDSUpdate
                      name := d.1
                      osShapeColumnName := d.2
                      nFIDColumnType := env.SE_REGISTRATION_ROW_ID_COLUMN_TYPE_SDE }
                  freed := [env.SDE_FID.getD "OBJECTID",
                    (env.CSLFetchNameValue papszOptions "GEOMETRY_NAME").getD "SHAPE",
                    (env.CSLFetchNameValue papszOptions "SDE_KEYWORD").getD "DEFAULTS",
                    (env.CSLFetchNameValue papszOptions "SDE_DESCRIPTION").getD
                      ("Created by GDAL/OGR " ++ env.RELEASE_NAME)] }
          ∧ (CreateLayer env self pszLayerName poSRS eType papszOptions).2.nLayers
              = (deleteExisting env pszLayerName papszOptions self.nLayers.toNat 0
                  self).2.nLayers + 1
          ∧ (CreateLayer env self pszLayerName poSRS eType papszOptions).2.papoLayers
              = (deleteExisting env pszLayerName papszOptions self.nLayers.toNat 0
                  self).2.papoLayers.take
                    (deleteExisting env pszLayerName papszOptions self.nLayers.toNat 0
                      self).2.nLayers.toNat
                ++ [{ bUpdate := (deleteExisting env pszLayerName papszOptions
                        self.nLayers.toNat 0 self).2.bDSUpdate
                      name := d.1
                      osShapeColumnName := d.2
                      nFIDColumnType := env.SE_REGISTRATION_ROW_ID_COLUMN_TYPE_SDE }])
    ∧ (¬ supported env eType →
        (CreateLayer env self pszLayerName poSRS eType papszOptions).1 = none
        ∧ (∀ e ∈ eventsSince self
              (CreateLayer env self pszLayerName poSRS eType papszOptions).2,
            e.call ≠ .SE_layer_create ∧ ∀ m, e.call ≠ .SE_layerinfo_set_shape_types m)
        ∧ (CreateLayer env self pszLayerName poSRS eType papszOptions).2.papoLayers
            = (deleteExisting env pszLayerName papszOptions self.nLayers.toNat 0
                self).2.papoLayers
        ∧ (CreateLayer env self pszLayerName poSRS eType papszOptions).2.nLayers
            = (deleteExisting env pszLayerName papszOptions self.nLayers.toNat 0
                self).2.nLayers
        ∧ (CreateLayer env self pszLayerName poSRS eType papszOptions).2.nLayers
            ≤ self.nLayers) := by
  have hA := CreateLayer_adds env self pszLayerName poSRS eType papszOptions
  refine ⟨?_, ?_, ?_⟩
  · intro e he m hm
    have := hA.2 e he
    rw [hm] at this
    exact shapeTypes_claimed env self pszLayerName eType hcodes m
      (by simpa [createCall] using this)
  · intro d h0 hrep hsrs hinit hsup
    obtain ⟨m, hm⟩ := (shapeTypes_supported env self pszLayerName eType).1 hsup
    obtain ⟨X, hR, hcalls, ⟨t, ht⟩, hl, hn, hu⟩ :=
      CreateLayer_ok env self pszLayerName poSRS eType papszOptions m h0 hrep hsrs hm
    have hB := deleteExisting_adds env pszLayerName papszOptions none self.nLayers.toNat 0 self
    rw [addLayer_some env X _ _ _ _ _ d hinit] at hR
    have htc : t.map Event.call = createCalls env pszLayerName poSRS papszOptions m := by
      rw [← ht, List.map_append] at hcalls
      exact List.append_cancel_left hcalls
    have hev : eventsSince
        (deleteExisting env pszLayerName papszOptions self.nLayers.toNat 0 self).2
        (CreateLayer env self pszLayerName poSRS eType papszOptions).2 = t := by
      rw [hR]
      exact eventsSince_of_append ht.symm
    refine ⟨m, shapeTypes_claimed env self pszLayerName eType hcodes m hm, ?_, ?_, ?_, ?_, ?_⟩
    · rw [hev, htc]
    · have hp : (deleteExisting env pszLayerName papszOptions self.nLayers.toNat 0
          self).2.trace <+: (CreateLayer env self pszLayerName poSRS eType
            papszOptions).2.trace := by
        rw [hR]; exact ⟨t, ht⟩
      rw [eventsSince_trans hB.1 hp, hev, List.map_append, htc]
      refine List.mem_append_right _ ?_
      simp [createCalls, enableCalls]
    · rw [hR, hu]
    · rw [hR]
      simp [hn]
    · rw [hR]
      simp [hn, hl, hu]
  · intro hns
    have hn : (shapeTypes env self pszLayerName eType).1 = none :=
      (shapeTypes_supported env self pszLayerName eType).2 hns
    obtain ⟨r1, r2, r3⟩ := CreateLayer_unsupported env self pszLayerName poSRS eType
      papszOptions hn
    refine ⟨r1, ?_, r2, r3, ?_⟩
    · intro e he
      have := hA.2 e he
      rw [hn] at this
      constructor
      · intro hc
        rw [hc] at this
        simp [createCall] at this
      · intro m hc
        rw [hc] at this
        simp [createCall] at this
    · rw [r3]
      exact deleteExisting_nLayers_le env _ _ _ _ _

/-- Witness for C20: on the sample backend, on which every call succeeds,
`CreateLayer` of a point layer `ROADS` (`eType` 1) on a session opened for
update calls `SE_layerinfo_set_shape_types` with shape types as the claim
lists; they are 3, `NIL|POINT`.  `CreateLayer` of a geometry collection
(`eType` 7) returns `NULL`. -/
theorem shape_types_follow_geometry_type_witness :
    (∃ m, ClaimedShapeTypes envOK 1 m
      ∧ Call.SE_layerinfo_set_shape_types m
          ∈ (eventsSince (openedForUpdate envOK).2
              (CreateLayer envOK (openedForUpdate envOK).2 "ROADS" none 1 []).2).map
                Event.call)
    ∧ (CreateLayer envOK (openedForUpdate envOK).2 "ROADS" none 7 []).1 = none
    ∧ (eventsSince (openedForUpdate envOK).2
          (CreateLayer envOK (openedForUpdate envOK).2 "ROADS" none 1 []).2).map Event.call
        = [.SE_table_create "ROADS", .SE_coordref_create, .SE_coordref_set_xy_by_envelope,
            .SE_layerinfo_create, .SE_layerinfo_set_shape_types 3,
            .SE_layerinfo_set_spatial_column "ROADS" "SHAPE",
            .SE_layerinfo_set_creation_keyword "DEFAULTS", .SE_coordref_get_xy_envelope,
            .SE_layerinfo_set_envelope,
            .SE_layerinfo_set_description "Created by GDAL/OGR 1.6.0",
            .SE_layerinfo_set_grid_sizes, .SE_layerinfo_set_coordref, .SE_layer_create,
            .SE_layerinfo_free, .SE_reginfo_create, .SE_registration_get_info "ROADS",
            .SE_reginfo_set_creation_keyword "DEFAULTS", .SE_reginfo_set_rowid_column "OBJECTID",
            .SE_reginfo_set_multiversion, .SE_registration_alter, .SE_reginfo_get_table_name,
            .SE_reginfo_free, .SE_coordref_free] :=
  ⟨((shape_types_follow_geometry_type envOK (openedForUpdate envOK).2 "ROADS" none 1 []
      (by decide)).2.1 (envOK.szQualifiedTable "ROADS", "SHAPE") (by decide)
      (fun _ _ _ => rfl) (fun _ h => by cases h) rfl (Or.inl (by decide))).imp
        (fun _ h => ⟨h.1, h.2.2.1⟩),
   ((shape_types_follow_geometry_type envOK (openedForUpdate envOK).2 "ROADS" none 7 []
      (by decide)).2.2 (by unfold supported; decide)).1,
   by decide⟩

end OGRSDE
